import Mathlib

/-!
# Story Catalog: offline submission and the service worker cache layer

A shallow embedding of

* `AddStoryPresenter.handleSubmit`, `handleOfflineSubmission` and
  `getCurrentLocation` (`src/scripts/pages/add-story/add-story-page.js`),
* the `install`, `activate` and `fetch` handlers of `src/sw.js`,
* `StoriesPresenter.toggleFavorite`, `loadStories`, `initMap` and `applyFilter`
  (`src/scripts/pages/stories/stories-page.js`),
* `FavoritesPage.filterAndDisplayFavorites`
  (`src/scripts/pages/favorites/favorites-page.js`),
* `HomePage.animateCounter` (`src/scripts/pages/home/home-page.js`),
* `initializeServicesLazily` (`src/scripts/index.js`), and
* the methods of `PushNotificationService`
  (`src/scripts/services/push-notification-service.js`),

followed by the properties checked against them.  The Sync Engine queue and the
favourites store, whose files are not among the sources, are modelled from the
specification and marked as such.

Asynchronous code is embedded as a function from the outcomes of the awaited
platform and collaborator calls to the ordered list of observable calls the code
makes (its trace).  Console output is not traced.

Collaborators that are not part of these files are inputs of the embedding:
`ApiService.addStory` and `window.syncService.addStoryOffline` may resolve or reject
with any value; the view helpers `showError`, `showSuccess`, `showLoading` and
`hideLoading` of the presenter base class are recorded as calls that return
normally; the network and the outcome of `cache.put` are fields of `Platform`, while
`caches.open`, `caches.keys`, `caches.delete` and the two `match` calls resolve as
the Cache API specifies them.
-/

namespace StoryCatalog

/-! ## JavaScript strings -/

/-- WhiteSpace and LineTerminator code points, the ones `String.prototype.trim` strips. -/
def isJsWhiteSpace (c : Char) : Bool :=
  let n := c.toNat
  n == 0x09 || n == 0x0A || n == 0x0B || n == 0x0C || n == 0x0D || n == 0x20 ||
  n == 0xA0 || n == 0x1680 || (0x2000 ≤ n && n ≤ 0x200A) || n == 0x2028 ||
  n == 0x2029 || n == 0x202F || n == 0x205F || n == 0x3000 || n == 0xFEFF

/-- The characters of `s.trim()`. -/
def trimChars (cs : List Char) : List Char :=
  ((cs.dropWhile isJsWhiteSpace).reverse.dropWhile isJsWhiteSpace).reverse

/-- JavaScript `s.trim()`. -/
def jsTrim (s : String) : String := ⟨trimChars s.data⟩

/-- JavaScript `s.length`: the number of UTF-16 code units of `s`. -/
def jsLength (s : String) : Nat :=
  (s.data.map (fun c => if c.toNat < 0x10000 then 1 else 2)).sum

/-- The pieces of `s.split(" ")`. -/
def splitOnSpace : List Char → List (List Char)
  | [] => [[]]
  | c :: cs =>
    if c = ' ' then [] :: splitOnSpace cs
    else
      match splitOnSpace cs with
      | [] => [[c]]
      | w :: ws => (c :: w) :: ws

/-- JavaScript `s.split(" ").slice(0, 5).join(" ")`. -/
def firstFiveWords (s : String) : String :=
  ⟨List.intercalate [' '] ((splitOnSpace s.data).take 5)⟩

/-- The JavaScript values the embedding tells apart. -/
inductive JsVal where
  | undefined
  | null
  | boolean (b : Bool)
  | string (s : String)
  deriving DecidableEq, Repr

/-- String conversion of a value, as `"text" + v` performs it. -/
def JsVal.toJsString : JsVal → String
  | .undefined => "undefined"
  | .null => "null"
  | .boolean true => "true"
  | .boolean false => "false"
  | .string s => s

/-- A thrown value or rejection reason, as far as reading its `message` property
observes it. -/
inductive JsThrown where
  /-- The reason `undefined` or `null`: reading `.message` raises a TypeError. -/
  | nullish
  /-- Any other reason, with the value of its `message` property
  (`undefined` when it has none). -/
  | withMessage (message : JsVal)
  deriving DecidableEq, Repr

/-- The error `new Error(text)`. -/
def JsThrown.error (text : String) : JsThrown := .withMessage (.string text)

/-! ## Add-story page: data -/

/-- An IEEE-754 double, identified by its bit pattern; the presenter only copies it. -/
structure JsNumber where
  bits : Nat
  deriving DecidableEq, Repr

/-- A `File` picked or captured by the user. -/
structure File where
  name : String
  type : String
  size : Nat
  deriving DecidableEq, Repr

/-- The presenter field `selectedLocation`, `{ lat, lon }`. -/
structure Location where
  lat : JsNumber
  lon : JsNumber
  deriving DecidableEq, Repr

/-- The object literal `storyData` built by `handleSubmit`. -/
structure StoryData where
  description : String
  photo : File
  lat : JsNumber
  lon : JsNumber
  name : String
  deriving DecidableEq, Repr

/-- The `FormData` appended for `ApiService.addStory`. -/
structure ApiFormData where
  description : String
  photo : File
  lat : JsNumber
  lon : JsNumber
  deriving DecidableEq, Repr

/-- The object `ApiService.addStory` resolves with; only `error` is inspected. -/
structure ApiResult where
  error : JsVal
  message : JsVal
  deriving DecidableEq, Repr

/-- Outcome of `await ApiService.addStory(apiFormData)`. -/
inductive ApiOutcome where
  /-- The promise resolves; `none` is a resolution with `undefined` or `null`. -/
  | returns (result : Option ApiResult)
  | throws (reason : JsThrown)
  deriving DecidableEq, Repr

/-- Outcome of `await window.syncService.addStoryOffline(storyData)`. -/
inductive OfflineOutcome where
  | resolves
  | rejects (reason : JsThrown)
  deriving DecidableEq, Repr

/-- The global `window.syncService` as `handleOfflineSubmission` probes it. -/
inductive SyncService where
  /-- The global `window.syncService` is falsy. -/
  | absent
  /-- The service object exists but `typeof addStoryOffline !== "function"`. -/
  | withoutAddStoryOffline
  /-- The service object exists and `addStoryOffline` is a function. -/
  | available (addStoryOffline : StoryData → OfflineOutcome)

/-- Everything `handleSubmit` reads besides its argument. -/
structure SubmitEnv where
  /-- The presenter field `this.selectedImage` (`null` is `none`). -/
  selectedImage : Option File
  /-- The presenter field `this.selectedLocation` (`null` is `none`). -/
  selectedLocation : Option Location
  /-- The value of `navigator.onLine` when it is read. -/
  onLine : Bool
  /-- The collaborator `ApiService.addStory`. -/
  addStory : ApiFormData → ApiOutcome
  /-- The global `window.syncService`. -/
  syncService : SyncService
  /-- The `message` of the TypeError the engine raises for a property read on
  `undefined` or `null`. -/
  typeErrorMessage : String

/-- Observable calls made by the presenter, in order. -/
inductive Effect where
  | showError (message : String)
  | showSuccess (message : String)
  | showLoading
  | hideLoading
  /-- The call `ApiService.addStory(apiFormData)`. -/
  | apiAddStory (form : ApiFormData)
  /-- The call `window.syncService.addStoryOffline(storyData)`. -/
  | addStoryOffline (story : StoryData)
  /-- The call `this.showLocalNotification(storyData)`, which catches its own errors. -/
  | showLocalNotification (story : StoryData)
  /-- The timer `setTimeout(() => window.location.hash = hash, delay)`. -/
  | redirectAfter (hash : String) (delay : Nat)
  deriving DecidableEq, Repr

/-! ## Add-story page: `handleOfflineSubmission` and `handleSubmit` -/

/-- The `catch (offlineError)` block of `handleOfflineSubmission`: the trace and,
when `offlineError.message` cannot be read, the TypeError text that escapes. -/
def offlineCatch (env : SubmitEnv) (offlineError : JsThrown) : List Effect × Option String :=
  match offlineError with
  | .nullish => ([.hideLoading], some env.typeErrorMessage)
  | .withMessage m =>
    ([.hideLoading, .showError ("Failed to save story: " ++ m.toJsString)], none)

/-- The method `handleOfflineSubmission(storyData)`: its trace and, when it
rejects, the message of the error it rejects with. -/
def handleOfflineSubmission (env : SubmitEnv) (storyData : StoryData) :
    List Effect × Option String :=
  match env.syncService with
  | .available addStoryOffline =>
    match addStoryOffline storyData with
    | .resolves =>
      ([.addStoryOffline storyData,
        .hideLoading,
        .showSuccess "Story saved offline! It will be synchronized when connection is restored.",
        .showLocalNotification { storyData with name := storyData.name ++ " (Offline)" },
        .redirectAfter "#/stories" 2000], none)
    | .rejects reason =>
      let (t, e) := offlineCatch env reason
      (.addStoryOffline storyData :: t, e)
  | _ => offlineCatch env (JsThrown.error "Offline service is not available")

/-- The inner `try` of `handleSubmit`, taken when `navigator.onLine` is true:
the trace and whether the method returned from inside it. -/
def submitOnline (env : SubmitEnv) (storyData : StoryData) : List Effect × Bool :=
  let apiFormData : ApiFormData :=
    { description := storyData.description, photo := storyData.photo,
      lat := storyData.lat, lon := storyData.lon }
  match env.addStory apiFormData with
  | .returns (some result) =>
    if result.error = JsVal.boolean false then
      ([.apiAddStory apiFormData,
        .hideLoading,
        .showSuccess "Story added successfully!",
        .showLocalNotification storyData,
        .redirectAfter "#/stories" 2000], true)
    else
      -- throw new Error(...), caught by `catch (onlineError)` and only logged
      ([.apiAddStory apiFormData], false)
  | .returns none =>
    -- `result.error` raises a TypeError, caught by `catch (onlineError)`
    ([.apiAddStory apiFormData], false)
  | .throws _ => ([.apiAddStory apiFormData], false)

/-- The outer `catch (error)` of `handleSubmit`, applied to the outcome of the
awaited `handleOfflineSubmission`: a rejection is reported, nothing else is added. -/
def afterOffline : List Effect × Option String → List Effect
  | (offline, none) => offline
  | (offline, some message) =>
    offline ++ [.hideLoading, .showError ("An error occurred: " ++ message)]

/-- The method `handleSubmit(formData)`; `description` is `formData.get("description")`,
the string of the form field, with `none` for `null`. -/
def handleSubmit (env : SubmitEnv) (description : Option String) : List Effect :=
  match env.selectedImage with
  | none => [.showError "Please pick or capture a photo first"]
  | some image =>
    match env.selectedLocation with
    | none => [.showError "Please select a location on the map"]
    | some location =>
      match description with
      | none => [.showError "Description must be at least 10 characters"]
      | some d =>
        if d = "" ∨ jsLength (jsTrim d) < 10 then
          [.showError "Description must be at least 10 characters"]
        else
          let storyData : StoryData :=
            { description := jsTrim d, photo := image,
              lat := location.lat, lon := location.lon,
              name := firstFiveWords (jsTrim d) }
          let (online, returned) :=
            if env.onLine then submitOnline env storyData else ([], false)
          if returned then
            .showLoading :: online
          else
            .showLoading :: (online ++ afterOffline (handleOfflineSubmission env storyData))

/-! ## Add-story page: reading a trace -/

/-- The `storyData` object `handleSubmit` builds for a valid submission. -/
def storyDataOf (image : File) (location : Location) (d : String) : StoryData :=
  { description := jsTrim d, photo := image, lat := location.lat, lon := location.lon,
    name := firstFiveWords (jsTrim d) }

/-- The form data `handleSubmit` sends for a story. -/
def apiFormOf (s : StoryData) : ApiFormData :=
  { description := s.description, photo := s.photo, lat := s.lat, lon := s.lon }

/-- Arguments of the `ApiService.addStory` calls in a trace. -/
def apiCalls : List Effect → List ApiFormData
  | [] => []
  | .apiAddStory f :: t => f :: apiCalls t
  | _ :: t => apiCalls t

/-- Arguments of the `addStoryOffline` calls in a trace. -/
def offlineCalls : List Effect → List StoryData
  | [] => []
  | .addStoryOffline s :: t => s :: offlineCalls t
  | _ :: t => offlineCalls t

/-- Messages passed to `showError` in a trace. -/
def errorsShown : List Effect → List String
  | [] => []
  | .showError m :: t => m :: errorsShown t
  | _ :: t => errorsShown t

/-- Messages passed to `showSuccess` in a trace. -/
def successesShown : List Effect → List String
  | [] => []
  | .showSuccess m :: t => m :: successesShown t
  | _ :: t => successesShown t

/-- Whether the remote submit answered with `error === false`. -/
def apiAccepted (env : SubmitEnv) (s : StoryData) : Bool :=
  match env.addStory (apiFormOf s) with
  | .returns (some result) => decide (result.error = JsVal.boolean false)
  | _ => false

/-- Whether `window.syncService.addStoryOffline` is callable. -/
def SyncService.callable : SyncService → Bool
  | .available _ => true
  | _ => false

/-- JavaScript `s.startsWith(p)`. -/
def startsWith (s p : String) : Bool := p.data.isPrefixOf s.data

/-- The error `handleOfflineSubmission` catches when the offline save fails;
`none` when `addStoryOffline` is called and resolves. -/
def offlineFailure (env : SubmitEnv) (s : StoryData) : Option JsThrown :=
  match env.syncService with
  | .available addStoryOffline =>
    match addStoryOffline s with
    | .resolves => none
    | .rejects reason => some reason
  | _ => some (JsThrown.error "Offline service is not available")

/-! ## Add-story page: sample inputs -/

/-- A picked photo. -/
def samplePhoto : File := { name := "harbour.png", type := "image/png", size := 204800 }

/-- A picked location. -/
def sampleLocation : Location := { lat := { bits := 4618441417868443648 }, lon := { bits := 0 } }

/-- A description that passes validation (trimmed length 21). -/
def sampleDescription : String := "  Sunset at the harbour \n"

/-- A presenter with photo and location picked. -/
def sampleEnv (onLine : Bool) (addStory : ApiFormData → ApiOutcome) (sync : SyncService) :
    SubmitEnv :=
  { selectedImage := some samplePhoto, selectedLocation := some sampleLocation,
    onLine := onLine, addStory := addStory, syncService := sync,
    typeErrorMessage := "offlineError is undefined" }

/-! ## Service worker: data -/

/-- The constant `CACHE_NAME` of `sw.js` (declared there, used by no handler). -/
def CACHE_NAME : String := "story-catalog-v1"

/-- The constant `STATIC_CACHE` of `sw.js`. -/
def STATIC_CACHE : String := "story-catalog-static-v1"

/-- The constant `DYNAMIC_CACHE` of `sw.js`. -/
def DYNAMIC_CACHE : String := "story-catalog-dynamic-v1"

/-- The constant `STATIC_ASSETS` of `sw.js`. -/
def STATIC_ASSETS : List String :=
  ["/", "/index.html", "/scripts/index.js", "/styles/styles.css", "/manifest.json",
    "/images/story.png", "/images/icon-512x512.png",
    "https://unpkg.com/leaflet@1.9.4/dist/leaflet.css",
    "https://unpkg.com/leaflet@1.9.4/dist/leaflet.js"]

/-- The origin the fetch handler treats as the Story API. -/
def STORY_API_ORIGIN : String := "https://story-api.dicoding.dev"

/-- A `Response`, as far as the handlers and their callers observe it. -/
structure Response where
  status : Nat
  statusText : String
  headers : List (String × String)
  body : String
  deriving DecidableEq, Repr

/-- A `Request`, as far as the fetch handler reads it. -/
structure Request where
  /-- The serialised absolute URL, `request.url`. -/
  url : String
  /-- The origin the platform parses from it, `new URL(request.url).origin`. -/
  origin : String
  method : String
  destination : String
  /-- The value of `request.headers.get("accept")`, `none` for `null`. -/
  accept : Option String
  deriving DecidableEq, Repr

/-- One `Cache`: responses keyed by request URL, oldest first. -/
abbrev Cache := List (String × Response)

/-- The `CacheStorage` behind the global `caches`: named caches in creation order. -/
abbrev CacheStorage := List (String × Cache)

/-- What the service worker takes from the platform. -/
structure Platform where
  /-- The origin of the worker, `self.location.origin`. -/
  selfOrigin : String
  /-- The network: `fetch(request)` resolves with a response or rejects (`none`). -/
  fetch : Request → Option Response
  /-- Whether `cache.put(request, response)` resolves; a rejection is caught and
  logged by the handler. -/
  putResolves : Request → Response → Bool

/-- Calls the service worker makes on the network and on `caches`, in order. -/
inductive SwEffect where
  | fetch (request : Request)
  | cachesOpen (name : String)
  | cachesKeys
  | cachesDelete (name : String)
  /-- The call `cache.put(request, response)` on the cache opened under `cacheName`. -/
  | cachePut (cacheName : String) (request : Request) (response : Response)
  /-- The call `cache.match(request)` on the cache opened under `cacheName`. -/
  | cacheMatch (cacheName : String) (request : Request)
  /-- The call `caches.match(...)` for the given absolute URL. -/
  | cachesMatch (url : String)
  | clientsClaim
  /-- The call `cache.addAll(urls)` on the cache opened under `cacheName`. -/
  | cacheAddAll (cacheName : String) (urls : List String)
  | skipWaiting
  deriving DecidableEq, Repr

/-- What one run of an event handler leaves behind. -/
structure HandlerResult where
  /-- The response promise: `none` when `event.respondWith` was not called, `some x`
  when it was called with a promise that settles to `x`, where `none` is `undefined`. -/
  respondWith : Option (Option Response)
  /-- The calls made, in order. -/
  effects : List SwEffect
  /-- The cache storage once every promise the handler started has settled. -/
  caches : CacheStorage
  deriving DecidableEq, Repr

/-! ## Service worker: the Cache API -/

/-- The names `caches.keys()` resolves with. -/
def cachesKeys (storage : CacheStorage) : List String := storage.map (·.1)

/-- The storage after `caches.open(name)`: the cache is created when missing. -/
def cachesOpen (name : String) (storage : CacheStorage) : CacheStorage :=
  if name ∈ cachesKeys storage then storage else storage ++ [(name, [])]

/-- The storage after `caches.delete(name)`. -/
def cachesDelete (name : String) (storage : CacheStorage) : CacheStorage :=
  storage.filter (fun c => c.1 ≠ name)

/-- The contents of the cache called `name`, empty when there is none. -/
def cacheNamed (name : String) (storage : CacheStorage) : Cache :=
  (storage.lookup name).getD []

/-- The result of `cache.match(request)`: the entry stored under the URL. -/
def cacheMatch (cache : Cache) (url : String) : Option Response := cache.lookup url

/-- The cache after `cache.put(request, response)`: the entry replaces any other
stored under the URL. -/
def cachePut (cache : Cache) (url : String) (response : Response) : Cache :=
  cache.filter (fun e => e.1 ≠ url) ++ [(url, response)]

/-- The storage after a `put` that resolves on the cache called `name`. -/
def storagePut (name : String) (url : String) (response : Response)
    (storage : CacheStorage) : CacheStorage :=
  storage.map (fun c => if c.1 = name then (c.1, cachePut c.2 url response) else c)

/-- The result of `caches.match(url)`: the first match, caches taken in creation order. -/
def cachesMatch (storage : CacheStorage) (url : String) : Option Response :=
  storage.findSome? (fun c => cacheMatch c.2 url)

/-! ## Service worker: JSON bodies -/

/-- The values in the object literals `sw.js` serialises. -/
inductive JsonValue where
  | bool (b : Bool)
  | str (s : String)
  deriving DecidableEq, Repr

/-- Lower-case hexadecimal digit. -/
def hexDigit (n : Nat) : Char :=
  if n < 10 then Char.ofNat (48 + n) else Char.ofNat (87 + n)

/-- The escape `JSON.stringify` writes for one character of a string. -/
def jsonEscapeChar (c : Char) : List Char :=
  if c = '"' then ['\\', '"']
  else if c = '\\' then ['\\', '\\']
  else if c = '\n' then ['\\', 'n']
  else if c = '\r' then ['\\', 'r']
  else if c = '\t' then ['\\', 't']
  else if c.toNat = 8 then ['\\', 'b']
  else if c.toNat = 12 then ['\\', 'f']
  else if c.toNat < 32 then
    ['\\', 'u', '0', '0', hexDigit (c.toNat / 16), hexDigit (c.toNat % 16)]
  else [c]

/-- The text `JSON.stringify` gives for a string. -/
def jsonQuote (s : String) : String :=
  ⟨'"' :: (s.data.flatMap jsonEscapeChar ++ ['"'])⟩

/-- The text `JSON.stringify` gives for a boolean or string. -/
def JsonValue.stringify : JsonValue → String
  | .bool true => "true"
  | .bool false => "false"
  | .str s => jsonQuote s

/-- The text `JSON.stringify` gives for a flat object literal. -/
def jsonStringify (fields : List (String × JsonValue)) : String :=
  "\x7b" ++ String.intercalate ","
    (fields.map (fun f => jsonQuote f.1 ++ ":" ++ f.2.stringify)) ++ "\x7d"

/-! ## Service worker: `activate` and `fetch` handlers -/

/-- The response synthesised for a Story API request with no network and no
cached copy. -/
def offlineApiResponse : Response :=
  { status := 503, statusText := "",
    headers := [("Content-Type", "application/json")],
    body := jsonStringify
      [("error", .bool true),
       ("message", .str "You are offline. Please check your connection.")] }

/-- The response synthesised for any other request with no network and no cached
copy. -/
def offlineTextResponse : Response :=
  { status := 503, statusText := "Service Unavailable",
    headers := [("Content-Type", "text/plain")],
    body := "Offline - No cached content available" }

/-- JavaScript `s.includes(p)`. -/
def jsIncludes (s p : String) : Bool := s.data.tails.any (fun t => p.data.isPrefixOf t)

/-- The navigation test of the fetch handler:
`request.destination === "document" || request.headers.get("accept")?.includes("text/html")`. -/
def isNavigation (request : Request) : Bool :=
  request.destination == "document" ||
    (match request.accept with
      | some a => jsIncludes a "text/html"
      | none => false)

/-- The `activate` listener: every name from `caches.keys()` other than
`STATIC_CACHE` and `DYNAMIC_CACHE` is passed to `caches.delete`, then the clients
are claimed. -/
def activateHandler (caches : CacheStorage) : HandlerResult :=
  let swept :=
    (cachesKeys caches).foldl
      (fun (acc : CacheStorage × List SwEffect) cacheName =>
        if cacheName ≠ STATIC_CACHE ∧ cacheName ≠ DYNAMIC_CACHE then
          (cachesDelete cacheName acc.1, acc.2 ++ [.cachesDelete cacheName])
        else acc)
      (caches, [.cachesKeys])
  { respondWith := none, effects := swept.2 ++ [.clientsClaim], caches := swept.1 }

/-- The `fetch` listener, run on one fetch event. -/
def fetchHandler (p : Platform) (caches : CacheStorage) (request : Request) : HandlerResult :=
  if request.method ≠ "GET" then
    { respondWith := none, effects := [], caches := caches }
  else if request.origin = STORY_API_ORIGIN then
    let opened := cachesOpen DYNAMIC_CACHE caches
    match p.fetch request with
    | some response =>
      if response.status = 200 then
        { respondWith := some (some response),
          effects := [.cachesOpen DYNAMIC_CACHE, .fetch request,
            .cachePut DYNAMIC_CACHE request response],
          caches :=
            if p.putResolves request response then
              storagePut DYNAMIC_CACHE request.url response opened
            else opened }
      else
        { respondWith := some (some response),
          effects := [.cachesOpen DYNAMIC_CACHE, .fetch request],
          caches := opened }
    | none =>
      match cacheMatch (cacheNamed DYNAMIC_CACHE opened) request.url with
      | some cachedResponse =>
        { respondWith := some (some cachedResponse),
          effects := [.cachesOpen DYNAMIC_CACHE, .fetch request,
            .cacheMatch DYNAMIC_CACHE request],
          caches := opened }
      | none =>
        { respondWith := some (some offlineApiResponse),
          effects := [.cachesOpen DYNAMIC_CACHE, .fetch request,
            .cacheMatch DYNAMIC_CACHE request],
          caches := opened }
  else
    match p.fetch request with
    | some response =>
      if startsWith request.url p.selfOrigin ∧ response.status = 200 then
        { respondWith := some (some response),
          effects := [.fetch request, .cachesOpen DYNAMIC_CACHE,
            .cachePut DYNAMIC_CACHE request response],
          caches :=
            if p.putResolves request response then
              storagePut DYNAMIC_CACHE request.url response (cachesOpen DYNAMIC_CACHE caches)
            else cachesOpen DYNAMIC_CACHE caches }
      else
        { respondWith := some (some response), effects := [.fetch request], caches := caches }
    | none =>
      match cachesMatch caches request.url with
      | some response =>
        { respondWith := some (some response),
          effects := [.fetch request, .cachesMatch request.url],
          caches := caches }
      | none =>
        if isNavigation request then
          { respondWith := some (cachesMatch caches (p.selfOrigin ++ "/index.html")),
            effects := [.fetch request, .cachesMatch request.url,
              .cachesMatch (p.selfOrigin ++ "/index.html")],
            caches := caches }
        else
          { respondWith := some (some offlineTextResponse),
            effects := [.fetch request, .cachesMatch request.url],
            caches := caches }

/-! ## Service worker: reading a result -/

/-- The `cache.put` calls in a trace: cache name, request and response. -/
def putCalls : List SwEffect → List (String × Request × Response)
  | [] => []
  | .cachePut n r x :: t => (n, r, x) :: putCalls t
  | _ :: t => putCalls t

/-- The names passed to `caches.delete` in a trace. -/
def deleteCalls : List SwEffect → List String
  | [] => []
  | .cachesDelete n :: t => n :: deleteCalls t
  | _ :: t => deleteCalls t

/-- The requests passed to `fetch` in a trace. -/
def fetchCalls : List SwEffect → List Request
  | [] => []
  | .fetch r :: t => r :: fetchCalls t
  | _ :: t => fetchCalls t

/-! ## Service worker: sample inputs -/

/-- The origin the application is served from. -/
def appOrigin : String := "https://stories.example"

/-- A `GET` of the Story API list. -/
def storiesRequest : Request :=
  { url := "https://story-api.dicoding.dev/v1/stories", origin := STORY_API_ORIGIN,
    method := "GET", destination := "", accept := some "*/*" }

/-- A page load of the application shell, one of `STATIC_ASSETS`. -/
def shellRequest : Request :=
  { url := "https://stories.example/index.html", origin := appOrigin,
    method := "GET", destination := "document",
    accept := some "text/html,application/xhtml+xml" }

/-- The shell as `install` cached it. -/
def cachedShell : Response :=
  { status := 200, statusText := "OK", headers := [("Content-Type", "text/html")],
    body := "<!doctype html><title>v1</title>" }

/-- The shell as the network serves it now. -/
def freshShell : Response :=
  { status := 200, statusText := "OK", headers := [("Content-Type", "text/html")],
    body := "<!doctype html><title>v2</title>" }

/-- A story list as the API serves it. -/
def storiesResponse : Response :=
  { status := 200, statusText := "OK", headers := [("Content-Type", "application/json")],
    body := jsonStringify [("error", .bool false), ("message", .str "Stories fetched")] }

/-- A platform with the given network, whose `cache.put` always resolves. -/
def samplePlatform (fetch : Request → Option Response) : Platform :=
  { selfOrigin := appOrigin, fetch := fetch, putResolves := fun _ _ => true }

/-- A cache storage holding the shell in the static cache and nothing else. -/
def installedCaches : CacheStorage :=
  [(STATIC_CACHE, [("https://stories.example/index.html", cachedShell)])]

/-! ## Service worker: `install` handler and event sequences -/

/-- The absolute URL an entry of `STATIC_ASSETS` names for a worker served from
`selfOrigin`: an absolute path is appended to the origin, an absolute URL is kept. -/
def assetUrl (selfOrigin u : String) : String :=
  if startsWith u "/" then selfOrigin ++ u else u

/-- The authority of a serialised URL: the characters before the path, query or
fragment. -/
def takeAuthority : List Char → List Char
  | [] => []
  | c :: cs => if c = '/' ∨ c = '?' ∨ c = '#' then [] else c :: takeAuthority cs

/-- The characters of the origin of a serialised http(s) URL. -/
def originChars : List Char → List Char
  | [] => []
  | c :: rest =>
    match c, rest with
    | ':', '/' :: '/' :: tail => ':' :: '/' :: '/' :: takeAuthority tail
    | _, _ => c :: originChars rest

/-- The origin of a serialised http(s) URL: scheme, `://` and authority. -/
def originOfUrl (url : String) : String := ⟨originChars url.data⟩

/-- The request `cache.addAll` builds from an entry of `STATIC_ASSETS`. -/
def assetRequest (selfOrigin u : String) : Request :=
  { url := assetUrl selfOrigin u, origin := originOfUrl (assetUrl selfOrigin u),
    method := "GET", destination := "", accept := none }

/-- The responses `cache.addAll` accepts: an ok status other than 206. -/
def addAllAccepts (response : Response) : Bool :=
  decide (200 ≤ response.status) && decide (response.status ≤ 299) &&
    !decide (response.status = 206)

/-- The fetches of `cache.addAll`: every request with its response, or `none` when
a fetch rejects or a response is not accepted. -/
def fetchAll (p : Platform) : List Request → Option (List (Request × Response))
  | [] => some []
  | request :: rest =>
    match p.fetch request with
    | some response =>
      if addAllAccepts response then
        (fetchAll p rest).map (fun pairs => (request, response) :: pairs)
      else none
    | none => none

/-- The storage after the batch of puts of a resolved `cache.addAll`. -/
def storagePutAll (name : String) (pairs : List (Request × Response))
    (storage : CacheStorage) : CacheStorage :=
  pairs.foldl (fun s e => storagePut name e.1.url e.2 s) storage

/-- The `install` listener: `STATIC_CACHE` is opened and `cache.addAll(STATIC_ASSETS)`
fetches every asset; when all are fetched and stored the worker skips waiting, and
when `addAll` rejects nothing is stored and the rejection is logged. -/
def installHandler (p : Platform) (caches : CacheStorage) : HandlerResult :=
  let opened := cachesOpen STATIC_CACHE caches
  let requests := STATIC_ASSETS.map (assetRequest p.selfOrigin)
  match fetchAll p requests with
  | some pairs =>
    if pairs.all (fun e => p.putResolves e.1 e.2) then
      { respondWith := none,
        effects := [.cachesOpen STATIC_CACHE, .cacheAddAll STATIC_CACHE STATIC_ASSETS] ++
          requests.map SwEffect.fetch ++
          pairs.map (fun e => SwEffect.cachePut STATIC_CACHE e.1 e.2) ++ [.skipWaiting],
        caches := storagePutAll STATIC_CACHE pairs opened }
    else
      { respondWith := none,
        effects := [.cachesOpen STATIC_CACHE, .cacheAddAll STATIC_CACHE STATIC_ASSETS] ++
          requests.map SwEffect.fetch,
        caches := opened }
  | none =>
    { respondWith := none,
      effects := [.cachesOpen STATIC_CACHE, .cacheAddAll STATIC_CACHE STATIC_ASSETS] ++
        requests.map SwEffect.fetch,
      caches := opened }

/-- An event delivered to the service worker. -/
inductive SwEvent where
  | install
  | fetch (request : Request)
  deriving DecidableEq, Repr

/-- One event handled on the platform as it is when the event arrives. -/
def handleEvent (p : Platform) (caches : CacheStorage) : SwEvent → HandlerResult
  | .install => installHandler p caches
  | .fetch request => fetchHandler p caches request

/-- A sequence of events, each with the platform of its moment: all calls made, in
order, and the cache storage left. -/
def runEvents : List (Platform × SwEvent) → CacheStorage → List SwEffect × CacheStorage
  | [], caches => ([], caches)
  | (p, e) :: rest, caches =>
    ((handleEvent p caches e).effects ++ (runEvents rest (handleEvent p caches e).caches).1,
      (runEvents rest (handleEvent p caches e).caches).2)

/-- A network that serves the fresh shell for every request. -/
def shellNetwork : Platform := samplePlatform fun _ => some freshShell

/-! ## Sync Engine: the PendingWrite queue -/

/-- Modelled from the spec: a `PendingWrite` queue entry (section 3), with the local
id of the story it carries, the serialised submission and the attempt count. The
Sync Engine itself, `services/sync-service.js`, is not among the sources; `index.js`
only constructs and initialises it. -/
structure PendingWrite where
  id : Nat
  payload : StoryData
  attempts : Nat
  deriving DecidableEq, Repr

/-- Modelled from the spec: the entry after a failed submission (section 4.3,
"entry remains queued, attempt count incremented"). -/
def PendingWrite.retried (e : PendingWrite) : PendingWrite :=
  { e with attempts := e.attempts + 1 }

/-- Modelled from the spec: the queue after one submission of a flush has settled
(section 4.3, Flushing): success removes the entry, failure leaves it queued with its
attempt count incremented. -/
def settleEntry (succeeded : Bool) (e : PendingWrite) (queue : List PendingWrite) :
    List PendingWrite :=
  if succeeded then queue.filter (fun x => x.id ≠ e.id)
  else queue.map (fun x => if x.id = e.id then x.retried else x)

/-- Modelled from the spec: the flush loop over the snapshot taken at flush start
(sections 4.3 and 5). Entry number `i` of the snapshot is submitted with `remote`,
and `arrivals i` are the entries enqueued while that submission is in flight; the
loop goes on after a failure. The result is the queue left and the entries
submitted, in order. -/
def flushLoop (remote : PendingWrite → Bool) (arrivals : Nat → List PendingWrite) :
    Nat → List PendingWrite → List PendingWrite → List PendingWrite × List PendingWrite
  | _, [], queue => (queue, [])
  | i, e :: rest, queue =>
    ((flushLoop remote arrivals (i + 1) rest
        (settleEntry (remote e) e (queue ++ arrivals i))).1,
      e :: (flushLoop remote arrivals (i + 1) rest
        (settleEntry (remote e) e (queue ++ arrivals i))).2)

/-- Modelled from the spec: one flush cycle, bounded by the entries queued when it
starts (section 5, snapshot semantics). -/
def flush (remote : PendingWrite → Bool) (arrivals : Nat → List PendingWrite)
    (queue : List PendingWrite) : List PendingWrite × List PendingWrite :=
  flushLoop remote arrivals 0 queue queue

/-- A queued story. -/
def samplePending (id : Nat) (description : String) : PendingWrite :=
  ⟨id, ⟨description, samplePhoto, sampleLocation.lat, sampleLocation.lon, description⟩, 0⟩

/-! ## Stories page: favourites -/

/-- A story of the presenter list `this.stories`. -/
structure Story where
  id : String
  name : String
  description : String
  createdAt : String
  lat : Option JsNumber
  lon : Option JsNumber
  deriving DecidableEq, Repr

/-- A `FavoriteEntry` of the Local Store (spec, section 3). -/
structure FavoriteEntry where
  storyId : String
  addedAt : Nat
  storyData : Story
  deriving DecidableEq, Repr

/-- Modelled from the spec: the Local Store operation `isFavorite(id)` (section 4.1,
set semantics). The store, `services/indexeddb-service.js`, is not among the
sources. -/
def isFavorite (favorites : List FavoriteEntry) (id : String) : Bool :=
  favorites.any (fun f => decide (f.storyId = id))

/-- Modelled from the spec: the Local Store operation `addToFavorites(id, story)`
(section 4.1): adding an id that is already a favourite updates its snapshot and
does not duplicate it. -/
def addToFavorites (now : Nat) (id : String) (story : Story)
    (favorites : List FavoriteEntry) : List FavoriteEntry :=
  if isFavorite favorites id then
    favorites.map (fun f => if f.storyId = id then { f with storyData := story } else f)
  else favorites ++ [{ storyId := id, addedAt := now, storyData := story }]

/-- Modelled from the spec: the Local Store operation `removeFromFavorites(id)`
(section 4.1). -/
def removeFromFavorites (id : String) (favorites : List FavoriteEntry) :
    List FavoriteEntry :=
  favorites.filter (fun f => f.storyId ≠ id)

/-- What one call of `toggleFavorite` finds around it. -/
structure ToggleEnv where
  /-- Whether `window.indexedDBService` is set. -/
  serviceAvailable : Bool
  /-- The presenter field `this.stories`. -/
  stories : List Story
  /-- The clock of the store, for `addedAt`. -/
  now : Nat
  /-- Whether the awaited `isFavorite` rejects (a StorageError). -/
  readRejects : Bool
  /-- Whether the awaited `addToFavorites` or `removeFromFavorites` rejects, leaving
  the store as it was. -/
  writeRejects : Bool

/-- Observable calls of `toggleFavorite`, in order. -/
inductive FavoriteEffect where
  | showError (message : String)
  | showSuccess (message : String)
  /-- The call `indexedDBService.isFavorite(storyId)` and, when it resolves, what it
  reported. -/
  | isFavorite (storyId : String) (reported : Option Bool)
  | addToFavorites (storyId : String) (story : Story)
  | removeFromFavorites (storyId : String)
  /-- The button set to the heart of the given state. -/
  | markButton (favorite : Bool)
  deriving DecidableEq, Repr

/-- The method `toggleFavorite(storyId, button)` of `StoriesPresenter`: its trace and
the favourites it leaves. -/
def toggleFavorite (env : ToggleEnv) (favorites : List FavoriteEntry) (storyId : String) :
    List FavoriteEffect × List FavoriteEntry :=
  if env.serviceAvailable = false then
    ([.showError "IndexedDB service is unavailable"], favorites)
  else
    match env.stories.find? (fun s => decide (s.id = storyId)) with
    | none => ([], favorites)
    | some story =>
      if env.readRejects then
        ([.isFavorite storyId none, .showError "Failed to update favorite status"], favorites)
      else if isFavorite favorites storyId then
        if env.writeRejects then
          ([.isFavorite storyId (some true), .removeFromFavorites storyId,
            .showError "Failed to update favorite status"], favorites)
        else
          ([.isFavorite storyId (some true), .removeFromFavorites storyId,
            .markButton false, .showSuccess "Removed from favorites"],
            removeFromFavorites storyId favorites)
      else
        if env.writeRejects then
          ([.isFavorite storyId (some false), .addToFavorites storyId story,
            .showError "Failed to update favorite status"], favorites)
        else
          ([.isFavorite storyId (some false), .addToFavorites storyId story,
            .markButton true, .showSuccess "Saved to favorites"],
            addToFavorites env.now storyId story favorites)

/-- A sequence of `toggleFavorite` calls, each run to completion before the next:
the favourites left. -/
def toggleAll : List (ToggleEnv × String) → List FavoriteEntry → List FavoriteEntry
  | [], favorites => favorites
  | (env, storyId) :: rest, favorites =>
    toggleAll rest (toggleFavorite env favorites storyId).2

/-- A story of the list. -/
def sampleStory (id : String) : Story :=
  { id := id, name := "Harbour", description := "Sunset at the harbour",
    createdAt := "2024-05-01T10:00:00.000Z", lat := none, lon := none }

/-- A presenter showing the stories "s1" and "s2", with a working store. -/
def sampleToggleEnv : ToggleEnv :=
  { serviceAvailable := true, stories := [sampleStory "s1", sampleStory "s2"], now := 7,
    readRejects := false, writeRejects := false }

/-! ## Application start: `initializeServicesLazily` -/

/-- The global `navigator.serviceWorker` as the start-up code meets it. -/
inductive ServiceWorkerContainer where
  /-- The property is `undefined`: no service worker support. -/
  | missing
  /-- A worker already controls the page (`controller` is set). -/
  | controlled
  /-- No controller yet; the `ready` promise resolves. -/
  | becomesReady
  /-- No controller; the `ready` promise never settles (no worker becomes active). -/
  | neverReady
  deriving DecidableEq, Repr

/-- Outcome of `await window.pushNotificationService.initialize()`. -/
inductive PushInitOutcome where
  | returns (initialized : Bool)
  | throws
  deriving DecidableEq, Repr

/-- Outcome of an awaited `initialize()` of the Local Store or the Sync Engine. -/
inductive InitOutcome where
  | resolves
  | rejects
  deriving DecidableEq, Repr

/-- Everything `initializeServicesLazily` reads. -/
structure StartEnv where
  /-- Whether `typeof PushNotificationService !== "undefined"`. -/
  pushServiceDefined : Bool
  /-- Whether `typeof IndexedDBService !== "undefined"`. -/
  indexedDBServiceDefined : Bool
  /-- Whether `typeof SyncService !== "undefined"`. -/
  syncServiceDefined : Bool
  serviceWorker : ServiceWorkerContainer
  pushInitialize : PushInitOutcome
  indexedDBInitialize : InitOutcome
  syncInitialize : InitOutcome

/-- Observable steps of `initializeServicesLazily`, in order. -/
inductive StartEffect where
  | newPushNotificationService
  | pushInitialize
  | setupNotificationButton
  | newIndexedDBService
  | indexedDBInitialize
  | newSyncService
  | syncInitialize
  deriving DecidableEq, Repr

/-- What a run of `initializeServicesLazily` leaves. -/
structure StartResult where
  /-- Whether the function ran to its end; `false` when it stays suspended at an
  `await` for ever. -/
  completed : Bool
  effects : List StartEffect
  /-- Whether `window.pushNotificationService` was assigned an instance. -/
  pushNotificationService : Bool
  /-- Whether `window.indexedDBService` was assigned an instance. -/
  indexedDBService : Bool
  /-- Whether `window.syncService` was assigned an instance. -/
  syncService : Bool
  deriving DecidableEq, Repr

/-- The part of `initializeServicesLazily` after the push setup: the Local Store
and the Sync Engine are constructed and initialised, a rejected `initialize` being
caught and logged. -/
def startCoreServices (env : StartEnv) (push : Bool) (before : List StartEffect) :
    StartResult :=
  { completed := true,
    effects := before ++
      (if env.indexedDBServiceDefined then [.newIndexedDBService, .indexedDBInitialize]
        else []) ++
      (if env.syncServiceDefined then [.newSyncService, .syncInitialize] else []),
    pushNotificationService := push,
    indexedDBService := env.indexedDBServiceDefined,
    syncService := env.syncServiceDefined }

/-- The function `initializeServicesLazily` of `index.js`. -/
def initializeServicesLazily (env : StartEnv) : StartResult :=
  if env.pushServiceDefined then
    match env.serviceWorker with
    | .missing =>
      -- `navigator.serviceWorker.controller` raises a TypeError in the executor;
      -- the outer `catch` logs it and sets up the button
      { completed := true,
        effects := [.newPushNotificationService, .setupNotificationButton],
        pushNotificationService := true, indexedDBService := false, syncService := false }
    | .neverReady =>
      { completed := false,
        effects := [.newPushNotificationService],
        pushNotificationService := true, indexedDBService := false, syncService := false }
    | _ =>
      -- the outcome of `initialize()` is logged, a throw is caught
      startCoreServices env true
        [.newPushNotificationService, .pushInitialize, .setupNotificationButton]
  else
    startCoreServices env false [.setupNotificationButton]

/-- A browser where every service class is defined and every `initialize` works. -/
def sampleStartEnv (serviceWorker : ServiceWorkerContainer) (push : PushInitOutcome) :
    StartEnv :=
  { pushServiceDefined := true, indexedDBServiceDefined := true, syncServiceDefined := true,
    serviceWorker := serviceWorker, pushInitialize := push,
    indexedDBInitialize := .resolves, syncInitialize := .resolves }

/-! ## Push notification service -/

/-- The data of a subscription that goes to the server; `none` is `undefined`. -/
structure SubscriptionData where
  endpoint : Option String
  keys : Option (List (String × String))
  deriving DecidableEq, Repr

/-- Outcome of `await subscription.unsubscribe()`. -/
inductive UnsubscribeOutcome where
  | resolves (successful : Bool)
  | rejects
  deriving DecidableEq, Repr

/-- A push subscription object as the service uses it. -/
structure PushSubscription where
  /-- The property `endpoint`. -/
  endpoint : Option String
  /-- The property `keys`. -/
  keys : Option (List (String × String))
  /-- The result of `toJSON()`, `none` when the object has no such method. -/
  toJSON : Option SubscriptionData
  unsubscribe : UnsubscribeOutcome
  deriving DecidableEq, Repr

/-- Outcome of `registration.pushManager.getSubscription()`. -/
inductive GetSubscriptionOutcome where
  | resolves (subscription : Option PushSubscription)
  | rejects
  deriving DecidableEq, Repr

/-- A service worker registration, as far as the service uses it. -/
structure Registration where
  getSubscription : GetSubscriptionOutcome
  deriving DecidableEq, Repr

/-- The fields of a `PushNotificationService` instance that change. -/
structure PushService where
  isSubscribed : Bool
  registration : Option Registration
  subscription : Option PushSubscription
  isSupported : Bool
  deriving DecidableEq, Repr

/-- The instance the constructor builds. -/
def PushService.new (isSupported : Bool) : PushService :=
  { isSubscribed := false, registration := none, subscription := none,
    isSupported := isSupported }

/-- The values of `Notification.permission`. -/
inductive NotificationPermission where
  | default
  | granted
  | denied
  deriving DecidableEq, Repr

/-- The string of a permission value. -/
def NotificationPermission.toJsString : NotificationPermission → String
  | .default => "default"
  | .granted => "granted"
  | .denied => "denied"

/-- Outcome of `await Notification.requestPermission()`. -/
inductive PromptOutcome where
  | resolves (permission : NotificationPermission)
  | rejects
  deriving DecidableEq, Repr

/-- The Notification API as `requestPermission` meets it. -/
structure NotificationEnv where
  /-- Whether `"Notification" in window`. -/
  available : Bool
  /-- The value of `Notification.permission`. -/
  permission : NotificationPermission
  prompt : PromptOutcome
  deriving DecidableEq, Repr

/-- An error thrown inside the service: its message and its `permission`
property, `none` when it has none. -/
structure PermissionError where
  message : String
  permission : Option String
  deriving DecidableEq, Repr

/-- Observable calls of the push service, in order. -/
inductive PushEffect where
  | showMessage (message type : String)
  | updateUI
  /-- The call `Notification.requestPermission()`. -/
  | promptPermission
  /-- The call `subscription.unsubscribe()`. -/
  | unsubscribeCall
  /-- The call `registration.pushManager.getSubscription()`. -/
  | getSubscription
  deriving DecidableEq, Repr

/-- The method `requestPermission()`: the permission string it resolves with or the
error it throws, and whether the user was prompted. -/
def requestPermission (env : NotificationEnv) :
    Except PermissionError String × List PushEffect :=
  if env.available = false then
    (.error { message := "Browser does not support notifications", permission := none }, [])
  else
    match env.permission with
    | .denied =>
      (.error
        { message := "Notification permission denied. Click the lock icon in the address bar → Site settings → Notifications → Allow.",
          permission := some "denied" }, [])
    | .granted => (.ok "granted", [])
    | .default =>
      match env.prompt with
      | .resolves .denied =>
        -- the error thrown in the `try` is caught by its own `catch` and replaced
        (.error { message := "Failed to request notification permission",
                  permission := none }, [.promptPermission])
      | .resolves permission => (.ok permission.toJsString, [.promptPermission])
      | .rejects =>
        (.error { message := "Failed to request notification permission",
                  permission := none }, [.promptPermission])

/-- The instructions `subscribe` shows for a denied permission. -/
def permissionDeniedHelp : String :=
  "\n        ❌ Notification permission denied.\n        \n        How to fix:\n        1. Click the 🔒 or ℹ️ icon in the address bar\n        2. Select \"Site settings\" or \"Permissions\"\n        3. Find \"Notifications\" \n        4. Select \"Allow\"\n        5. Refresh the page and try again\n      "

/-- The message the `catch` block of `subscribe` builds for an error. -/
def subscribeErrorMessage (error : PermissionError) : String :=
  if error.permission = some "denied" then permissionDeniedHelp
  else if jsIncludes error.message "not supported" then
    "Browser does not support push notifications."
  else "Failed to enable notifications: " ++ error.message

/-- What a method of the service leaves: the instance, the calls made and the value
returned. -/
structure PushResult (α : Type) where
  service : PushService
  effects : List PushEffect
  returned : α

/-- The method `subscribe()`: after the permission step the source has no further
statement, so a granted permission leaves the instance as it was and the method
returns `undefined`; an error is shown and `null` returned. -/
def subscribe (env : NotificationEnv) (s : PushService) : PushResult JsVal :=
  match requestPermission env with
  | (.ok permission, effects) =>
    if permission ≠ "granted" then
      { service := s,
        effects := effects ++
          [.showMessage
            (subscribeErrorMessage
              { message := "Notification permission: " ++ permission, permission := none })
            "error"],
        returned := .null }
    else { service := s, effects := effects, returned := .undefined }
  | (.error error, effects) =>
    { service := s,
      effects := effects ++ [.showMessage (subscribeErrorMessage error) "error"],
      returned := .null }

/-- The method `unsubscribe()`. -/
def unsubscribe (s : PushService) : PushResult Bool :=
  match s.subscription with
  | none =>
    { service := { s with isSubscribed := false }, effects := [.updateUI], returned := true }
  | some subscription =>
    let successful :=
      match subscription.unsubscribe with
      | .resolves successful => successful
      | .rejects => true
    if successful then
      { service := { s with subscription := none, isSubscribed := false },
        effects := [.unsubscribeCall, .updateUI,
          .showMessage "🔕 Push notifications disabled" "info"],
        returned := true }
    else { service := s, effects := [.unsubscribeCall], returned := false }

/-- The method `toggleSubscription()`. -/
def toggleSubscription (env : NotificationEnv) (s : PushService) : PushResult Unit :=
  if s.isSubscribed then
    { service := (unsubscribe s).service, effects := (unsubscribe s).effects, returned := () }
  else
    { service := (subscribe env s).service, effects := (subscribe env s).effects,
      returned := () }

/-- The method `verifySubscription(subscription)`, as the truth of its result. -/
def verifySubscription (subscription : PushSubscription) : Bool :=
  match subscription.endpoint with
  | some endpoint => decide (endpoint ≠ "") && startsWith endpoint "https://"
  | none => false

/-- The method `checkSubscription()`. -/
def checkSubscription (s : PushService) : PushResult Bool :=
  match s.registration with
  | none => { service := s, effects := [], returned := false }
  | some registration =>
    match registration.getSubscription with
    | .rejects => { service := s, effects := [.getSubscription], returned := false }
    | .resolves none =>
      { service := { s with subscription := none, isSubscribed := false },
        effects := [.getSubscription, .updateUI], returned := false }
    | .resolves (some subscription) =>
      let found : PushService := { s with subscription := some subscription, isSubscribed := true }
      if verifySubscription subscription then
        { service := found, effects := [.getSubscription, .updateUI], returned := true }
      else
        { service := (unsubscribe found).service,
          effects := [.getSubscription] ++ (unsubscribe found).effects ++ [.updateUI],
          returned := (unsubscribe found).service.isSubscribed }

/-- Outcome of `await navigator.serviceWorker.ready` in `initialize`: the
registration it resolves with (`none` for a falsy value), or a throw. -/
inductive ReadyOutcome where
  | resolves (registration : Option Registration)
  | throws
  deriving DecidableEq, Repr

/-- The method `initialize()`. -/
def initializeService (ready : ReadyOutcome) (s : PushService) : PushResult Bool :=
  if s.isSupported = false then
    { service := s,
      effects := [.showMessage "Browser does not support push notifications" "warning"],
      returned := false }
  else
    match ready with
    | .throws =>
      { service := s,
        effects := [.showMessage "Failed to initialize push notifications" "error"],
        returned := false }
    | .resolves none =>
      { service := { s with registration := none },
        effects := [.showMessage "Service Worker not ready" "warning"], returned := false }
    | .resolves (some registration) =>
      { service := (checkSubscription { s with registration := some registration }).service,
        effects := (checkSubscription { s with registration := some registration }).effects,
        returned := true }

/-! ## Push notification service: `sendSubscriptionToServer` and `getAuthToken` -/

/-- Truthiness of a value. -/
def JsVal.truthy : JsVal → Bool
  | .undefined => false
  | .null => false
  | .boolean b => b
  | .string s => decide (s ≠ "")

/-- The result of `JSON.parse(authData)`, as far as reading `.token` observes it. -/
inductive ParsedAuthData where
  /-- The value `null`: reading `.token` raises a TypeError. -/
  | nullValue
  /-- Any other value, with its `token` property (`undefined` when it has none). -/
  | value (token : JsVal)
  deriving DecidableEq, Repr

/-- The platform behind `getAuthToken`. -/
structure TokenStore where
  /-- The result of `localStorage.getItem("authData")`: `none` when the call throws,
  `some none` for `null` (no entry). -/
  getItem : Option (Option String)
  /-- The function `JSON.parse`; `none` is a SyntaxError (not valid JSON). -/
  jsonParse : String → Option ParsedAuthData

/-- The method `getAuthToken()`. -/
def getAuthToken (store : TokenStore) : JsVal :=
  match store.getItem with
  | none => .null
  | some none => .null
  | some (some authData) =>
    if authData = "" then .null
    else
      match store.jsonParse authData with
      | none => .null
      | some .nullValue => .null
      | some (.value token) => token

/-- A request passed to `fetch` by the page. -/
structure HttpRequest where
  url : String
  method : String
  headers : List (String × String)
  body : String
  deriving DecidableEq, Repr

/-- A response of the server, as far as `sendSubscriptionToServer` reads it. -/
structure ServerResponse where
  ok : Bool
  status : Nat
  /-- The value `response.json()` resolves with, or the reason it rejects with. -/
  json : Except JsThrown String

/-- The data read from the subscription:
`subscription.toJSON ? subscription.toJSON() : { endpoint, keys }`. -/
def subscriptionData (subscription : PushSubscription) : SubscriptionData :=
  match subscription.toJSON with
  | some data => data
  | none => { endpoint := subscription.endpoint, keys := subscription.keys }

/-- The text `JSON.stringify` gives for the object `{ endpoint, keys }`; a property
that is `undefined` is left out. -/
def subscribeBody (endpoint : Option String) (keys : Option (List (String × String))) :
    String :=
  "\x7b" ++ String.intercalate ","
    ((match endpoint with
        | some e => [jsonQuote "endpoint" ++ ":" ++ jsonQuote e]
        | none => []) ++
      (match keys with
        | some ks =>
          [jsonQuote "keys" ++ ":" ++ jsonStringify (ks.map (fun k => (k.1, JsonValue.str k.2)))]
        | none => [])) ++ "\x7d"

/-- The URL of the push subscription endpoint. -/
def SUBSCRIBE_URL : String := "https://story-api.dicoding.dev/v1/notifications/subscribe"

/-- The request `sendSubscriptionToServer` builds. -/
def subscribeRequest (store : TokenStore) (subscription : PushSubscription) : HttpRequest :=
  { url := SUBSCRIBE_URL,
    method := "POST",
    headers := [("Content-Type", "application/json")] ++
      (if (getAuthToken store).truthy then
        [("Authorization", "Bearer " ++ (getAuthToken store).toJsString)]
      else []),
    body := subscribeBody (subscriptionData subscription).endpoint
      (subscriptionData subscription).keys }

/-- The method `sendSubscriptionToServer(subscription)`: the requests it makes and
the parsed result it resolves with, or the error it rethrows. -/
def sendSubscriptionToServer (store : TokenStore)
    (network : HttpRequest → Except JsThrown ServerResponse)
    (subscription : PushSubscription) : List HttpRequest × Except JsThrown String :=
  match network (subscribeRequest store subscription) with
  | .error reason => ([subscribeRequest store subscription], .error reason)
  | .ok response =>
    if response.ok = false then
      ([subscribeRequest store subscription],
        .error (JsThrown.error ("Server error: " ++ toString response.status)))
    else ([subscribeRequest store subscription], response.json)

/-- A subscription as the browser hands it out. -/
def sampleSubscription : PushSubscription :=
  { endpoint := some "https://push.example/send/abc",
    keys := none,
    toJSON := some
      { endpoint := some "https://push.example/send/abc",
        keys := some [("p256dh", "BPk"), ("auth", "c2Vj")] },
    unsubscribe := .resolves true }

/-- A token store holding the given text under "authData", with a parser that knows
one login record. -/
def sampleTokenStore (entry : Option String) : TokenStore :=
  { getItem := some entry,
    jsonParse := fun text =>
      if text = "\x7b\"token\":\"abc123\"\x7d" then some (.value (.string "abc123"))
      else if text = "\x7b\x7d" then some (.value .undefined)
      else none }

/-! ## Add-story page: `getCurrentLocation` -/

/-- The options object passed to `getCurrentPosition`. -/
structure PositionOptions where
  enableHighAccuracy : Bool
  timeout : Nat
  maximumAge : Nat
  deriving DecidableEq, Repr

/-- The constant `PERMISSION_DENIED` of `GeolocationPositionError`. -/
def PERMISSION_DENIED : Nat := 1

/-- The constant `POSITION_UNAVAILABLE` of `GeolocationPositionError`. -/
def POSITION_UNAVAILABLE : Nat := 2

/-- The constant `TIMEOUT` of `GeolocationPositionError`. -/
def TIMEOUT : Nat := 3

/-- The message the error callback of `getCurrentLocation` picks for `error.code`. -/
def locationErrorMessage (code : Nat) : String :=
  if code = PERMISSION_DENIED then
    "Location access denied. Please select a location manually on the map."
  else if code = POSITION_UNAVAILABLE then "Location information is unavailable"
  else if code = TIMEOUT then "Location request timed out"
  else "Failed to get location"

/-- Which callback the platform calls for a position request. -/
inductive PositionOutcome where
  | success (latitude longitude : JsNumber)
  | error (code : Nat)
  deriving DecidableEq, Repr

/-- Observable calls of `getCurrentLocation`, in order. -/
inductive LocationEffect where
  | showError (message : String)
  | showLoading
  | hideLoading
  /-- The call `navigator.geolocation.getCurrentPosition(onSuccess, onError, options)`. -/
  | getCurrentPosition (options : PositionOptions)
  /-- The call `this.selectLocation(latitude, longitude)`. -/
  | selectLocation (latitude longitude : JsNumber)
  /-- The call `this.mapService.setView(latitude, longitude, zoom)`. -/
  | setView (latitude longitude : JsNumber) (zoom : Nat)
  deriving DecidableEq, Repr

/-- The method `getCurrentLocation()`; `available` is whether `navigator.geolocation`
is set. -/
def getCurrentLocation (available : Bool) (outcome : PositionOutcome) : List LocationEffect :=
  if available = false then
    [.showError "Geolocation is not supported by your browser"]
  else
    [.showLoading,
      .getCurrentPosition { enableHighAccuracy := true, timeout := 10000, maximumAge := 60000 }] ++
    (match outcome with
      | .success latitude longitude =>
        [.hideLoading, .selectLocation latitude longitude, .setView latitude longitude 15]
      | .error code => [.hideLoading, .showError (locationErrorMessage code)])

/-- The options of the position requests in a trace. -/
def positionRequests : List LocationEffect → List PositionOptions
  | [] => []
  | .getCurrentPosition options :: t => options :: positionRequests t
  | _ :: t => positionRequests t

/-- The messages passed to `showError` in a trace of `getCurrentLocation`. -/
def locationErrors : List LocationEffect → List String
  | [] => []
  | .showError message :: t => message :: locationErrors t
  | _ :: t => locationErrors t

/-! ## Push notification service: sequences of calls -/

/-- What the platform does when a method of the service calls it. -/
structure PushPlatform where
  /-- Outcome of `await navigator.serviceWorker.ready`. -/
  ready : ReadyOutcome
  /-- Outcome of `registration.pushManager.getSubscription()` at this moment. -/
  getSubscription : GetSubscriptionOutcome
  /-- Outcome of `subscription.unsubscribe()` at this moment. -/
  unsubscribe : UnsubscribeOutcome
  notification : NotificationEnv
  deriving DecidableEq, Repr

/-- The instance as it meets the platform at the moment of a call: the objects it
holds answer as the platform does now. -/
def PushService.onPlatform (p : PushPlatform) (s : PushService) : PushService :=
  { s with
    registration := s.registration.map (fun r => { r with getSubscription := p.getSubscription }),
    subscription := s.subscription.map (fun x => { x with unsubscribe := p.unsubscribe }) }

/-- The public methods of the service that change its state. -/
inductive PushMethod where
  | initializeService
  | checkSubscription
  | subscribe
  | unsubscribe
  | toggleSubscription
  deriving DecidableEq, Repr

/-- One completed call of a method: the instance it leaves. -/
def callMethod (p : PushPlatform) (m : PushMethod) (s : PushService) : PushService :=
  match m with
  | .initializeService => (initializeService p.ready (s.onPlatform p)).service
  | .checkSubscription => (checkSubscription (s.onPlatform p)).service
  | .subscribe => (subscribe p.notification (s.onPlatform p)).service
  | .unsubscribe => (unsubscribe (s.onPlatform p)).service
  | .toggleSubscription => (toggleSubscription p.notification (s.onPlatform p)).service

/-- A sequence of completed calls, each on the platform of its moment. -/
def runCalls : List (PushPlatform × PushMethod) → PushService → PushService
  | [], s => s
  | (p, m) :: rest, s => runCalls rest (callMethod p m s)

/-- A subscription whose endpoint is not an https URL and which the platform
refuses to remove. -/
def stuckSubscription : PushSubscription :=
  { endpoint := some "http://push.example/send/abc", keys := none, toJSON := none,
    unsubscribe := .resolves false }

/-- The fields `isSubscribed` and `subscription` agree. -/
def PushService.consistent (s : PushService) : Prop :=
  s.isSubscribed = s.subscription.isSome

/-! ## JavaScript numbers and `Array.prototype.sort` -/

/-- Whether the double is a NaN: exponent all ones and a non-zero fraction. -/
def JsNumber.isNaN (x : JsNumber) : Bool :=
  (x.bits / 2 ^ 52) % 2 ^ 11 == 2047 && x.bits % 2 ^ 52 != 0

/-- Truthiness of a number: every value but `+0`, `-0` and `NaN`. -/
def JsNumber.truthy (x : JsNumber) : Bool :=
  x.bits % 2 ^ 63 != 0 && !x.isNaN

/-- Truthiness of a property that holds a number or is missing. -/
def truthyNumber : Option JsNumber → Bool
  | some x => x.truthy
  | none => false

/-- One insertion of the sort: `a` goes before the first element the comparator
does not put before it. -/
def insertSorted {α : Type} (cmp : α → α → Int) (a : α) : List α → List α
  | [] => [a]
  | b :: l => if cmp a b ≤ 0 then a :: b :: l else b :: insertSorted cmp a l

/-- The method `Array.prototype.sort(comparator)`, embedded as a stable insertion
sort that asks the comparator: a result `≤ 0` keeps the first argument first. A
comparator result of `NaN` counts as `+0` and is given as `0`. -/
def jsSort {α : Type} (cmp : α → α → Int) : List α → List α
  | [] => []
  | a :: l => insertSorted cmp a (jsSort cmp l)

/-- The platform parser behind `new Date(text)`: the time value in milliseconds,
`none` for an Invalid Date. -/
abbrev DateParser := String → Option Int

/-! ## Stories page: `loadStories`, `initMap`, `applyFilter` -/

/-- The text of `error.message` in a string concatenation, `none` when reading the
property raises a TypeError. -/
def JsThrown.messageText : JsThrown → Option String
  | .nullish => none
  | .withMessage m => some m.toJsString

/-- The object `ApiService.getStoriesWithLocation` resolves with. -/
structure StoriesResponse where
  error : JsVal
  listStory : Option (List Story)
  deriving DecidableEq, Repr

/-- Outcome of an awaited call that resolves with a list of stories. -/
inductive ListOutcome where
  | resolves (stories : List Story)
  | rejects (reason : JsThrown)
  deriving DecidableEq, Repr

/-- Outcome of `await ApiService.getStoriesWithLocation()`; a resolution with
`undefined` or `null` is `returns none`. -/
inductive StoriesApiOutcome where
  | returns (response : Option StoriesResponse)
  | throws (reason : JsThrown)
  deriving DecidableEq, Repr

/-- Everything `loadStories` reads. -/
structure LoadEnv where
  /-- The global `window.syncService` with the outcome of `getStories(false)`,
  `none` when it is not set. -/
  syncService : Option ListOutcome
  getStoriesWithLocation : StoriesApiOutcome
  /-- The global `window.indexedDBService` with the outcome of `getAllStories()`,
  `none` when it is not set. -/
  indexedDBService : Option ListOutcome
  /-- The `message` of the TypeError the engine raises for a property read on
  `undefined` or `null`. -/
  typeErrorMessage : String
  deriving DecidableEq, Repr

/-- Observable calls of `loadStories`, in order. -/
inductive LoadEffect where
  | showLoading
  | hideLoading
  | getStories
  | getStoriesWithLocation
  | getAllStories
  | displayStories (stories : List Story)
  | showSuccess (message : String)
  | showError (message : String)
  deriving DecidableEq, Repr

/-- What `loadStories` leaves. -/
structure LoadResult where
  effects : List LoadEffect
  /-- The presenter field `this.stories`. -/
  stories : List Story
  /-- Whether the method rejects, an error escaping its `catch` block. -/
  rejected : Bool
  deriving DecidableEq, Repr

/-- The `catch (error)` block of `loadStories`. -/
def loadRecover (env : LoadEnv) (previous : List Story) (before : List LoadEffect)
    (error : JsThrown) : LoadResult :=
  match env.indexedDBService with
  | some (.resolves cachedStories) =>
    { effects := before ++ [.hideLoading, .getAllStories, .displayStories cachedStories,
        .showSuccess "Loaded stories from local cache"],
      stories := cachedStories, rejected := false }
  | some (.rejects _) =>
    match error.messageText with
    | some text =>
      { effects := before ++ [.hideLoading, .getAllStories,
          .showError ("Unable to load stories: " ++ text)],
        stories := previous, rejected := false }
    | none =>
      { effects := before ++ [.hideLoading, .getAllStories], stories := previous,
        rejected := true }
  | none =>
    match error.messageText with
    | some text =>
      { effects := before ++ [.hideLoading, .showError ("An error occurred: " ++ text)],
        stories := previous, rejected := false }
    | none => { effects := before ++ [.hideLoading], stories := previous, rejected := true }

/-- The end of the `try` block of `loadStories`, once `stories` is settled. -/
def loadDisplay (before : List LoadEffect) (stories : List Story) : LoadResult :=
  { effects := before ++ [.displayStories stories, .hideLoading], stories := stories,
    rejected := false }

/-- The method `loadStories()` of `StoriesPresenter`; `previous` is `this.stories`
before the call. -/
def loadStories (env : LoadEnv) (previous : List Story) : LoadResult :=
  match env.syncService with
  | some (.resolves stories) => loadDisplay [.showLoading, .getStories] stories
  | some (.rejects reason) => loadRecover env previous [.showLoading, .getStories] reason
  | none =>
    match env.getStoriesWithLocation with
    | .returns (some response) =>
      if response.error = JsVal.boolean false then
        loadDisplay [.showLoading, .getStoriesWithLocation] (response.listStory.getD [])
      else loadDisplay [.showLoading, .getStoriesWithLocation] []
    | .returns none =>
      -- `response.error` raises a TypeError
      loadRecover env previous [.showLoading, .getStoriesWithLocation]
        (JsThrown.error env.typeErrorMessage)
    | .throws reason => loadRecover env previous [.showLoading, .getStoriesWithLocation] reason

/-- The lists passed to `view.displayStories` in a trace. -/
def displayedLists : List LoadEffect → List (List Story)
  | [] => []
  | .displayStories stories :: t => stories :: displayedLists t
  | _ :: t => displayedLists t

/-- The test `story.lat && story.lon` of `initMap` and `applyFilter`. -/
def hasTruthyCoordinates (story : Story) : Bool :=
  truthyNumber story.lat && truthyNumber story.lon

/-- Observable calls on the map service, in order. -/
inductive MapEffect where
  | newMapService
  | initMap
  | clearMarkers
  | addStoryMarker (story : Story)
  | onMarkerClick
  deriving DecidableEq, Repr

/-- The method `initMap()` of `StoriesPresenter`; `mapContainer` is whether the
element `stories-map` exists. -/
def initMap (mapContainer : Bool) (stories : List Story) : List MapEffect :=
  if mapContainer && decide (stories.length > 0) then
    [.newMapService, .initMap] ++
      (stories.filter hasTruthyCoordinates).map MapEffect.addStoryMarker ++ [.onMarkerClick]
  else []

/-- The comparator of the "recent" filter,
`new Date(b.createdAt) - new Date(a.createdAt)`; the `NaN` of an Invalid Date is
given as `0`, which is how the sort reads it. -/
def recentComparator (parse : DateParser) (a b : Story) : Int :=
  match parse b.createdAt, parse a.createdAt with
  | some tb, some ta => tb - ta
  | _, _ => 0

/-- What `applyFilter` leaves. -/
structure FilterResult where
  currentFilter : String
  /-- The presenter field `this.stories` after the call. -/
  stories : List Story
  /-- The list passed to `view.displayStories`. -/
  displayed : List Story
  /-- The calls on `this.mapService`, none when there is no map service. -/
  mapEffects : List MapEffect
  deriving DecidableEq, Repr

/-- The list `filteredStories` of `applyFilter`. -/
def filteredStories (parse : DateParser) (stories : List Story) (filter : String) :
    List Story :=
  if filter = "with-location" then stories.filter hasTruthyCoordinates
  else if filter = "recent" then (jsSort (recentComparator parse) stories).take 10
  else stories

/-- The method `applyFilter(filter)` of `StoriesPresenter`; `mapService` is whether
`this.mapService` is set. -/
def applyFilter (parse : DateParser) (mapService : Bool) (stories : List Story)
    (filter : String) : FilterResult :=
  { currentFilter := filter,
    stories := stories,
    displayed := filteredStories parse stories filter,
    mapEffects :=
      if mapService then
        .clearMarkers ::
          ((filteredStories parse stories filter).filter hasTruthyCoordinates).map
            MapEffect.addStoryMarker
      else [] }

/-- The stories for which a trace adds a marker. -/
def markersAdded : List MapEffect → List Story
  | [] => []
  | .addStoryMarker story :: t => story :: markersAdded t
  | _ :: t => markersAdded t

/-- The time value of a story, `0` when its date is invalid. -/
def storyTime (parse : DateParser) (story : Story) : Int :=
  (parse story.createdAt).getD 0

/-- A date parser that knows three ISO dates. -/
def sampleParse : DateParser := fun text =>
  if text = "2024-01-01T00:00:00.000Z" then some 1704067200000
  else if text = "2024-02-01T00:00:00.000Z" then some 1706745600000
  else if text = "2024-05-01T10:00:00.000Z" then some 1714557600000
  else none

/-- A story with the given id, date and coordinates. -/
def storyAt (id createdAt : String) (lat lon : Option JsNumber) : Story :=
  { id := id, name := "Harbour", description := "Sunset at the harbour",
    createdAt := createdAt, lat := lat, lon := lon }

/-- The double `106.8`. -/
def longitudeJakarta : JsNumber := { bits := 4637215798815044403 }

/-- The double `51.4779`. -/
def latitudeGreenwich : JsNumber := { bits := 4632441687661306131 }

/-! ## Favourites page: search and sort

`pages/favorites/favorites-page.js`.  The platform functions
`String.prototype.toLowerCase` and the `Date` parser are parameters. -/

/-- The UTF-16 code units of a string, the sequence `charCodeAt` reads and the one
JavaScript compares two strings by. -/
def utf16Units (s : String) : List Nat :=
  s.data.flatMap (fun c =>
    if c.toNat < 0x10000 then [c.toNat]
    else [0xD800 + (c.toNat - 0x10000) / 0x400, 0xDC00 + (c.toNat - 0x10000) % 0x400])

/-- Lexicographic `<` on code-unit sequences. -/
def lexLt : List Nat → List Nat → Bool
  | _, [] => false
  | [], _ :: _ => true
  | a :: l, b :: m => decide (a < b) || (a == b && lexLt l m)

/-- The time value of `new Date(n)` for a number `n` of milliseconds; `none` is NaN,
outside the range of `TimeClip`. -/
def dateOfNumber (n : Nat) : Option Int :=
  if n ≤ 8640000000000000 then some (n : Int) else none

/-- The values the sort comparator of the favourites page compares. -/
inductive SortValue where
  /-- A `Date` object with its time value; `none` is an Invalid Date (NaN). -/
  | date (time : Option Int)
  /-- A string. -/
  | text (s : String)
  /-- Both variables are left `undefined` when `currentSort` is none of the keys. -/
  | undefined
  deriving DecidableEq, Repr

/-- JavaScript `x < y` on two such values: dates compare by time value and any
comparison with NaN is false, strings compare by code units. -/
def SortValue.lt : SortValue → SortValue → Bool
  | .date (some a), .date (some b) => decide (a < b)
  | .text a, .text b => lexLt (utf16Units a) (utf16Units b)
  | _, _ => false

/-- Whether a sort value is comparable: a valid date or a string. -/
def SortValue.comparable : SortValue → Bool
  | .date (some _) => true
  | .text _ => true
  | _ => false

/-- The fields of `FavoritesPage` that `filterAndDisplayFavorites` uses. -/
structure FavoritesPage where
  favorites : List FavoriteEntry
  filteredFavorites : List FavoriteEntry
  currentSort : String
  sortOrder : String
  searchQuery : String
  deriving DecidableEq, Repr

/-- The page as its constructor leaves it. -/
def FavoritesPage.new : FavoritesPage :=
  { favorites := [], filteredFavorites := [], currentSort := "addedAt",
    sortOrder := "desc", searchQuery := "" }

/-- The callback of `this.favorites.filter(...)`: every favourite when the query
is empty, else those whose lower-cased name or description includes the query. -/
def matchesSearch (toLowerCase : String → String) (searchQuery : String)
    (favorite : FavoriteEntry) : Bool :=
  if searchQuery = "" then true
  else
    jsIncludes (toLowerCase favorite.storyData.name) searchQuery ||
      jsIncludes (toLowerCase favorite.storyData.description) searchQuery

/-- The value the comparator reads from one favourite (`valueA`, `valueB`). -/
def sortValue (toLowerCase : String → String) (parse : DateParser) (currentSort : String)
    (favorite : FavoriteEntry) : SortValue :=
  if currentSort = "addedAt" then .date (dateOfNumber favorite.addedAt)
  else if currentSort = "createdAt" then .date (parse favorite.storyData.createdAt)
  else if currentSort = "name" then
    .text (if toLowerCase favorite.storyData.name = "" then ""
      else toLowerCase favorite.storyData.name)
  else .undefined

/-- The comparator handed to `this.filteredFavorites.sort(...)`:
`valueA > valueB ? 1 : -1` for "asc", `valueA < valueB ? 1 : -1` otherwise. -/
def favoritesComparator (toLowerCase : String → String) (parse : DateParser)
    (currentSort sortOrder : String) (a b : FavoriteEntry) : Int :=
  if sortOrder = "asc" then
    if (sortValue toLowerCase parse currentSort b).lt (sortValue toLowerCase parse currentSort a)
    then 1 else -1
  else
    if (sortValue toLowerCase parse currentSort a).lt (sortValue toLowerCase parse currentSort b)
    then 1 else -1

/-- The method `filterAndDisplayFavorites()`: the page with `filteredFavorites`
filtered and sorted, which `displayFavorites()` then renders. -/
def filterAndDisplayFavorites (toLowerCase : String → String) (parse : DateParser)
    (page : FavoritesPage) : FavoritesPage :=
  { page with
    filteredFavorites :=
      jsSort (favoritesComparator toLowerCase parse page.currentSort page.sortOrder)
        (page.favorites.filter (matchesSearch toLowerCase page.searchQuery)) }

/-- The input listener of the search box: `this.searchQuery = e.target.value.toLowerCase()`,
then `filterAndDisplayFavorites()`. -/
def onSearchInput (toLowerCase : String → String) (parse : DateParser)
    (page : FavoritesPage) (value : String) : FavoritesPage :=
  filterAndDisplayFavorites toLowerCase parse { page with searchQuery := toLowerCase value }

/-- Lower-casing of the letters A to Z, which is `toLowerCase` on ASCII strings. -/
def asciiLowerCase (s : String) : String :=
  ⟨s.data.map (fun c => if 65 ≤ c.toNat ∧ c.toNat ≤ 90 then Char.ofNat (c.toNat + 32) else c)⟩

/-- A favourite for the examples. -/
def favoriteOf (id name : String) (addedAt : Nat) : FavoriteEntry :=
  { storyId := id, addedAt := addedAt,
    storyData := { id := id, name := name, description := "A walk by the sea",
                   createdAt := "2024-01-01T00:00:00.000Z", lat := none, lon := none } }

/-- Three favourites for the examples. -/
def sampleFavorites : List FavoriteEntry :=
  [favoriteOf "f1" "Harbour" 1700000000000, favoriteOf "f2" "alps" 1700000300000,
    favoriteOf "f3" "Market" 1700000100000]

/-! ## Add-story page: the description field -/

/-- The attribute `minlength="10"` of the description textarea, the one bound
`handleSubmit` checks itself. -/
def descriptionMinLength : Nat := 10

/-- The attribute `maxlength="1000"` of the description textarea. -/
def descriptionMaxLength : Nat := 1000

/-- A description of 1001 letters. -/
def longDescription : String := ⟨List.replicate 1001 'a'⟩

/-! ## Home page: `animateCounter`

`pages/home/home-page.js`.  The page passes a list length and a set size, so the
numbers are natural numbers on which the arithmetic of the method is exact. -/

/-- The variables of one `animateCounter` call while its interval runs. -/
structure CounterState where
  /-- The variable `currentValue`. -/
  currentValue : Nat
  /-- Whether `clearInterval(timer)` has been called. -/
  cleared : Bool
  /-- The numbers written to `element.textContent`, oldest first. -/
  displayed : List Nat
  deriving DecidableEq, Repr

/-- The constant `increment = Math.ceil(targetValue / 30)`. -/
def counterIncrement (targetValue : Nat) : Nat := (targetValue + 29) / 30

/-- One run of the interval callback. -/
def counterTick (targetValue : Nat) (s : CounterState) : CounterState :=
  let currentValue := s.currentValue + counterIncrement targetValue
  if currentValue ≥ targetValue then
    { currentValue := targetValue, cleared := true, displayed := s.displayed ++ [targetValue] }
  else
    { currentValue := currentValue, cleared := s.cleared,
      displayed := s.displayed ++ [currentValue] }

/-- The interval over `periods` periods of 50 ms: the callback runs once a period
until the interval is cleared. -/
def runInterval (targetValue : Nat) : Nat → CounterState → CounterState
  | 0, s => s
  | periods + 1, s =>
    if s.cleared then s else runInterval targetValue periods (counterTick targetValue s)

/-- The method `animateCounter(elementId, targetValue)` observed `periods` periods
after the call; `elementPresent` is whether `document.getElementById` found the
element, and without it no interval is set. -/
def animateCounter (elementPresent : Bool) (targetValue periods : Nat) : Option CounterState :=
  if !elementPresent then none
  else some (runInterval targetValue periods { currentValue := 0, cleared := false, displayed := [] })

/-! ## Push service: `urlB64ToUint8Array` -/

/-- The base64url alphabet of RFC 4648, section 5. -/
def base64urlAlphabet : List Char :=
  "ABCDEFGHIJKLMNOPQRSTUVWXYZabcdefghijklmnopqrstuvwxyz0123456789-_".data

/-- The character of a sextet in the base64url alphabet. -/
def base64urlChar (sextet : Nat) : Char := base64urlAlphabet.getD sextet 'A'

/-- The sextets of a byte sequence, three bytes to four sextets, with two or three
sextets for a last group of one or two bytes. -/
def sextetsOfBytes : List Nat → List Nat
  | [] => []
  | [a] => [a / 4, a % 4 * 16]
  | [a, b] => [a / 4, a % 4 * 16 + b / 16, b % 16 * 4]
  | a :: b :: c :: rest =>
    a / 4 :: (a % 4 * 16 + b / 16) :: (b % 16 * 4 + c / 64) :: c % 64 :: sextetsOfBytes rest

/-- The unpadded URL-safe base64 encoding of a byte sequence (RFC 4648, section 5,
without the "=" padding), the format of a VAPID key. -/
def base64urlEncode (bytes : List Nat) : String :=
  ⟨(sextetsOfBytes bytes).map base64urlChar⟩

/-- The value of a character in the standard base64 alphabet, `none` outside it. -/
def base64Value (c : Char) : Option Nat :=
  let n := c.toNat
  if 65 ≤ n ∧ n ≤ 90 then some (n - 65)
  else if 97 ≤ n ∧ n ≤ 122 then some (n - 97 + 26)
  else if 48 ≤ n ∧ n ≤ 57 then some (n - 48 + 52)
  else if n = 43 then some 62
  else if n = 47 then some 63
  else none

/-- The base64 values of a character sequence, `none` when one of the characters
is outside the alphabet. -/
def base64Values : List Char → Option (List Nat)
  | [] => some []
  | c :: cs =>
    match base64Value c, base64Values cs with
    | some v, some vs => some (v :: vs)
    | _, _ => none

/-- The bytes of a sextet sequence: four sextets give three bytes, a last group of
three sextets two bytes, of two sextets one byte, the spare bits being dropped. -/
def bytesOfSextets : List Nat → List Nat
  | s1 :: s2 :: s3 :: s4 :: rest =>
    (s1 * 4 + s2 / 16) :: (s2 % 16 * 16 + s3 / 4) :: (s3 % 4 * 64 + s4) :: bytesOfSextets rest
  | [s1, s2, s3] => [s1 * 4 + s2 / 16, s2 % 16 * 16 + s3 / 4]
  | [s1, s2] => [s1 * 4 + s2 / 16]
  | _ => []

/-- ASCII whitespace, which `atob` removes first: tab, LF, FF, CR and space. -/
def isAsciiWhitespace (c : Char) : Bool :=
  c.toNat == 0x09 || c.toNat == 0x0A || c.toNat == 0x0C || c.toNat == 0x0D || c.toNat == 0x20

/-- The second step of the forgiving-base64 decode: when the length is a multiple
of 4, one or two "=" at the end are removed. -/
def stripPadding (cs : List Char) : List Char :=
  if cs.length % 4 = 0 then
    if cs.getLast? = some '=' then
      if cs.dropLast.getLast? = some '=' then cs.dropLast.dropLast else cs.dropLast
    else cs
  else cs

/-- The platform function `window.atob` (the forgiving-base64 decode of the HTML
standard): the binary string, or `none` when it throws an InvalidCharacterError. -/
def atob (data : String) : Option String :=
  let cs := stripPadding (data.data.filter (fun c => !isAsciiWhitespace c))
  if cs.length % 4 = 1 then none
  else
    match base64Values cs with
    | none => none
    | some sextets => some ⟨(bytesOfSextets sextets).map Char.ofNat⟩

/-- JavaScript `s.replace(/x/g, y)` for single characters `x` and `y`. -/
def replaceAll (s : String) (x y : Char) : String :=
  ⟨s.data.map (fun c => if c = x then y else c)⟩

/-- The method `urlB64ToUint8Array(base64String)`: the elements of the
`Uint8Array`, or `none` when `atob` throws. -/
def urlB64ToUint8Array (base64String : String) : Option (List Nat) :=
  let padding : String := ⟨List.replicate ((4 - jsLength base64String % 4) % 4) '='⟩
  let base64 := replaceAll (replaceAll (base64String ++ padding) '-' '+') '_' '/'
  match atob base64 with
  | none => none
  | some rawData => some ((utf16Units rawData).map (fun unit => unit % 256))

/-- The two replacements of `urlB64ToUint8Array` on one character: "-" becomes
"+", then "_" becomes "/". -/
def standardChar (c : Char) : Char :=
  if (if c = '-' then '+' else c) = '_' then '/' else (if c = '-' then '+' else c)

/-! ## Add-story page: lemmas -/

@[simp] theorem apiCalls_append (a b : List Effect) :
    apiCalls (a ++ b) = apiCalls a ++ apiCalls b := by
  induction a with
  | nil => rfl
  | cons e t ih => cases e <;> simp [apiCalls, ih]

@[simp] theorem offlineCalls_append (a b : List Effect) :
    offlineCalls (a ++ b) = offlineCalls a ++ offlineCalls b := by
  induction a with
  | nil => rfl
  | cons e t ih => cases e <;> simp [offlineCalls, ih]

@[simp] theorem errorsShown_append (a b : List Effect) :
    errorsShown (a ++ b) = errorsShown a ++ errorsShown b := by
  induction a with
  | nil => rfl
  | cons e t ih => cases e <;> simp [errorsShown, ih]

@[simp] theorem successesShown_append (a b : List Effect) :
    successesShown (a ++ b) = successesShown a ++ successesShown b := by
  induction a with
  | nil => rfl
  | cons e t ih => cases e <;> simp [successesShown, ih]

theorem jsLength_trim_empty : jsLength (jsTrim "") = 0 := by decide

theorem startsWith_append (p r : String) : startsWith (p ++ r) p = true := by
  simp [startsWith, String.data_append]

/-- Whether `submitOnline` returns from `handleSubmit` is whether the API accepted. -/
theorem submitOnline_returned (env : SubmitEnv) (s : StoryData) :
    (submitOnline env s).2 = apiAccepted env s := by
  simp only [submitOnline, apiAccepted, apiFormOf]
  cases env.addStory
      { description := s.description, photo := s.photo, lat := s.lat, lon := s.lon } with
  | returns r =>
    cases r with
    | none => simp
    | some result => by_cases h : result.error = JsVal.boolean false <;> simp [h]
  | throws _ => simp

/-- The trace of an accepted remote submit. -/
theorem submitOnline_accepted (env : SubmitEnv) (s : StoryData)
    (h : apiAccepted env s = true) :
    (submitOnline env s).1 =
      [.apiAddStory (apiFormOf s), .hideLoading, .showSuccess "Story added successfully!",
        .showLocalNotification s, .redirectAfter "#/stories" 2000] := by
  simp only [submitOnline, apiAccepted, apiFormOf] at h ⊢
  cases hr : env.addStory
      { description := s.description, photo := s.photo, lat := s.lat, lon := s.lon } with
  | returns r =>
    rw [hr] at h
    cases r with
    | none => simp at h
    | some result =>
      have h2 : result.error = JsVal.boolean false := by simpa using h
      simp [h2]
  | throws _ => rw [hr] at h; simp at h

/-- The trace of a failed remote submit is the call alone. -/
theorem submitOnline_rejected (env : SubmitEnv) (s : StoryData)
    (h : apiAccepted env s = false) :
    (submitOnline env s).1 = [.apiAddStory (apiFormOf s)] := by
  simp only [submitOnline, apiAccepted, apiFormOf] at h ⊢
  cases hr : env.addStory
      { description := s.description, photo := s.photo, lat := s.lat, lon := s.lon } with
  | returns r =>
    rw [hr] at h
    cases r with
    | none => simp
    | some result =>
      have h2 : ¬ result.error = JsVal.boolean false := by simpa using h
      simp [h2]
  | throws _ => simp

/-- A submission that passes validation, made while `navigator.onLine` is false. -/
theorem handleSubmit_offline (env : SubmitEnv) (image : File) (location : Location)
    (d : String) (hi : env.selectedImage = some image)
    (hl : env.selectedLocation = some location) (hd : 10 ≤ jsLength (jsTrim d))
    (hoff : env.onLine = false) :
    handleSubmit env (some d) =
      .showLoading :: afterOffline (handleOfflineSubmission env (storyDataOf image location d)) := by
  have hne : d ≠ "" := by
    rintro rfl
    rw [jsLength_trim_empty] at hd
    omega
  have hlt : ¬ jsLength (jsTrim d) < 10 := by omega
  unfold handleSubmit
  simp [hi, hl, hne, hlt, hoff, storyDataOf]

/-- A submission that passes validation, made online and accepted by the API. -/
theorem handleSubmit_accepted (env : SubmitEnv) (image : File) (location : Location)
    (d : String) (hi : env.selectedImage = some image)
    (hl : env.selectedLocation = some location) (hd : 10 ≤ jsLength (jsTrim d))
    (hon : env.onLine = true) (hacc : apiAccepted env (storyDataOf image location d) = true) :
    handleSubmit env (some d) =
      [.showLoading, .apiAddStory (apiFormOf (storyDataOf image location d)), .hideLoading,
        .showSuccess "Story added successfully!",
        .showLocalNotification (storyDataOf image location d),
        .redirectAfter "#/stories" 2000] := by
  have hne : d ≠ "" := by
    rintro rfl
    rw [jsLength_trim_empty] at hd
    omega
  have hlt : ¬ jsLength (jsTrim d) < 10 := by omega
  have h1 := submitOnline_returned env (storyDataOf image location d)
  have h2 := submitOnline_accepted env (storyDataOf image location d) hacc
  rw [hacc] at h1
  unfold handleSubmit
  simp only [hi, hl, hne, hlt, hon, or_self, if_false, if_true]
  simp only [storyDataOf] at h1 h2
  simp [h1, h2, storyDataOf]

/-- A submission that passes validation, made online and not accepted by the API. -/
theorem handleSubmit_rejected (env : SubmitEnv) (image : File) (location : Location)
    (d : String) (hi : env.selectedImage = some image)
    (hl : env.selectedLocation = some location) (hd : 10 ≤ jsLength (jsTrim d))
    (hon : env.onLine = true) (hrej : apiAccepted env (storyDataOf image location d) = false) :
    handleSubmit env (some d) =
      .showLoading :: .apiAddStory (apiFormOf (storyDataOf image location d)) ::
        afterOffline (handleOfflineSubmission env (storyDataOf image location d)) := by
  have hne : d ≠ "" := by
    rintro rfl
    rw [jsLength_trim_empty] at hd
    omega
  have hlt : ¬ jsLength (jsTrim d) < 10 := by omega
  have h1 := submitOnline_returned env (storyDataOf image location d)
  have h2 := submitOnline_rejected env (storyDataOf image location d) hrej
  rw [hrej] at h1
  unfold handleSubmit
  simp only [hi, hl, hne, hlt, hon, or_self, if_false, if_true]
  simp only [storyDataOf] at h1 h2
  simp [h1, h2, storyDataOf]

/-- The offline path when `addStoryOffline` is callable and resolves. -/
theorem afterOffline_resolves (env : SubmitEnv) (s : StoryData)
    (f : StoryData → OfflineOutcome) (hs : env.syncService = .available f)
    (hr : f s = .resolves) :
    afterOffline (handleOfflineSubmission env s) =
      [.addStoryOffline s, .hideLoading,
        .showSuccess "Story saved offline! It will be synchronized when connection is restored.",
        .showLocalNotification { s with name := s.name ++ " (Offline)" },
        .redirectAfter "#/stories" 2000] := by
  simp [handleOfflineSubmission, hs, hr, afterOffline]

/-- The offline path when `addStoryOffline` rejects with a reason that has properties. -/
theorem afterOffline_rejects (env : SubmitEnv) (s : StoryData)
    (f : StoryData → OfflineOutcome) (hs : env.syncService = .available f) (m : JsVal)
    (hr : f s = .rejects (.withMessage m)) :
    afterOffline (handleOfflineSubmission env s) =
      [.addStoryOffline s, .hideLoading,
        .showError ("Failed to save story: " ++ m.toJsString)] := by
  simp [handleOfflineSubmission, hs, hr, afterOffline, offlineCatch]

/-- The offline path when `addStoryOffline` rejects with `undefined` or `null`. -/
theorem afterOffline_rejects_nullish (env : SubmitEnv) (s : StoryData)
    (f : StoryData → OfflineOutcome) (hs : env.syncService = .available f)
    (hr : f s = .rejects .nullish) :
    afterOffline (handleOfflineSubmission env s) =
      [.addStoryOffline s, .hideLoading, .hideLoading,
        .showError ("An error occurred: " ++ env.typeErrorMessage)] := by
  simp [handleOfflineSubmission, hs, hr, afterOffline, offlineCatch]

/-- The offline path when `window.syncService.addStoryOffline` is not callable. -/
theorem afterOffline_unavailable (env : SubmitEnv) (s : StoryData)
    (hs : env.syncService.callable = false) :
    afterOffline (handleOfflineSubmission env s) =
      [.hideLoading, .showError "Failed to save story: Offline service is not available"] := by
  unfold handleOfflineSubmission
  cases h : env.syncService with
  | absent => rfl
  | withoutAddStoryOffline => rfl
  | available f => rw [h] at hs; simp [SyncService.callable] at hs

/-- The calls the offline path makes to `addStoryOffline`: one when it is callable,
none otherwise. -/
theorem offlineCalls_afterOffline (env : SubmitEnv) (s : StoryData) :
    offlineCalls (afterOffline (handleOfflineSubmission env s)) =
      if env.syncService.callable = true then [s] else [] := by
  cases h : env.syncService with
  | absent => simp [afterOffline_unavailable, h, SyncService.callable, offlineCalls]
  | withoutAddStoryOffline =>
    simp [afterOffline_unavailable, h, SyncService.callable, offlineCalls]
  | available f =>
    cases hr : f s with
    | resolves =>
      rw [afterOffline_resolves env s f h hr]
      simp [SyncService.callable, offlineCalls]
    | rejects reason =>
      cases reason with
      | nullish =>
        rw [afterOffline_rejects_nullish env s f h hr]
        simp [SyncService.callable, offlineCalls]
      | withMessage m =>
        rw [afterOffline_rejects env s f h m hr]
        simp [SyncService.callable, offlineCalls]

/-- The offline path never calls the remote API. -/
theorem apiCalls_afterOffline (env : SubmitEnv) (s : StoryData) :
    apiCalls (afterOffline (handleOfflineSubmission env s)) = [] := by
  cases h : env.syncService with
  | absent => simp [afterOffline_unavailable, h, SyncService.callable, apiCalls]
  | withoutAddStoryOffline =>
    simp [afterOffline_unavailable, h, SyncService.callable, apiCalls]
  | available f =>
    cases hr : f s with
    | resolves =>
      rw [afterOffline_resolves env s f h hr]
      simp [apiCalls]
    | rejects reason =>
      cases reason with
      | nullish =>
        rw [afterOffline_rejects_nullish env s f h hr]
        simp [apiCalls]
      | withMessage m =>
        rw [afterOffline_rejects env s f h m hr]
        simp [apiCalls]

/-! ## Add-story page: submission properties -/

/-- C1 (as stated, refuted): a valid online submission whose remote submit throws,
made while `window.syncService` is absent, calls `addStoryOffline` zero times,
not exactly once. -/
theorem c1_fallback_without_sync_service :
    (sampleEnv true (fun _ => .throws (JsThrown.error "Failed to fetch")) .absent).selectedImage
        = some samplePhoto ∧
    (sampleEnv true (fun _ => .throws (JsThrown.error "Failed to fetch")) .absent).selectedLocation
        = some sampleLocation ∧
    10 ≤ jsLength (jsTrim sampleDescription) ∧
    (sampleEnv true (fun _ => .throws (JsThrown.error "Failed to fetch")) .absent).onLine = true ∧
    apiAccepted (sampleEnv true (fun _ => .throws (JsThrown.error "Failed to fetch")) .absent)
        (storyDataOf samplePhoto sampleLocation sampleDescription) = false ∧
    offlineCalls
        (handleSubmit (sampleEnv true (fun _ => .throws (JsThrown.error "Failed to fetch")) .absent)
          (some sampleDescription)) = [] ∧
    offlineCalls
        (handleSubmit (sampleEnv true (fun _ => .throws (JsThrown.error "Failed to fetch")) .absent)
          (some sampleDescription)) ≠ [storyDataOf samplePhoto sampleLocation sampleDescription] := by
  decide

/-- C1 (amended): for a submission that passes validation and is made online, an
API result with `error === false` means `addStoryOffline` is never called; for a
throw or any other result it is called exactly once, with the story data built from
the submission, provided `window.syncService` offers `addStoryOffline` as a function,
and is not called at all otherwise. -/
theorem online_submit_offline_calls (env : SubmitEnv) (image : File) (location : Location)
    (d : String) (hi : env.selectedImage = some image)
    (hl : env.selectedLocation = some location) (hd : 10 ≤ jsLength (jsTrim d))
    (hon : env.onLine = true) :
    (apiAccepted env (storyDataOf image location d) = true →
      offlineCalls (handleSubmit env (some d)) = []) ∧
    (apiAccepted env (storyDataOf image location d) = false →
      env.syncService.callable = true →
      offlineCalls (handleSubmit env (some d)) = [storyDataOf image location d]) ∧
    (apiAccepted env (storyDataOf image location d) = false →
      env.syncService.callable = false →
      offlineCalls (handleSubmit env (some d)) = []) := by
  refine ⟨fun hacc => ?_, fun hrej hc => ?_, fun hrej hc => ?_⟩
  · rw [handleSubmit_accepted env image location d hi hl hd hon hacc]
    rfl
  · rw [handleSubmit_rejected env image location d hi hl hd hon hrej]
    simp [offlineCalls, offlineCalls_afterOffline, hc]
  · rw [handleSubmit_rejected env image location d hi hl hd hon hrej]
    simp [offlineCalls, offlineCalls_afterOffline, hc]

/-- Witness for C1: an online submission whose remote submit answers `error: true`,
with a working sync service, is handed to `addStoryOffline` once. -/
theorem online_submit_offline_calls_witness :
    offlineCalls
        (handleSubmit
          (sampleEnv true (fun _ => .returns (some ⟨.boolean true, .string "Server error"⟩))
            (.available fun _ => .resolves))
          (some sampleDescription)) =
      [storyDataOf samplePhoto sampleLocation sampleDescription] :=
  (online_submit_offline_calls
    (sampleEnv true (fun _ => .returns (some ⟨.boolean true, .string "Server error"⟩))
      (.available fun _ => .resolves))
    samplePhoto sampleLocation sampleDescription rfl rfl (by decide) rfl).2.1
    (by decide) (by decide)

/-- C2 (as stated, refuted): a valid submission made offline while
`window.syncService` has no `addStoryOffline` function is not passed to
`addStoryOffline`. -/
theorem c2_offline_without_add_story_offline :
    (sampleEnv false (fun _ => .returns none) .withoutAddStoryOffline).selectedImage
        = some samplePhoto ∧
    (sampleEnv false (fun _ => .returns none) .withoutAddStoryOffline).selectedLocation
        = some sampleLocation ∧
    10 ≤ jsLength (jsTrim sampleDescription) ∧
    (sampleEnv false (fun _ => .returns none) .withoutAddStoryOffline).onLine = false ∧
    offlineCalls
        (handleSubmit (sampleEnv false (fun _ => .returns none) .withoutAddStoryOffline)
          (some sampleDescription)) = [] ∧
    handleSubmit (sampleEnv false (fun _ => .returns none) .withoutAddStoryOffline)
        (some sampleDescription) =
      [.showLoading, .hideLoading,
        .showError "Failed to save story: Offline service is not available"] := by
  decide

/-- C2 (amended): for a submission that passes validation, `handleSubmit` calls
`ApiService.addStory` if and only if `navigator.onLine` is true (then exactly once,
with the submission's form data); when it is false there is no remote call, and the
story is passed to `addStoryOffline` exactly when `window.syncService` offers that
function. -/
theorem remote_attempt_iff_online (env : SubmitEnv) (image : File) (location : Location)
    (d : String) (hi : env.selectedImage = some image)
    (hl : env.selectedLocation = some location) (hd : 10 ≤ jsLength (jsTrim d)) :
    (apiCalls (handleSubmit env (some d)) ≠ [] ↔ env.onLine = true) ∧
    (env.onLine = true →
      apiCalls (handleSubmit env (some d)) = [apiFormOf (storyDataOf image location d)]) ∧
    (env.onLine = false →
      apiCalls (handleSubmit env (some d)) = [] ∧
      offlineCalls (handleSubmit env (some d)) =
        if env.syncService.callable = true then [storyDataOf image location d] else []) := by
  have hon_calls : env.onLine = true →
      apiCalls (handleSubmit env (some d)) = [apiFormOf (storyDataOf image location d)] := by
    intro hon
    cases hacc : apiAccepted env (storyDataOf image location d) with
    | true =>
      rw [handleSubmit_accepted env image location d hi hl hd hon hacc]
      rfl
    | false =>
      rw [handleSubmit_rejected env image location d hi hl hd hon hacc]
      simp [apiCalls, apiCalls_afterOffline]
  have hoff_calls : env.onLine = false → apiCalls (handleSubmit env (some d)) = [] := by
    intro hoff
    rw [handleSubmit_offline env image location d hi hl hd hoff]
    simp [apiCalls, apiCalls_afterOffline]
  refine ⟨?_, hon_calls, fun hoff => ⟨hoff_calls hoff, ?_⟩⟩
  · cases hon : env.onLine with
    | true => simp [hon_calls hon]
    | false => simp [hoff_calls hon]
  · rw [handleSubmit_offline env image location d hi hl hd hoff]
    simp [offlineCalls, offlineCalls_afterOffline]

/-- Witness for C2: an offline submission with a working sync service makes no
remote call and is queued once. -/
theorem remote_attempt_iff_online_witness :
    apiCalls
        (handleSubmit (sampleEnv false (fun _ => .returns none) (.available fun _ => .resolves))
          (some sampleDescription)) = [] ∧
    offlineCalls
        (handleSubmit (sampleEnv false (fun _ => .returns none) (.available fun _ => .resolves))
          (some sampleDescription)) =
      if (sampleEnv false (fun _ => .returns none)
            (.available fun _ => .resolves)).syncService.callable = true
      then [storyDataOf samplePhoto sampleLocation sampleDescription] else [] :=
  (remote_attempt_iff_online
    (sampleEnv false (fun _ => .returns none) (.available fun _ => .resolves))
    samplePhoto sampleLocation sampleDescription rfl rfl (by decide)).2.2 rfl

/-- C3: when no image is selected, or no location is selected, or the description
is missing or shorter than 10 UTF-16 code units after trimming, `handleSubmit` does
nothing but show one error message: no remote call, no offline save. -/
theorem invalid_submission_rejected (env : SubmitEnv) (description : Option String)
    (h : env.selectedImage = none ∨ env.selectedLocation = none ∨ description = none ∨
      ∃ d, description = some d ∧ jsLength (jsTrim d) < 10) :
    (∃ message, handleSubmit env description = [.showError message]) ∧
    apiCalls (handleSubmit env description) = [] ∧
    offlineCalls (handleSubmit env description) = [] := by
  have key : ∃ message, handleSubmit env description = [.showError message] := by
    unfold handleSubmit
    cases hi : env.selectedImage with
    | none => exact ⟨_, rfl⟩
    | some image =>
      cases hl : env.selectedLocation with
      | none => exact ⟨_, rfl⟩
      | some location =>
        cases description with
        | none => exact ⟨_, rfl⟩
        | some d =>
          have hlt : jsLength (jsTrim d) < 10 := by
            rcases h with h | h | h | ⟨d2, h1, h2⟩
            · rw [hi] at h; cases h
            · rw [hl] at h; cases h
            · cases h
            · cases h1; exact h2
          refine ⟨"Description must be at least 10 characters", ?_⟩
          simp [hlt]
  obtain ⟨message, hm⟩ := key
  exact ⟨⟨message, hm⟩, by rw [hm]; rfl, by rw [hm]; rfl⟩

/-- Witness for C3: a nine-character description, padded with blanks, is rejected
even online with photo and location picked. -/
theorem invalid_submission_rejected_witness :
    jsLength (jsTrim "   too short   ") < 10 ∧
    apiCalls
        (handleSubmit (sampleEnv true (fun _ => .returns none) (.available fun _ => .resolves))
          (some "   too short   ")) = [] ∧
    offlineCalls
        (handleSubmit (sampleEnv true (fun _ => .returns none) (.available fun _ => .resolves))
          (some "   too short   ")) = [] :=
  ⟨by decide,
    (invalid_submission_rejected
      (sampleEnv true (fun _ => .returns none) (.available fun _ => .resolves))
      (some "   too short   ")
      (Or.inr (Or.inr (Or.inr ⟨"   too short   ", rfl, by decide⟩)))).2⟩

/-- Outside the failure contract of the Local Store (specification, section 4.1:
every operation fails with a StorageError): were `addStoryOffline` to reject with
`undefined`, the read of `offlineError.message` in the `catch` block of
`handleOfflineSubmission` would raise a TypeError, and the outer `catch` of
`handleSubmit` would report it as "An error occurred: ...". -/
theorem nullish_rejection_message :
    (sampleEnv false (fun _ => .returns none)
        (.available fun _ => .rejects .nullish)).onLine = false ∧
    10 ≤ jsLength (jsTrim sampleDescription) ∧
    offlineFailure
        (sampleEnv false (fun _ => .returns none) (.available fun _ => .rejects .nullish))
        (storyDataOf samplePhoto sampleLocation sampleDescription) = some .nullish ∧
    errorsShown
        (handleSubmit
          (sampleEnv false (fun _ => .returns none) (.available fun _ => .rejects .nullish))
          (some sampleDescription)) =
      ["An error occurred: offlineError is undefined"] ∧
    (errorsShown
        (handleSubmit
          (sampleEnv false (fun _ => .returns none) (.available fun _ => .rejects .nullish))
          (some sampleDescription))).any
      (fun m => startsWith m "Failed to save story: ") = false := by
  decide

/-- What `handleSubmit` shows when the remote submit was not attempted or failed and
the offline save fails with `reason`: no success message and one error message,
by the kind of `reason`. -/
theorem offline_failure_messages (env : SubmitEnv) (image : File) (location : Location)
    (d : String) (reason : JsThrown) (hi : env.selectedImage = some image)
    (hl : env.selectedLocation = some location) (hd : 10 ≤ jsLength (jsTrim d))
    (hremote : env.onLine = false ∨ apiAccepted env (storyDataOf image location d) = false)
    (hfail : offlineFailure env (storyDataOf image location d) = some reason) :
    successesShown (handleSubmit env (some d)) = [] ∧
    (reason ≠ .nullish →
      ∃ m, errorsShown (handleSubmit env (some d)) = [m] ∧
        startsWith m "Failed to save story: " = true) ∧
    (reason = .nullish →
      errorsShown (handleSubmit env (some d)) =
        ["An error occurred: " ++ env.typeErrorMessage]) := by
  -- the offline path, by the way it failed
  have hoffline :
      successesShown (afterOffline (handleOfflineSubmission env (storyDataOf image location d)))
          = [] ∧
      (reason ≠ .nullish →
        ∃ m, errorsShown
            (afterOffline (handleOfflineSubmission env (storyDataOf image location d))) = [m] ∧
          startsWith m "Failed to save story: " = true) ∧
      (reason = .nullish →
        errorsShown (afterOffline (handleOfflineSubmission env (storyDataOf image location d))) =
          ["An error occurred: " ++ env.typeErrorMessage]) := by
    cases hs : env.syncService with
    | absent =>
      have hc : env.syncService.callable = false := by rw [hs]; rfl
      have hr : reason = JsThrown.error "Offline service is not available" := by
        simpa [offlineFailure, hs] using hfail.symm
      rw [afterOffline_unavailable env _ hc]
      refine ⟨rfl, fun _ => ⟨_, rfl, by decide⟩, fun hn => ?_⟩
      rw [hr] at hn
      cases hn
    | withoutAddStoryOffline =>
      have hc : env.syncService.callable = false := by rw [hs]; rfl
      have hr : reason = JsThrown.error "Offline service is not available" := by
        simpa [offlineFailure, hs] using hfail.symm
      rw [afterOffline_unavailable env _ hc]
      refine ⟨rfl, fun _ => ⟨_, rfl, by decide⟩, fun hn => ?_⟩
      rw [hr] at hn
      cases hn
    | available f =>
      cases hf : f (storyDataOf image location d) with
      | resolves => simp [offlineFailure, hs, hf] at hfail
      | rejects r =>
        have hr : r = reason := by simpa [offlineFailure, hs, hf] using hfail
        subst hr
        cases r with
        | nullish =>
          rw [afterOffline_rejects_nullish env _ f hs hf]
          exact ⟨rfl, fun hn => absurd rfl hn, fun _ => rfl⟩
        | withMessage m =>
          rw [afterOffline_rejects env _ f hs m hf]
          refine ⟨rfl, fun _ => ⟨_, rfl, startsWith_append _ _⟩, fun hn => ?_⟩
          cases hn
  cases hon : env.onLine with
  | false =>
    rw [handleSubmit_offline env image location d hi hl hd hon]
    simpa [successesShown, errorsShown] using hoffline
  | true =>
    have hrej : apiAccepted env (storyDataOf image location d) = false := by
      rcases hremote with h | h
      · rw [hon] at h; cases h
      · exact h
    rw [handleSubmit_rejected env image location d hi hl hd hon hrej]
    simpa [successesShown, errorsShown] using hoffline

/-- C4: for every valid submission in which the remote submit was not attempted or
failed, and the offline save fails as well (`window.syncService` absent, without an
`addStoryOffline` function, or `addStoryOffline` rejecting with an error object, as
the StorageError of the Local Store is), `handleSubmit` shows no success message and
exactly one error message, which begins with "Failed to save story: "; the failure
does not end silently. -/
theorem both_paths_fail_save_error (env : SubmitEnv) (image : File) (location : Location)
    (d : String) (message : JsVal) (hi : env.selectedImage = some image)
    (hl : env.selectedLocation = some location) (hd : 10 ≤ jsLength (jsTrim d))
    (hremote : env.onLine = false ∨ apiAccepted env (storyDataOf image location d) = false)
    (hfail : offlineFailure env (storyDataOf image location d) =
      some (.withMessage message)) :
    successesShown (handleSubmit env (some d)) = [] ∧
    ∃ m, errorsShown (handleSubmit env (some d)) = [m] ∧
      startsWith m "Failed to save story: " = true := by
  have h := offline_failure_messages env image location d (.withMessage message)
    hi hl hd hremote hfail
  exact ⟨h.1, h.2.1 (by simp)⟩

/-- Witness for C4: the remote submit throws and the offline save rejects with a
quota error; the user sees "Failed to save story: ..." and no success. -/
theorem both_paths_fail_save_error_witness :
    successesShown
        (handleSubmit
          (sampleEnv true (fun _ => .throws (JsThrown.error "Failed to fetch"))
            (.available fun _ => .rejects (JsThrown.error "QuotaExceededError")))
          (some sampleDescription)) = [] ∧
    ∃ m, errorsShown
        (handleSubmit
          (sampleEnv true (fun _ => .throws (JsThrown.error "Failed to fetch"))
            (.available fun _ => .rejects (JsThrown.error "QuotaExceededError")))
          (some sampleDescription)) = [m] ∧
      startsWith m "Failed to save story: " = true :=
  both_paths_fail_save_error
    (sampleEnv true (fun _ => .throws (JsThrown.error "Failed to fetch"))
      (.available fun _ => .rejects (JsThrown.error "QuotaExceededError")))
    samplePhoto sampleLocation sampleDescription (.string "QuotaExceededError")
    rfl rfl (by decide) (Or.inr (by decide)) rfl

/-- C5 (as stated, refuted): a valid online submission answered with the API's
authentication failure (`error: true`, "Missing authentication"), or one whose
`addStory` throws for it, shows no error at all and reports a successful offline
save. -/
theorem c5_auth_failure_saved_offline :
    handleSubmit
        (sampleEnv true
          (fun _ => .returns (some ⟨.boolean true, .string "Missing authentication"⟩))
          (.available fun _ => .resolves))
        (some sampleDescription) =
      [.showLoading,
        .apiAddStory (apiFormOf (storyDataOf samplePhoto sampleLocation sampleDescription)),
        .addStoryOffline (storyDataOf samplePhoto sampleLocation sampleDescription),
        .hideLoading,
        .showSuccess "Story saved offline! It will be synchronized when connection is restored.",
        .showLocalNotification
          { storyDataOf samplePhoto sampleLocation sampleDescription with
            name := "Sunset at the harbour (Offline)" },
        .redirectAfter "#/stories" 2000] ∧
    errorsShown
        (handleSubmit
          (sampleEnv true
            (fun _ => .returns (some ⟨.boolean true, .string "Missing authentication"⟩))
            (.available fun _ => .resolves))
          (some sampleDescription)) = [] ∧
    errorsShown
        (handleSubmit
          (sampleEnv true (fun _ => .throws (JsThrown.error "401 Unauthorized"))
            (.available fun _ => .resolves))
          (some sampleDescription)) = [] ∧
    successesShown
        (handleSubmit
          (sampleEnv true (fun _ => .throws (JsThrown.error "401 Unauthorized"))
            (.available fun _ => .resolves))
          (some sampleDescription)) =
      ["Story saved offline! It will be synchronized when connection is restored."] := by
  decide

/-- C5 (amended): `handleSubmit` does not tell an authentication failure from any
other failed remote submit. For every valid online submission whose remote submit
throws or answers anything but `error === false`, the story goes to the offline
save, and when `addStoryOffline` resolves the user is shown the offline-save success
message and no error. -/
theorem remote_failure_absorbed (env : SubmitEnv) (image : File) (location : Location)
    (d : String) (f : StoryData → OfflineOutcome) (hi : env.selectedImage = some image)
    (hl : env.selectedLocation = some location) (hd : 10 ≤ jsLength (jsTrim d))
    (hon : env.onLine = true)
    (hrej : apiAccepted env (storyDataOf image location d) = false)
    (hs : env.syncService = .available f)
    (hr : f (storyDataOf image location d) = .resolves) :
    errorsShown (handleSubmit env (some d)) = [] ∧
    successesShown (handleSubmit env (some d)) =
      ["Story saved offline! It will be synchronized when connection is restored."] ∧
    offlineCalls (handleSubmit env (some d)) = [storyDataOf image location d] := by
  rw [handleSubmit_rejected env image location d hi hl hd hon hrej,
    afterOffline_resolves env _ f hs hr]
  exact ⟨rfl, rfl, rfl⟩

/-- Witness for C5: the API answers `error: true` with "Missing authentication" and
the offline save resolves. -/
theorem remote_failure_absorbed_witness :
    errorsShown
        (handleSubmit
          (sampleEnv true
            (fun _ => .returns (some ⟨.boolean true, .string "Missing authentication"⟩))
            (.available fun _ => .resolves))
          (some sampleDescription)) = [] ∧
    successesShown
        (handleSubmit
          (sampleEnv true
            (fun _ => .returns (some ⟨.boolean true, .string "Missing authentication"⟩))
            (.available fun _ => .resolves))
          (some sampleDescription)) =
      ["Story saved offline! It will be synchronized when connection is restored."] ∧
    offlineCalls
        (handleSubmit
          (sampleEnv true
            (fun _ => .returns (some ⟨.boolean true, .string "Missing authentication"⟩))
            (.available fun _ => .resolves))
          (some sampleDescription)) =
      [storyDataOf samplePhoto sampleLocation sampleDescription] :=
  remote_failure_absorbed
    (sampleEnv true
      (fun _ => .returns (some ⟨.boolean true, .string "Missing authentication"⟩))
      (.available fun _ => .resolves))
    samplePhoto sampleLocation sampleDescription (fun _ => .resolves)
    rfl rfl (by decide) rfl (by decide) rfl rfl

/-! ## Service worker: lemmas -/

theorem cacheNamed_append_new (name : String) (storage : CacheStorage)
    (h : name ∉ cachesKeys storage) :
    cacheNamed name (storage ++ [(name, [])]) = [] := by
  induction storage with
  | nil => simp [cacheNamed, List.lookup]
  | cons c t ih =>
    have hc : name ≠ c.1 := by
      intro e
      exact h (by simp [cachesKeys, e])
    have ht : name ∉ cachesKeys t := by
      intro e
      exact h (by simp only [cachesKeys, List.map_cons, List.mem_cons]; exact Or.inr e)
    have hb : (name == c.1) = false := by simpa using hc
    have ih2 := ih ht
    simp only [cacheNamed] at ih2 ⊢
    rw [List.cons_append]
    obtain ⟨k, v⟩ := c
    simp only [List.lookup] at *
    simp only [hb]
    exact ih2

theorem cacheNamed_missing (name : String) (storage : CacheStorage)
    (h : name ∉ cachesKeys storage) : cacheNamed name storage = [] := by
  induction storage with
  | nil => rfl
  | cons c t ih =>
    have hc : name ≠ c.1 := by
      intro e
      exact h (by simp [cachesKeys, e])
    have ht : name ∉ cachesKeys t := by
      intro e
      exact h (by simp only [cachesKeys, List.map_cons, List.mem_cons]; exact Or.inr e)
    have hb : (name == c.1) = false := by simpa using hc
    have ih2 := ih ht
    simp only [cacheNamed] at ih2 ⊢
    obtain ⟨k, v⟩ := c
    simp only [List.lookup] at *
    simp only [hb]
    exact ih2

/-- Opening a cache does not change what it holds. -/
theorem cacheNamed_cachesOpen (name : String) (storage : CacheStorage) :
    cacheNamed name (cachesOpen name storage) = cacheNamed name storage := by
  unfold cachesOpen
  by_cases h : name ∈ cachesKeys storage
  · simp [h]
  · simp only [h, if_false]
    rw [cacheNamed_append_new name storage h, cacheNamed_missing name storage h]

theorem mem_cachesKeys_cachesOpen (name : String) (storage : CacheStorage) :
    name ∈ cachesKeys (cachesOpen name storage) := by
  unfold cachesOpen
  by_cases h : name ∈ cachesKeys storage
  · rw [if_pos h]
    exact h
  · rw [if_neg h]
    simp [cachesKeys]

/-- A resolved `put` is what the named cache holds afterwards. -/
theorem cacheNamed_storagePut (name url : String) (response : Response)
    (storage : CacheStorage) (h : name ∈ cachesKeys storage) :
    cacheNamed name (storagePut name url response storage) =
      cachePut (cacheNamed name storage) url response := by
  induction storage with
  | nil => simp [cachesKeys] at h
  | cons c t ih =>
    obtain ⟨k, v⟩ := c
    have hstep : storagePut name url response ((k, v) :: t) =
        (if k = name then (k, cachePut v url response) else (k, v)) ::
          storagePut name url response t := rfl
    rw [hstep]
    by_cases hk : k = name
    · subst hk
      rw [if_pos rfl]
      simp [cacheNamed, List.lookup]
    · have ht : name ∈ cachesKeys t := by
        simp only [cachesKeys, List.map_cons, List.mem_cons] at h
        rcases h with h | h
        · exact absurd h.symm hk
        · exact h
      have hb : (name == k) = false := by
        simpa using fun e : name = k => hk e.symm
      have ih2 := ih ht
      rw [if_neg hk]
      simp only [cacheNamed] at ih2 ⊢
      simp only [List.lookup, hb]
      exact ih2

/-- A cache answers a `match` with what was last `put` under the URL. -/
theorem cacheMatch_cachePut (cache : Cache) (url : String) (response : Response) :
    cacheMatch (cachePut cache url response) url = some response := by
  unfold cacheMatch cachePut
  induction cache with
  | nil => simp [List.lookup]
  | cons e t ih =>
    obtain ⟨k, v⟩ := e
    by_cases hk : k = url
    · subst hk
      simpa using ih
    · have hb : (url == k) = false := by
        simpa using fun e : url = k => hk e.symm
      simp only [List.filter_cons, hk, ne_eq, not_false_eq_true, decide_True, if_true,
        List.cons_append, List.lookup, hb]
      exact ih

@[simp] theorem deleteCalls_append (a b : List SwEffect) :
    deleteCalls (a ++ b) = deleteCalls a ++ deleteCalls b := by
  induction a with
  | nil => rfl
  | cons e t ih => cases e <;> simp [deleteCalls, ih]

theorem deleteCalls_map (names : List String) :
    deleteCalls (names.map SwEffect.cachesDelete) = names := by
  induction names with
  | nil => rfl
  | cons n t ih => simp [deleteCalls, ih]

/-- The sweep of the `activate` listener over a list of names. -/
theorem sweep_foldl (names : List String) (storage : CacheStorage) (eff : List SwEffect) :
    names.foldl
        (fun (acc : CacheStorage × List SwEffect) cacheName =>
          if cacheName ≠ STATIC_CACHE ∧ cacheName ≠ DYNAMIC_CACHE then
            (cachesDelete cacheName acc.1, acc.2 ++ [.cachesDelete cacheName])
          else acc)
        (storage, eff) =
      (storage.filter (fun c =>
          decide (c.1 ∉ names.filter
            (fun n => decide (n ≠ STATIC_CACHE ∧ n ≠ DYNAMIC_CACHE)))),
        eff ++ (names.filter
            (fun n => decide (n ≠ STATIC_CACHE ∧ n ≠ DYNAMIC_CACHE))).map
          SwEffect.cachesDelete) := by
  induction names generalizing storage eff with
  | nil => simp
  | cons n t ih =>
    rw [List.foldl_cons]
    by_cases hn : n ≠ STATIC_CACHE ∧ n ≠ DYNAMIC_CACHE
    · rw [if_pos hn, ih]
      have hf : List.filter (fun n => decide (n ≠ STATIC_CACHE ∧ n ≠ DYNAMIC_CACHE)) (n :: t)
          = n :: List.filter (fun n => decide (n ≠ STATIC_CACHE ∧ n ≠ DYNAMIC_CACHE)) t := by
        rw [List.filter_cons, if_pos (by simpa using hn)]
      rw [hf]
      refine Prod.ext ?_ ?_
      · simp only [cachesDelete, List.filter_filter]
        apply List.filter_congr
        intro c _
        by_cases hc : c.1 = n <;> simp [hc]
      · simp
    · rw [if_neg hn, ih]
      have hf : List.filter (fun n => decide (n ≠ STATIC_CACHE ∧ n ≠ DYNAMIC_CACHE)) (n :: t)
          = List.filter (fun n => decide (n ≠ STATIC_CACHE ∧ n ≠ DYNAMIC_CACHE)) t := by
        rw [List.filter_cons, if_neg (by simpa using hn)]
      rw [hf]

/-- The storage the `activate` listener leaves: the caches named `STATIC_CACHE`
or `DYNAMIC_CACHE`, untouched. -/
theorem activateHandler_caches (caches : CacheStorage) :
    (activateHandler caches).caches =
      caches.filter (fun c => decide (c.1 = STATIC_CACHE ∨ c.1 = DYNAMIC_CACHE)) := by
  simp only [activateHandler, sweep_foldl]
  apply List.filter_congr
  intro c hc
  have hmem : c.1 ∈ cachesKeys caches := List.mem_map_of_mem _ hc
  by_cases h1 : c.1 = STATIC_CACHE
  · simp [h1]
  · by_cases h2 : c.1 = DYNAMIC_CACHE
    · simp [h2]
    · simp [h1, h2, hmem]

/-- The names the `activate` listener passes to `caches.delete`. -/
theorem activateHandler_deleteCalls (caches : CacheStorage) :
    deleteCalls (activateHandler caches).effects =
      (cachesKeys caches).filter (fun n => decide (n ≠ STATIC_CACHE ∧ n ≠ DYNAMIC_CACHE)) := by
  simp only [activateHandler, sweep_foldl]
  simp [deleteCalls, deleteCalls_map]

/-! ## Service worker: fetch and activate properties -/

/-- C6: for a GET request to the Story API origin whose network fetch resolves,
the handler responds with exactly the network response, and it calls `cache.put`
on the dynamic cache, with that request and response, if and only if the status is
200; when that `put` resolves the dynamic cache then answers the request with the
response, and for any other status the handler only opens the dynamic cache. -/
theorem api_fetch_resolved (p : Platform) (caches : CacheStorage) (request : Request)
    (response : Response) (hget : request.method = "GET")
    (hapi : request.origin = STORY_API_ORIGIN) (hnet : p.fetch request = some response) :
    (fetchHandler p caches request).respondWith = some (some response) ∧
    ((DYNAMIC_CACHE, request, response) ∈ putCalls (fetchHandler p caches request).effects
      ↔ response.status = 200) ∧
    putCalls (fetchHandler p caches request).effects =
      (if response.status = 200 then [(DYNAMIC_CACHE, request, response)] else []) ∧
    (response.status = 200 → p.putResolves request response = true →
      cacheMatch (cacheNamed DYNAMIC_CACHE (fetchHandler p caches request).caches) request.url
        = some response) ∧
    (response.status ≠ 200 →
      (fetchHandler p caches request).caches = cachesOpen DYNAMIC_CACHE caches) := by
  by_cases hs : response.status = 200
  · have hr : fetchHandler p caches request =
        { respondWith := some (some response),
          effects := [.cachesOpen DYNAMIC_CACHE, .fetch request,
            .cachePut DYNAMIC_CACHE request response],
          caches :=
            if p.putResolves request response then
              storagePut DYNAMIC_CACHE request.url response (cachesOpen DYNAMIC_CACHE caches)
            else cachesOpen DYNAMIC_CACHE caches } := by
      simp [fetchHandler, hget, hapi, hnet, hs]
    rw [hr]
    refine ⟨rfl, ?_, ?_, ?_, fun h => absurd hs h⟩
    · simp [putCalls, hs]
    · simp [putCalls, hs]
    · intro _ hput
      simp only [hput, if_true]
      rw [cacheNamed_storagePut _ _ _ _ (mem_cachesKeys_cachesOpen _ _)]
      exact cacheMatch_cachePut _ _ _
  · have hr : fetchHandler p caches request =
        { respondWith := some (some response),
          effects := [.cachesOpen DYNAMIC_CACHE, .fetch request],
          caches := cachesOpen DYNAMIC_CACHE caches } := by
      simp [fetchHandler, hget, hapi, hnet, hs]
    rw [hr]
    refine ⟨rfl, ?_, ?_, fun h => absurd h hs, fun _ => rfl⟩
    · simp [putCalls, hs]
    · simp [putCalls, hs]

/-- Witness for C6: a story list served with status 200 is returned as served and
stored in the dynamic cache. -/
theorem api_fetch_resolved_witness :
    (fetchHandler (samplePlatform fun _ => some storiesResponse) installedCaches
        storiesRequest).respondWith = some (some storiesResponse) ∧
    putCalls (fetchHandler (samplePlatform fun _ => some storiesResponse) installedCaches
        storiesRequest).effects =
      (if storiesResponse.status = 200 then [(DYNAMIC_CACHE, storiesRequest, storiesResponse)]
        else []) :=
  have h := api_fetch_resolved (samplePlatform fun _ => some storiesResponse) installedCaches
    storiesRequest storiesResponse rfl rfl rfl
  ⟨h.1, h.2.2.1⟩

/-- C7: for a GET request to the Story API origin whose network fetch rejects, the
handler responds with the dynamic cache's entry for the request when there is one,
and otherwise with the synthesised response: status 503, `Content-Type:
application/json`, body the JSON text of `error: true` and the offline message. In
both cases `respondWith` settles to a response. -/
theorem api_fetch_rejected (p : Platform) (caches : CacheStorage) (request : Request)
    (hget : request.method = "GET") (hapi : request.origin = STORY_API_ORIGIN)
    (hnet : p.fetch request = none) :
    (∀ cached, cacheMatch (cacheNamed DYNAMIC_CACHE caches) request.url = some cached →
      (fetchHandler p caches request).respondWith = some (some cached)) ∧
    (cacheMatch (cacheNamed DYNAMIC_CACHE caches) request.url = none →
      (fetchHandler p caches request).respondWith = some (some offlineApiResponse)) ∧
    (∃ response, (fetchHandler p caches request).respondWith = some (some response)) ∧
    offlineApiResponse.status = 503 ∧
    offlineApiResponse.headers = [("Content-Type", "application/json")] ∧
    offlineApiResponse.body =
      jsonStringify
        [("error", .bool true),
         ("message", .str "You are offline. Please check your connection.")] ∧
    offlineApiResponse.body =
      "\x7b\"error\":true,\"message\":\"You are offline. Please check your connection.\"\x7d" := by
  have hcached : ∀ cached,
      cacheMatch (cacheNamed DYNAMIC_CACHE caches) request.url = some cached →
      (fetchHandler p caches request).respondWith = some (some cached) := by
    intro cached hc
    simp [fetchHandler, hget, hapi, hnet, cacheNamed_cachesOpen, hc]
  have hnone : cacheMatch (cacheNamed DYNAMIC_CACHE caches) request.url = none →
      (fetchHandler p caches request).respondWith = some (some offlineApiResponse) := by
    intro hc
    simp [fetchHandler, hget, hapi, hnet, cacheNamed_cachesOpen, hc]
  refine ⟨hcached, hnone, ?_, rfl, rfl, rfl, by decide⟩
  cases hc : cacheMatch (cacheNamed DYNAMIC_CACHE caches) request.url with
  | none => exact ⟨_, hnone hc⟩
  | some cached => exact ⟨_, hcached cached hc⟩

/-- Witness for C7: offline, with nothing cached for the story list, the handler
answers with the synthesised 503. -/
theorem api_fetch_rejected_witness :
    (fetchHandler (samplePlatform fun _ => none) installedCaches storiesRequest).respondWith
      = some (some offlineApiResponse) :=
  (api_fetch_rejected (samplePlatform fun _ => none) installedCaches storiesRequest
    rfl rfl rfl).2.1 (by decide)

/-- C8: for a request whose method is not `GET` the fetch handler returns at once:
`event.respondWith` is not called, no call is made on the network or on `caches`,
and the cache storage is left as it was. -/
theorem non_get_passes_through (p : Platform) (caches : CacheStorage) (request : Request)
    (hmethod : request.method ≠ "GET") :
    fetchHandler p caches request =
      { respondWith := none, effects := [], caches := caches } := by
  simp [fetchHandler, hmethod]

/-- Witness for C8: a `POST` of a new story to the Story API is not intercepted. -/
theorem non_get_passes_through_witness :
    fetchHandler (samplePlatform fun _ => some storiesResponse) installedCaches
        { storiesRequest with method := "POST" } =
      { respondWith := none, effects := [], caches := installedCaches } :=
  non_get_passes_through (samplePlatform fun _ => some storiesResponse) installedCaches
    { storiesRequest with method := "POST" } (by decide)

/-- C9 (as stated, refuted): the application shell `/index.html`, one of
`STATIC_ASSETS` and present in the static cache, is still fetched from the network,
and the network response is served instead of the cached one. -/
theorem c9_cached_shell_goes_to_network :
    "/index.html" ∈ STATIC_ASSETS ∧
    shellRequest.url = appOrigin ++ "/index.html" ∧
    shellRequest.method = "GET" ∧
    cachesMatch installedCaches shellRequest.url = some cachedShell ∧
    fetchCalls (fetchHandler (samplePlatform fun _ => some freshShell) installedCaches
        shellRequest).effects = [shellRequest] ∧
    (fetchHandler (samplePlatform fun _ => some freshShell) installedCaches
        shellRequest).respondWith = some (some freshShell) ∧
    freshShell ≠ cachedShell := by
  decide

/-- C9 (amended): for every GET request outside the Story API origin, static
assets included, the handler is network-first: its first call is `fetch(request)`,
made exactly once; when the fetch resolves it responds with the network response,
whatever the caches hold, and it serves the copy found by `caches.match(request)`
only when the fetch rejects. -/
theorem other_requests_network_first (p : Platform) (caches : CacheStorage)
    (request : Request) (hget : request.method = "GET")
    (hother : request.origin ≠ STORY_API_ORIGIN) :
    (fetchHandler p caches request).effects.head? = some (.fetch request) ∧
    fetchCalls (fetchHandler p caches request).effects = [request] ∧
    (∀ response, p.fetch request = some response →
      (fetchHandler p caches request).respondWith = some (some response)) ∧
    (∀ cached, p.fetch request = none → cachesMatch caches request.url = some cached →
      (fetchHandler p caches request).respondWith = some (some cached)) := by
  cases hnet : p.fetch request with
  | some response =>
    by_cases hc : startsWith request.url p.selfOrigin = true ∧ response.status = 200
    · have hr : fetchHandler p caches request =
          { respondWith := some (some response),
            effects := [.fetch request, .cachesOpen DYNAMIC_CACHE,
              .cachePut DYNAMIC_CACHE request response],
            caches :=
              if p.putResolves request response then
                storagePut DYNAMIC_CACHE request.url response (cachesOpen DYNAMIC_CACHE caches)
              else cachesOpen DYNAMIC_CACHE caches } := by
        simp [fetchHandler, hget, hother, hnet, hc.1, hc.2]
      rw [hr]
      refine ⟨rfl, rfl, ?_, ?_⟩
      · intro r h; cases h; rfl
      · intro _ h; cases h
    · have hr : fetchHandler p caches request =
          { respondWith := some (some response), effects := [.fetch request],
            caches := caches } := by
        simp only [fetchHandler, hget, hother, hnet]
        simp [hc]
      rw [hr]
      refine ⟨rfl, rfl, ?_, ?_⟩
      · intro r h; cases h; rfl
      · intro _ h; cases h
  | none =>
    cases hm : cachesMatch caches request.url with
    | some cached =>
      have hr : fetchHandler p caches request =
          { respondWith := some (some cached),
            effects := [.fetch request, .cachesMatch request.url], caches := caches } := by
        simp [fetchHandler, hget, hother, hnet, hm]
      rw [hr]
      refine ⟨rfl, rfl, ?_, ?_⟩
      · intro _ h; cases h
      · intro c _ h; cases h; rfl
    | none =>
      by_cases hnav : isNavigation request = true
      · have hr : fetchHandler p caches request =
            { respondWith := some (cachesMatch caches (p.selfOrigin ++ "/index.html")),
              effects := [.fetch request, .cachesMatch request.url,
                .cachesMatch (p.selfOrigin ++ "/index.html")],
              caches := caches } := by
          simp [fetchHandler, hget, hother, hnet, hm, hnav]
        rw [hr]
        refine ⟨rfl, rfl, ?_, ?_⟩
        · intro _ h; cases h
        · intro _ _ h; cases h
      · have hr : fetchHandler p caches request =
            { respondWith := some (some offlineTextResponse),
              effects := [.fetch request, .cachesMatch request.url], caches := caches } := by
          simp [fetchHandler, hget, hother, hnet, hm, hnav]
        rw [hr]
        refine ⟨rfl, rfl, ?_, ?_⟩
        · intro _ h; cases h
        · intro _ _ h; cases h

/-- Witness for C9: with the network down, the cached shell is what is served. -/
theorem other_requests_network_first_witness :
    (fetchHandler (samplePlatform fun _ => none) installedCaches shellRequest).effects.head?
      = some (.fetch shellRequest) ∧
    (fetchHandler (samplePlatform fun _ => none) installedCaches shellRequest).respondWith
      = some (some cachedShell) :=
  have h := other_requests_network_first (samplePlatform fun _ => none) installedCaches
    shellRequest rfl (by decide)
  ⟨h.1, h.2.2.2 cachedShell rfl (by decide)⟩

/-- C10: whatever caches exist when the `activate` listener runs, afterwards the
storage is exactly the caches named `STATIC_CACHE` or `DYNAMIC_CACHE`, contents
untouched; `caches.delete` was called for every other name and for neither of
these two; so every cache name left is one of the current two. -/
theorem activate_keeps_current_caches (caches : CacheStorage) :
    (activateHandler caches).caches =
      caches.filter (fun c => decide (c.1 = STATIC_CACHE ∨ c.1 = DYNAMIC_CACHE)) ∧
    deleteCalls (activateHandler caches).effects =
      (cachesKeys caches).filter (fun n => decide (n ≠ STATIC_CACHE ∧ n ≠ DYNAMIC_CACHE)) ∧
    (∀ name, name ∈ cachesKeys caches → name ≠ STATIC_CACHE → name ≠ DYNAMIC_CACHE →
      name ∈ deleteCalls (activateHandler caches).effects ∧
      name ∉ cachesKeys (activateHandler caches).caches) ∧
    STATIC_CACHE ∉ deleteCalls (activateHandler caches).effects ∧
    DYNAMIC_CACHE ∉ deleteCalls (activateHandler caches).effects ∧
    (∀ name, name ∈ cachesKeys (activateHandler caches).caches →
      name = STATIC_CACHE ∨ name = DYNAMIC_CACHE) := by
  have hkeys : ∀ name, name ∈ cachesKeys (activateHandler caches).caches →
      name ∈ cachesKeys caches ∧ (name = STATIC_CACHE ∨ name = DYNAMIC_CACHE) := by
    intro name hn
    rw [activateHandler_caches] at hn
    simp only [cachesKeys, List.mem_map, List.mem_filter, decide_eq_true_eq] at hn ⊢
    obtain ⟨c, ⟨hc, hk⟩, rfl⟩ := hn
    exact ⟨⟨c, hc, rfl⟩, hk⟩
  refine ⟨activateHandler_caches caches, activateHandler_deleteCalls caches, ?_, ?_, ?_, ?_⟩
  · intro name hn h1 h2
    refine ⟨?_, ?_⟩
    · rw [activateHandler_deleteCalls]
      simp [List.mem_filter, hn, h1, h2]
    · intro hmem
      rcases (hkeys name hmem).2 with h | h
      · exact h1 h
      · exact h2 h
  · rw [activateHandler_deleteCalls]
    simp [List.mem_filter]
  · rw [activateHandler_deleteCalls]
    simp [List.mem_filter]
  · intro name hn
    exact (hkeys name hn).2

/-- Witness for C10: after a version bump, activation removes the caches of the
previous version and the unused `CACHE_NAME`, and keeps the current static cache. -/
theorem activate_keeps_current_caches_witness :
    (activateHandler
        ([(CACHE_NAME, []), ("story-catalog-static-v0", []),
          ("story-catalog-dynamic-v0", [])] ++ installedCaches)).caches = installedCaches ∧
    deleteCalls (activateHandler
        ([(CACHE_NAME, []), ("story-catalog-static-v0", []),
          ("story-catalog-dynamic-v0", [])] ++ installedCaches)).effects =
      [CACHE_NAME, "story-catalog-static-v0", "story-catalog-dynamic-v0"] :=
  have h := activate_keeps_current_caches
    ([(CACHE_NAME, []), ("story-catalog-static-v0", []),
      ("story-catalog-dynamic-v0", [])] ++ installedCaches)
  ⟨h.1.trans (by decide), h.2.1.trans (by decide)⟩

/-! ## Service worker: offline responses -/

/-- A serialised flat object always opens with a brace. -/
theorem jsonStringify_data (fields : List (String × JsonValue)) :
    ∃ rest, (jsonStringify fields).data = '\x7b' :: rest := by
  refine ⟨(String.intercalate ","
    (fields.map (fun f => jsonQuote f.1 ++ ":" ++ f.2.stringify)) ++ "\x7d").data, ?_⟩
  simp [jsonStringify, String.data_append, String.append_assoc]

/-- The plain-text offline body is not the JSON text of any object. -/
theorem offlineTextResponse_not_json (fields : List (String × JsonValue)) :
    offlineTextResponse.body ≠ jsonStringify fields := by
  intro h
  obtain ⟨rest, hrest⟩ := jsonStringify_data fields
  rw [← h] at hrest
  simp [offlineTextResponse] at hrest

/-- C11 (as stated, refuted): with the network down and nothing cached, a GET of
an image of the application is answered with a `text/plain` body that is not the
JSON text of any object, and a page load is answered with `undefined`, the result
of `caches.match("/index.html")` on a storage without the shell. -/
theorem c11_offline_non_api_not_structured :
    (fetchHandler (samplePlatform fun _ => none) []
        { url := "https://stories.example/images/story.png", origin := appOrigin,
          method := "GET", destination := "image", accept := some "image/*" }).respondWith
      = some (some offlineTextResponse) ∧
    offlineTextResponse.headers = [("Content-Type", "text/plain")] ∧
    offlineTextResponse.body = "Offline - No cached content available" ∧
    (∀ fields, offlineTextResponse.body ≠ jsonStringify fields) ∧
    cachesMatch [] shellRequest.url = none ∧
    (fetchHandler (samplePlatform fun _ => none) [] shellRequest).respondWith = some none :=
  ⟨by decide, rfl, rfl, offlineTextResponse_not_json, rfl, by decide⟩

/-- C11 (amended): for an intercepted GET request whose network fetch fails and
for which no cache entry exists, a Story API request is answered with the
structured error (status 503, JSON body with `error` true and a message string);
any other request that is not a navigation is answered with the 503 `text/plain`
response "Offline - No cached content available"; a navigation is answered with the
result of `caches.match("/index.html")`. In every case `respondWith` is called and
its promise settles without rejecting. -/
theorem offline_uncached_responses (p : Platform) (caches : CacheStorage)
    (request : Request) (hget : request.method = "GET") (hnet : p.fetch request = none) :
    (request.origin = STORY_API_ORIGIN →
      cacheMatch (cacheNamed DYNAMIC_CACHE caches) request.url = none →
      (fetchHandler p caches request).respondWith = some (some offlineApiResponse)) ∧
    (request.origin ≠ STORY_API_ORIGIN → cachesMatch caches request.url = none →
      isNavigation request = false →
      (fetchHandler p caches request).respondWith = some (some offlineTextResponse)) ∧
    (request.origin ≠ STORY_API_ORIGIN → cachesMatch caches request.url = none →
      isNavigation request = true →
      (fetchHandler p caches request).respondWith =
        some (cachesMatch caches (p.selfOrigin ++ "/index.html"))) ∧
    (∃ settled, (fetchHandler p caches request).respondWith = some settled) ∧
    offlineApiResponse.status = 503 ∧
    offlineApiResponse.body =
      jsonStringify
        [("error", .bool true),
         ("message", .str "You are offline. Please check your connection.")] ∧
    offlineTextResponse.status = 503 ∧
    offlineTextResponse.headers = [("Content-Type", "text/plain")] := by
  have h1 : request.origin = STORY_API_ORIGIN →
      cacheMatch (cacheNamed DYNAMIC_CACHE caches) request.url = none →
      (fetchHandler p caches request).respondWith = some (some offlineApiResponse) := by
    intro hapi hc
    simp [fetchHandler, hget, hapi, hnet, cacheNamed_cachesOpen, hc]
  have h2 : request.origin ≠ STORY_API_ORIGIN → cachesMatch caches request.url = none →
      isNavigation request = false →
      (fetchHandler p caches request).respondWith = some (some offlineTextResponse) := by
    intro hother hc hnav
    simp [fetchHandler, hget, hother, hnet, hc, hnav]
  have h3 : request.origin ≠ STORY_API_ORIGIN → cachesMatch caches request.url = none →
      isNavigation request = true →
      (fetchHandler p caches request).respondWith =
        some (cachesMatch caches (p.selfOrigin ++ "/index.html")) := by
    intro hother hc hnav
    simp [fetchHandler, hget, hother, hnet, hc, hnav]
  refine ⟨h1, h2, h3, ?_, rfl, rfl, rfl, rfl⟩
  by_cases hapi : request.origin = STORY_API_ORIGIN
  · cases hc : cacheMatch (cacheNamed DYNAMIC_CACHE caches) request.url with
    | none => exact ⟨_, h1 hapi hc⟩
    | some c =>
      exact ⟨some c, by simp [fetchHandler, hget, hapi, hnet, cacheNamed_cachesOpen, hc]⟩
  · cases hc : cachesMatch caches request.url with
    | some c => exact ⟨some c, by simp [fetchHandler, hget, hapi, hnet, hc]⟩
    | none =>
      cases hnav : isNavigation request with
      | true => exact ⟨_, h3 hapi hc hnav⟩
      | false => exact ⟨_, h2 hapi hc hnav⟩

/-- Witness for C11: offline and uncached, the story list is answered with the
structured error. -/
theorem offline_uncached_responses_witness :
    (fetchHandler (samplePlatform fun _ => none) installedCaches storiesRequest).respondWith
      = some (some offlineApiResponse) :=
  (offline_uncached_responses (samplePlatform fun _ => none) installedCaches storiesRequest
    rfl rfl).1 rfl (by decide)

/-- C12 (as stated, refuted): with the story list in the dynamic cache, the
response served when the network is down equals the response served when the
network delivers the same payload; nothing marks it as offline. -/
theorem c12_cached_response_unmarked :
    cacheMatch
        (cacheNamed DYNAMIC_CACHE
          [(DYNAMIC_CACHE, [("https://story-api.dicoding.dev/v1/stories", storiesResponse)])])
        storiesRequest.url = some storiesResponse ∧
    (fetchHandler (samplePlatform fun _ => none)
        [(DYNAMIC_CACHE, [("https://story-api.dicoding.dev/v1/stories", storiesResponse)])]
        storiesRequest).respondWith = some (some storiesResponse) ∧
    (fetchHandler (samplePlatform fun _ => none)
        [(DYNAMIC_CACHE, [("https://story-api.dicoding.dev/v1/stories", storiesResponse)])]
        storiesRequest).respondWith =
      (fetchHandler (samplePlatform fun _ => some storiesResponse)
        [(DYNAMIC_CACHE, [("https://story-api.dicoding.dev/v1/stories", storiesResponse)])]
        storiesRequest).respondWith := by
  decide

/-- C12 (amended): for a GET to the Story API whose network fetch fails while the
dynamic cache holds an entry for it, the handler returns exactly the cached
response, unchanged: it carries no offline marker and equals the response the
handler returns when the network delivers that same response. -/
theorem cached_api_response_unchanged (p online : Platform) (caches : CacheStorage)
    (request : Request) (cached : Response) (hget : request.method = "GET")
    (hapi : request.origin = STORY_API_ORIGIN) (hnet : p.fetch request = none)
    (hc : cacheMatch (cacheNamed DYNAMIC_CACHE caches) request.url = some cached)
    (hon : online.fetch request = some cached) :
    (fetchHandler p caches request).respondWith = some (some cached) ∧
    (fetchHandler p caches request).respondWith =
      (fetchHandler online caches request).respondWith := by
  have h1 : (fetchHandler p caches request).respondWith = some (some cached) := by
    simp [fetchHandler, hget, hapi, hnet, cacheNamed_cachesOpen, hc]
  have h2 : (fetchHandler online caches request).respondWith = some (some cached) := by
    by_cases hs : cached.status = 200 <;> simp [fetchHandler, hget, hapi, hon, hs]
  exact ⟨h1, h1.trans h2.symm⟩

/-- Witness for C12: the cached story list, served offline as it was stored. -/
theorem cached_api_response_unchanged_witness :
    (fetchHandler (samplePlatform fun _ => none)
        [(DYNAMIC_CACHE, [("https://story-api.dicoding.dev/v1/stories", storiesResponse)])]
        storiesRequest).respondWith = some (some storiesResponse) :=
  (cached_api_response_unchanged (samplePlatform fun _ => none)
    (samplePlatform fun _ => some storiesResponse)
    [(DYNAMIC_CACHE, [("https://story-api.dicoding.dev/v1/stories", storiesResponse)])]
    storiesRequest storiesResponse rfl rfl rfl (by decide) rfl).1

/-- C13: for a GET outside the Story API whose network fetch fails and which has
no cache entry of its own, a navigation (destination "document", or an Accept
header that includes "text/html") is answered with the result of
`caches.match("/index.html")`, and any other request with the 503 `text/plain`
response. -/
theorem offline_navigation_fallback (p : Platform) (caches : CacheStorage)
    (request : Request) (hget : request.method = "GET")
    (hother : request.origin ≠ STORY_API_ORIGIN) (hnet : p.fetch request = none)
    (hc : cachesMatch caches request.url = none) :
    (isNavigation request = true ↔
      (request.destination = "document" ∨
        ∃ a, request.accept = some a ∧ jsIncludes a "text/html" = true)) ∧
    (isNavigation request = true →
      (fetchHandler p caches request).respondWith =
        some (cachesMatch caches (p.selfOrigin ++ "/index.html"))) ∧
    (isNavigation request = false →
      (fetchHandler p caches request).respondWith = some (some offlineTextResponse)) ∧
    offlineTextResponse.status = 503 ∧
    offlineTextResponse.headers = [("Content-Type", "text/plain")] := by
  refine ⟨?_, ?_, ?_, rfl, rfl⟩
  · unfold isNavigation
    cases request.accept with
    | none => simp
    | some a => simp
  · intro hnav
    simp [fetchHandler, hget, hother, hnet, hc, hnav]
  · intro hnav
    simp [fetchHandler, hget, hother, hnet, hc, hnav]

/-- Witness for C13: offline, a page load of an uncached route is answered with
the cached shell. -/
theorem offline_navigation_fallback_witness :
    (fetchHandler (samplePlatform fun _ => none) installedCaches
        { shellRequest with url := "https://stories.example/stories" }).respondWith
      = some (some cachedShell) :=
  ((offline_navigation_fallback (samplePlatform fun _ => none) installedCaches
    { shellRequest with url := "https://stories.example/stories" }
    rfl (by decide) rfl (by decide)).2.1 (by decide)).trans (by decide)

/-! ## Service worker: cache namespaces -/

@[simp] theorem putCalls_append (a b : List SwEffect) :
    putCalls (a ++ b) = putCalls a ++ putCalls b := by
  induction a with
  | nil => rfl
  | cons e t ih => cases e <;> simp [putCalls, ih]

theorem putCalls_map_fetch (requests : List Request) :
    putCalls (requests.map SwEffect.fetch) = [] := by
  induction requests with
  | nil => rfl
  | cons r t ih => simpa [putCalls] using ih

theorem putCalls_map_fetch_comp {α : Type} (g : α → Request) (l : List α) :
    putCalls (l.map (SwEffect.fetch ∘ g)) = [] := by
  induction l with
  | nil => rfl
  | cons r t ih => simpa [putCalls] using ih

theorem putCalls_map_put (name : String) (pairs : List (Request × Response)) :
    putCalls (pairs.map (fun e => SwEffect.cachePut name e.1 e.2)) =
      pairs.map (fun e => (name, e.1, e.2)) := by
  induction pairs with
  | nil => rfl
  | cons e t ih => simp [putCalls, ih]

/-- The requests `fetchAll` pairs with responses are the requests it was given. -/
theorem fetchAll_requests (p : Platform) (requests : List Request)
    (pairs : List (Request × Response)) (h : fetchAll p requests = some pairs) :
    pairs.map (·.1) = requests := by
  induction requests generalizing pairs with
  | nil =>
    simp only [fetchAll, Option.some.injEq] at h
    subst h
    rfl
  | cons r t ih =>
    cases hf : p.fetch r with
    | none => simp [fetchAll, hf] at h
    | some x =>
      by_cases ha : addAllAccepts x = true
      · cases hr : fetchAll p t with
        | none => simp [fetchAll, hf, ha, hr] at h
        | some ps =>
          simp only [fetchAll, hf, ha, hr, if_true] at h
          simp at h
          subst h
          simp [ih ps hr]
      · simp [fetchAll, hf, ha] at h

/-- The puts of the install handler: the fetched assets, when `addAll` resolves. -/
theorem installHandler_puts (p : Platform) (caches : CacheStorage) :
    putCalls (installHandler p caches).effects =
      match fetchAll p (STATIC_ASSETS.map (assetRequest p.selfOrigin)) with
      | some pairs =>
        if pairs.all (fun e => p.putResolves e.1 e.2) = true then
          pairs.map (fun e => (STATIC_CACHE, e.1, e.2))
        else []
      | none => [] := by
  cases hf : fetchAll p (STATIC_ASSETS.map (assetRequest p.selfOrigin)) with
  | none =>
    simp [installHandler, hf, putCalls, putCalls_map_fetch_comp]
  | some pairs =>
    by_cases hp : pairs.all (fun e => p.putResolves e.1 e.2) = true
    · simp only [installHandler, hf, hp, if_true, putCalls_append, putCalls_map_fetch,
        putCalls_map_put]
      simp [putCalls]
    · simp only [installHandler, hf, hp, putCalls_append, putCalls_map_fetch]
      simp [putCalls]

/-- Every `cache.put` of the fetch handler is on the dynamic cache. -/
theorem fetchHandler_putCalls (p : Platform) (caches : CacheStorage) (request : Request)
    (w : String × Request × Response)
    (hw : w ∈ putCalls (fetchHandler p caches request).effects) :
    w = (DYNAMIC_CACHE, request, w.2.2) ∧ p.fetch request = some w.2.2 ∧
      w.2.2.status = 200 := by
  by_cases hget : request.method = "GET"
  · by_cases hapi : request.origin = STORY_API_ORIGIN
    · cases hf : p.fetch request with
      | none =>
        cases hc : cacheMatch (cacheNamed DYNAMIC_CACHE caches) request.url <;>
          simp [fetchHandler, hget, hapi, hf, cacheNamed_cachesOpen, hc, putCalls] at hw
      | some x =>
        by_cases hs : x.status = 200
        · simp [fetchHandler, hget, hapi, hf, hs, putCalls] at hw
          subst hw
          exact ⟨rfl, rfl, hs⟩
        · simp [fetchHandler, hget, hapi, hf, hs, putCalls] at hw
    · cases hf : p.fetch request with
      | none =>
        cases hc : cachesMatch caches request.url with
        | some c => simp [fetchHandler, hget, hapi, hf, hc, putCalls] at hw
        | none =>
          cases hn : isNavigation request <;>
            simp [fetchHandler, hget, hapi, hf, hc, hn, putCalls] at hw
      | some x =>
        by_cases hs : startsWith request.url p.selfOrigin = true ∧ x.status = 200
        · simp [fetchHandler, hget, hapi, hf, hs.1, hs.2, putCalls] at hw
          subst hw
          exact ⟨rfl, rfl, hs.2⟩
        · have hr : fetchHandler p caches request =
              { respondWith := some (some x), effects := [.fetch request],
                caches := caches } := by
            simp only [fetchHandler, hget, hapi, hf]
            simp [hs]
          rw [hr] at hw
          simp [putCalls] at hw
  · simp [fetchHandler, hget, putCalls] at hw

/-- Every `cache.put` of the install handler is on the static cache, for a request
built from `STATIC_ASSETS`. -/
theorem installHandler_putCalls (p : Platform) (caches : CacheStorage)
    (w : String × Request × Response)
    (hw : w ∈ putCalls (installHandler p caches).effects) :
    w.1 = STATIC_CACHE ∧ ∃ u, u ∈ STATIC_ASSETS ∧ w.2.1 = assetRequest p.selfOrigin u := by
  rw [installHandler_puts] at hw
  cases hf : fetchAll p (STATIC_ASSETS.map (assetRequest p.selfOrigin)) with
  | none => rw [hf] at hw; cases hw
  | some pairs =>
    rw [hf] at hw
    by_cases hp : pairs.all (fun e => p.putResolves e.1 e.2) = true
    · simp only [hp, if_true, List.mem_map] at hw
      obtain ⟨e, he, rfl⟩ := hw
      refine ⟨rfl, ?_⟩
      have hreq : e.1 ∈ STATIC_ASSETS.map (assetRequest p.selfOrigin) := by
        rw [← fetchAll_requests p _ pairs hf]
        exact List.mem_map_of_mem _ he
      obtain ⟨u, hu, hue⟩ := List.mem_map.mp hreq
      exact ⟨u, hu, hue.symm⟩
    · simp only [hp] at hw
      cases hw

theorem cacheNamed_cons_ne (other : String) (c : String × Cache) (t : CacheStorage)
    (h : c.1 ≠ other) : cacheNamed other (c :: t) = cacheNamed other t := by
  obtain ⟨k, v⟩ := c
  have hb : (other == k) = false := by
    simpa using fun e : other = k => h e.symm
  simp [cacheNamed, List.lookup, hb]

theorem cacheNamed_cons_eq (name : String) (v : Cache) (t : CacheStorage) :
    cacheNamed name ((name, v) :: t) = v := by
  simp [cacheNamed, List.lookup]

/-- Opening one cache does not change what another holds. -/
theorem cacheNamed_cachesOpen_ne (name other : String) (storage : CacheStorage)
    (h : name ≠ other) :
    cacheNamed other (cachesOpen name storage) = cacheNamed other storage := by
  unfold cachesOpen
  by_cases hm : name ∈ cachesKeys storage
  · rw [if_pos hm]
  · rw [if_neg hm]
    clear hm
    induction storage with
    | nil => exact cacheNamed_cons_ne other (name, []) [] h
    | cons c t ih =>
      rw [List.cons_append]
      by_cases hc : c.1 = other
      · obtain ⟨k, v⟩ := c
        simp only at hc
        subst hc
        rw [cacheNamed_cons_eq, cacheNamed_cons_eq]
      · rw [cacheNamed_cons_ne other c _ hc, cacheNamed_cons_ne other c _ hc]
        exact ih

/-- A `put` on one cache does not change what another holds. -/
theorem cacheNamed_storagePut_ne (name other url : String) (response : Response)
    (storage : CacheStorage) (h : name ≠ other) :
    cacheNamed other (storagePut name url response storage) = cacheNamed other storage := by
  induction storage with
  | nil => rfl
  | cons c t ih =>
    obtain ⟨k, v⟩ := c
    have hstep : storagePut name url response ((k, v) :: t) =
        (if k = name then (k, cachePut v url response) else (k, v)) ::
          storagePut name url response t := rfl
    rw [hstep]
    by_cases hk : k = name
    · subst hk
      rw [if_pos rfl]
      rw [cacheNamed_cons_ne other _ _ h, cacheNamed_cons_ne other _ _ h]
      exact ih
    · rw [if_neg hk]
      by_cases hc : k = other
      · subst hc
        rw [cacheNamed_cons_eq, cacheNamed_cons_eq]
      · rw [cacheNamed_cons_ne other _ _ hc, cacheNamed_cons_ne other _ _ hc]
        exact ih

/-- The fetch handler changes no cache other than the dynamic one. -/
theorem fetchHandler_other_caches (p : Platform) (caches : CacheStorage)
    (request : Request) (other : String) (h : DYNAMIC_CACHE ≠ other) :
    cacheNamed other (fetchHandler p caches request).caches = cacheNamed other caches := by
  have hopen := cacheNamed_cachesOpen_ne DYNAMIC_CACHE other caches h
  have hput : ∀ x : Response,
      cacheNamed other
        (if p.putResolves request x = true then
          storagePut DYNAMIC_CACHE request.url x (cachesOpen DYNAMIC_CACHE caches)
        else cachesOpen DYNAMIC_CACHE caches) = cacheNamed other caches := by
    intro x
    split_ifs
    · rw [cacheNamed_storagePut_ne _ _ _ _ _ h]
      exact hopen
    · exact hopen
  by_cases hget : request.method = "GET"
  · by_cases hapi : request.origin = STORY_API_ORIGIN
    · cases hf : p.fetch request with
      | none =>
        cases hc : cacheMatch (cacheNamed DYNAMIC_CACHE caches) request.url <;>
          simp [fetchHandler, hget, hapi, hf, cacheNamed_cachesOpen, hc, hopen]
      | some x =>
        by_cases hs : x.status = 200
        · simp only [fetchHandler, hget, hapi, hf, hs, ne_eq, not_true_eq_false, if_false,
            if_true]
          exact hput x
        · simp [fetchHandler, hget, hapi, hf, hs, hopen]
    · cases hf : p.fetch request with
      | none =>
        cases hc : cachesMatch caches request.url with
        | some c => simp [fetchHandler, hget, hapi, hf, hc]
        | none =>
          cases hn : isNavigation request <;> simp [fetchHandler, hget, hapi, hf, hc, hn]
      | some x =>
        by_cases hs : startsWith request.url p.selfOrigin = true ∧ x.status = 200
        · simp only [fetchHandler, hget, hapi, hf, hs, ne_eq, not_true_eq_false, if_false,
            and_self, if_true]
          exact hput x
        · have hr : fetchHandler p caches request =
              { respondWith := some (some x), effects := [.fetch request],
                caches := caches } := by
            simp only [fetchHandler, hget, hapi, hf]
            simp [hs]
          rw [hr]
  · simp [fetchHandler, hget]

/-- Along a sequence of events every `cache.put` is either on the dynamic cache or
on the static cache for a request built from `STATIC_ASSETS`. -/
theorem runEvents_putCalls (steps : List (Platform × SwEvent)) (caches : CacheStorage)
    (w : String × Request × Response) (hw : w ∈ putCalls (runEvents steps caches).1) :
    (w.1 = DYNAMIC_CACHE ∧ w.2.2.status = 200) ∨
      (w.1 = STATIC_CACHE ∧
        ∃ origin u, u ∈ STATIC_ASSETS ∧ w.2.1 = assetRequest origin u) := by
  induction steps generalizing caches with
  | nil => simp [runEvents, putCalls] at hw
  | cons step rest ih =>
    obtain ⟨p, e⟩ := step
    simp only [runEvents, putCalls_append, List.mem_append] at hw
    rcases hw with hw | hw
    · cases e with
      | install =>
        obtain ⟨h1, u, hu, h2⟩ := installHandler_putCalls p caches w hw
        exact Or.inr ⟨h1, p.selfOrigin, u, hu, h2⟩
      | fetch request =>
        obtain ⟨h1, _, h3⟩ := fetchHandler_putCalls p caches request w hw
        exact Or.inl ⟨by rw [h1], h3⟩
    · exact ih _ hw

/-- C14 (as stated, refuted): after `install` has stored the shell in the static
cache, a page load of `/index.html`, one of `STATIC_ASSETS`, writes the network
response for it into the dynamic cache. -/
theorem c14_static_asset_written_to_dynamic_cache :
    "/index.html" ∈ STATIC_ASSETS ∧
    shellRequest.url = assetUrl appOrigin "/index.html" ∧
    cacheMatch (cacheNamed STATIC_CACHE (installHandler shellNetwork []).caches)
        shellRequest.url = some freshShell ∧
    putCalls (fetchHandler shellNetwork (installHandler shellNetwork []).caches
        shellRequest).effects = [(DYNAMIC_CACHE, shellRequest, freshShell)] ∧
    cacheMatch
        (cacheNamed DYNAMIC_CACHE
          (runEvents [(shellNetwork, .install), (shellNetwork, .fetch shellRequest)] []).2)
        shellRequest.url = some freshShell := by
  decide

/-- C14 (amended): under every sequence of install and fetch events each cache
write is either a write to `DYNAMIC_CACHE` or a write to `STATIC_CACHE` of a
response to a `STATIC_ASSETS` request; the install handler writes only to
`STATIC_CACHE`; the fetch handler writes only to `DYNAMIC_CACHE`, API responses
included, and leaves every other cache, `STATIC_CACHE` among them, as it was. It
does write a same-origin response with status 200 into `DYNAMIC_CACHE`, whether or
not the request is for a static asset. -/
theorem cache_writes_by_namespace (steps : List (Platform × SwEvent))
    (caches : CacheStorage) (p : Platform) (request : Request) :
    (∀ w, w ∈ putCalls (runEvents steps caches).1 →
      w.1 = DYNAMIC_CACHE ∨
        (w.1 = STATIC_CACHE ∧
          ∃ origin u, u ∈ STATIC_ASSETS ∧ w.2.1 = assetRequest origin u)) ∧
    (∀ w, w ∈ putCalls (installHandler p caches).effects → w.1 = STATIC_CACHE) ∧
    (∀ w, w ∈ putCalls (fetchHandler p caches request).effects → w.1 = DYNAMIC_CACHE) ∧
    cacheNamed STATIC_CACHE (fetchHandler p caches request).caches =
      cacheNamed STATIC_CACHE caches ∧
    (∀ response, request.method = "GET" → request.origin ≠ STORY_API_ORIGIN →
      p.fetch request = some response → startsWith request.url p.selfOrigin = true →
      response.status = 200 →
      putCalls (fetchHandler p caches request).effects =
        [(DYNAMIC_CACHE, request, response)]) := by
  refine ⟨?_, ?_, ?_, ?_, ?_⟩
  · intro w hw
    rcases runEvents_putCalls steps caches w hw with h | h
    · exact Or.inl h.1
    · exact Or.inr h
  · intro w hw
    exact (installHandler_putCalls p caches w hw).1
  · intro w hw
    rw [(fetchHandler_putCalls p caches request w hw).1]
  · exact fetchHandler_other_caches p caches request STATIC_CACHE (by decide)
  · intro response hget hother hnet hsame hs
    simp [fetchHandler, hget, hother, hnet, hsame, hs, putCalls]

/-- Witness for C14: install followed by a page load writes the nine assets to the
static cache and the page to the dynamic cache, and nothing anywhere else. -/
theorem cache_writes_by_namespace_witness :
    (putCalls
        (runEvents [(shellNetwork, .install), (shellNetwork, .fetch shellRequest)] []).1).map
      (·.1) =
      [STATIC_CACHE, STATIC_CACHE, STATIC_CACHE, STATIC_CACHE, STATIC_CACHE, STATIC_CACHE,
        STATIC_CACHE, STATIC_CACHE, STATIC_CACHE, DYNAMIC_CACHE] ∧
    (∀ w, w ∈ putCalls
        (runEvents [(shellNetwork, .install), (shellNetwork, .fetch shellRequest)] []).1 →
      w.1 = DYNAMIC_CACHE ∨
        (w.1 = STATIC_CACHE ∧
          ∃ origin u, u ∈ STATIC_ASSETS ∧ w.2.1 = assetRequest origin u)) :=
  ⟨by decide,
    (cache_writes_by_namespace
      [(shellNetwork, .install), (shellNetwork, .fetch shellRequest)] [] shellNetwork
      shellRequest).1⟩

/-! ## Sync Engine: flush order -/

theorem settleEntry_fresh (succeeded : Bool) (e : PendingWrite) (l : List PendingWrite)
    (h : ∀ x ∈ l, x.id ≠ e.id) : settleEntry succeeded e l = l := by
  unfold settleEntry
  cases succeeded with
  | true =>
    simp only [if_true]
    exact List.filter_eq_self.mpr (fun x hx => by simpa using h x hx)
  | false =>
    simp only [Bool.false_eq_true, if_false]
    have : ∀ x ∈ l, (if x.id = e.id then x.retried else x) = x := by
      intro x hx
      rw [if_neg (h x hx)]
    calc l.map (fun x => if x.id = e.id then x.retried else x)
        = l.map id := List.map_congr_left this
      _ = l := List.map_id l

theorem settleEntry_append (succeeded : Bool) (e : PendingWrite) (a b : List PendingWrite) :
    settleEntry succeeded e (a ++ b) = settleEntry succeeded e a ++ settleEntry succeeded e b := by
  unfold settleEntry
  cases succeeded <;> simp

theorem settleEntry_self (succeeded : Bool) (e : PendingWrite) :
    settleEntry succeeded e [e] = if succeeded then [] else [e.retried] := by
  unfold settleEntry
  cases succeeded <;> simp

/-- The flush loop, started on a queue that holds the snapshot between the entries
already settled and the entries that arrived since. -/
theorem flushLoop_spec (remote : PendingWrite → Bool) (arrivals : Nat → List PendingWrite)
    (snapshot : List PendingWrite) :
    ∀ (i : Nat) (settled later : List PendingWrite),
      (snapshot.map (·.id)).Nodup →
      (∀ e ∈ snapshot, ∀ x ∈ settled, x.id ≠ e.id) →
      (∀ e ∈ snapshot, ∀ x ∈ later, x.id ≠ e.id) →
      (∀ e ∈ snapshot, ∀ j, ∀ x ∈ arrivals j, x.id ≠ e.id) →
      flushLoop remote arrivals i snapshot (settled ++ snapshot ++ later) =
        (settled ++ (snapshot.filter (fun e => !remote e)).map PendingWrite.retried ++ later ++
            (List.range' i snapshot.length).flatMap arrivals,
          snapshot) := by
  induction snapshot with
  | nil =>
    intro i settled later _ _ _ _
    simp [flushLoop]
  | cons e rest ih =>
    intro i settled later hnd hs hl ha
    have hnd2 : (rest.map (·.id)).Nodup := (List.nodup_cons.mp hnd).2
    have hrest : ∀ x ∈ rest, x.id ≠ e.id := by
      intro x hx heq
      exact (List.nodup_cons.mp hnd).1 (List.mem_map.mpr ⟨x, hx, heq⟩)
    have hq : settleEntry (remote e) e (settled ++ e :: rest ++ later ++ arrivals i) =
        (settled ++ (if remote e then [] else [e.retried])) ++ rest ++ (later ++ arrivals i) := by
      have h1 : settled ++ e :: rest ++ later ++ arrivals i =
          settled ++ ([e] ++ (rest ++ (later ++ arrivals i))) := by simp
      rw [h1, settleEntry_append, settleEntry_append, settleEntry_append, settleEntry_append,
        settleEntry_fresh _ e settled (hs e (List.mem_cons_self _ _)),
        settleEntry_fresh _ e rest hrest,
        settleEntry_fresh _ e later (hl e (List.mem_cons_self _ _)),
        settleEntry_fresh _ e (arrivals i) (ha e (List.mem_cons_self _ _) i),
        settleEntry_self]
      simp
    have hs2 : ∀ e2 ∈ rest, ∀ x ∈ settled ++ (if remote e then [] else [e.retried]),
        x.id ≠ e2.id := by
      intro e2 he2 x hx
      rcases List.mem_append.mp hx with hx | hx
      · exact hs e2 (List.mem_cons_of_mem _ he2) x hx
      · cases hr : remote e with
        | true => rw [hr] at hx; simp at hx
        | false =>
          rw [hr] at hx
          simp only [Bool.false_eq_true, if_false, List.mem_singleton] at hx
          subst hx
          exact fun heq => hrest e2 he2 heq.symm
    have hl2 : ∀ e2 ∈ rest, ∀ x ∈ later ++ arrivals i, x.id ≠ e2.id := by
      intro e2 he2 x hx
      rcases List.mem_append.mp hx with hx | hx
      · exact hl e2 (List.mem_cons_of_mem _ he2) x hx
      · exact ha e2 (List.mem_cons_of_mem _ he2) i x hx
    have ha2 : ∀ e2 ∈ rest, ∀ j, ∀ x ∈ arrivals j, x.id ≠ e2.id :=
      fun e2 he2 => ha e2 (List.mem_cons_of_mem _ he2)
    have hih := ih (i + 1) (settled ++ (if remote e then [] else [e.retried]))
      (later ++ arrivals i) hnd2 hs2 hl2 ha2
    simp only [flushLoop]
    rw [hq, hih]
    cases hr : remote e <;>
      simp [hr, List.range'_succ, List.flatMap_cons, List.filter_cons]

/-- C15: within one flush cycle the entries queued at flush start are submitted in
the order they were enqueued, and entries enqueued during the flush are neither
submitted nor changed: the queue left holds the snapshot entries whose submission
failed, in order and with their attempt count incremented, followed by the entries
that arrived during the flush. -/
theorem flush_fifo_snapshot (remote : PendingWrite → Bool)
    (arrivals : Nat → List PendingWrite) (queue : List PendingWrite)
    (hunique : (queue.map (·.id)).Nodup)
    (hfresh : ∀ e ∈ queue, ∀ j, ∀ x ∈ arrivals j, x.id ≠ e.id) :
    (flush remote arrivals queue).2 = queue ∧
    (flush remote arrivals queue).1 =
      (queue.filter (fun e => !remote e)).map PendingWrite.retried ++
        (List.range queue.length).flatMap arrivals := by
  have h := flushLoop_spec remote arrivals queue 0 [] [] hunique
    (fun _ _ x hx => by cases hx) (fun _ _ x hx => by cases hx) hfresh
  simp only [List.nil_append, List.append_nil] at h
  unfold flush
  rw [h, List.range_eq_range']
  exact ⟨rfl, rfl⟩

/-- Witness for C15: queue [A, B] at flush start, A accepted, B refused, C enqueued
while A is in flight: A then B are submitted, and the queue left is B, tried once,
and C, untouched. -/
theorem flush_fifo_snapshot_witness :
    (flush (fun e => decide (e.id = 1))
        (fun i => if i = 0 then [samplePending 3 "C"] else [])
        [samplePending 1 "A", samplePending 2 "B"]).2 =
      [samplePending 1 "A", samplePending 2 "B"] ∧
    (flush (fun e => decide (e.id = 1))
        (fun i => if i = 0 then [samplePending 3 "C"] else [])
        [samplePending 1 "A", samplePending 2 "B"]).1 =
      [(samplePending 2 "B").retried, samplePending 3 "C"] :=
  have h := flush_fifo_snapshot (fun e => decide (e.id = 1))
    (fun i => if i = 0 then [samplePending 3 "C"] else [])
    [samplePending 1 "A", samplePending 2 "B"] (by decide)
    (by
      intro e he j x hx
      by_cases hj : j = 0
      · simp only [hj, if_true, List.mem_singleton] at hx
        subst hx
        simp only [List.mem_cons, List.mem_singleton, List.not_mem_nil, or_false] at he
        rcases he with rfl | rfl <;> decide
      · simp [hj] at hx)
  ⟨h.1, h.2.trans (by decide)⟩

/-! ## Stories page: favourites stay a set -/

theorem removeFromFavorites_nodup (id : String) (favorites : List FavoriteEntry)
    (h : (favorites.map (·.storyId)).Nodup) :
    ((removeFromFavorites id favorites).map (·.storyId)).Nodup :=
  h.sublist (List.Sublist.map _ (List.filter_sublist favorites))

theorem isFavorite_false (favorites : List FavoriteEntry) (id : String)
    (h : isFavorite favorites id = false) : id ∉ favorites.map (·.storyId) := by
  intro hm
  obtain ⟨f, hf, hid⟩ := List.mem_map.mp hm
  have : isFavorite favorites id = true := by
    unfold isFavorite
    exact List.any_eq_true.mpr ⟨f, hf, by simpa using hid⟩
  rw [h] at this
  cases this

theorem addToFavorites_nodup (now : Nat) (id : String) (story : Story)
    (favorites : List FavoriteEntry) (h : (favorites.map (·.storyId)).Nodup) :
    ((addToFavorites now id story favorites).map (·.storyId)).Nodup := by
  unfold addToFavorites
  cases hf : isFavorite favorites id with
  | true =>
    simp only [if_true]
    have hmap : (favorites.map
        (fun f => if f.storyId = id then { f with storyData := story } else f)).map
        (·.storyId) = favorites.map (·.storyId) := by
      rw [List.map_map]
      apply List.map_congr_left
      intro f _
      by_cases hid : f.storyId = id <;> simp [hid]
    rw [hmap]
    exact h
  | false =>
    simp only [Bool.false_eq_true, if_false, List.map_append, List.map_cons, List.map_nil]
    refine List.Nodup.append h (List.nodup_singleton _) ?_
    intro x hx hx2
    rw [List.mem_singleton] at hx2
    subst hx2
    exact isFavorite_false favorites _ hf hx

/-- The store one `toggleFavorite` leaves: untouched, or after one remove, or
after one add. -/
theorem toggleFavorite_store (env : ToggleEnv) (favorites : List FavoriteEntry)
    (storyId : String) :
    (toggleFavorite env favorites storyId).2 = favorites ∨
    (toggleFavorite env favorites storyId).2 = removeFromFavorites storyId favorites ∨
    ∃ story, (toggleFavorite env favorites storyId).2 =
      addToFavorites env.now storyId story favorites := by
  by_cases hs : env.serviceAvailable = false
  · left
    simp [toggleFavorite, hs]
  · cases hfind : env.stories.find? (fun s => decide (s.id = storyId)) with
    | none =>
      left
      simp [toggleFavorite, hs, hfind]
    | some found =>
      by_cases hr : env.readRejects = true
      · left
        simp [toggleFavorite, hs, hfind, hr]
      · by_cases hfav : isFavorite favorites storyId = true
        · by_cases hw : env.writeRejects = true
          · left
            simp [toggleFavorite, hs, hfind, hr, hfav, hw]
          · right; left
            simp [toggleFavorite, hs, hfind, hr, hfav, hw]
        · by_cases hw : env.writeRejects = true
          · left
            simp [toggleFavorite, hs, hfind, hr, hfav, hw]
          · right; right
            exact ⟨found, by simp [toggleFavorite, hs, hfind, hr, hfav, hw]⟩

/-- One `toggleFavorite` keeps the ids of the favourites distinct. -/
theorem toggleFavorite_nodup (env : ToggleEnv) (favorites : List FavoriteEntry)
    (storyId : String) (h : (favorites.map (·.storyId)).Nodup) :
    ((toggleFavorite env favorites storyId).2.map (·.storyId)).Nodup := by
  rcases toggleFavorite_store env favorites storyId with h1 | h1 | ⟨story, h1⟩
  · rw [h1]; exact h
  · rw [h1]; exact removeFromFavorites_nodup _ _ h
  · rw [h1]; exact addToFavorites_nodup _ _ _ _ h

theorem toggleAll_nodup (calls : List (ToggleEnv × String)) (favorites : List FavoriteEntry)
    (h : (favorites.map (·.storyId)).Nodup) :
    ((toggleAll calls favorites).map (·.storyId)).Nodup := by
  induction calls generalizing favorites with
  | nil => exact h
  | cons c rest ih =>
    obtain ⟨env, storyId⟩ := c
    exact ih _ (toggleFavorite_nodup env favorites storyId h)

/-- C16: starting from favourites with distinct story ids, every sequence of
`toggleFavorite` calls, each run to completion, leaves the ids distinct; a call
invokes `addToFavorites(id, story)` only after `isFavorite(id)` reported false, and
then for the story found in the list under that id, `removeFromFavorites(id)` only
after it reported true, and neither when the id is not in the story list. -/
theorem toggleFavorite_keeps_set (calls : List (ToggleEnv × String))
    (favorites : List FavoriteEntry) (env : ToggleEnv) (storyId : String)
    (hunique : (favorites.map (·.storyId)).Nodup) :
    ((toggleAll calls favorites).map (·.storyId)).Nodup ∧
    (∀ id story, .addToFavorites id story ∈ (toggleFavorite env favorites storyId).1 →
      id = storyId ∧ .isFavorite storyId (some false) ∈ (toggleFavorite env favorites storyId).1 ∧
      isFavorite favorites storyId = false ∧
      env.stories.find? (fun s => decide (s.id = storyId)) = some story) ∧
    (∀ id, .removeFromFavorites id ∈ (toggleFavorite env favorites storyId).1 →
      id = storyId ∧ .isFavorite storyId (some true) ∈ (toggleFavorite env favorites storyId).1 ∧
      isFavorite favorites storyId = true) ∧
    (env.stories.find? (fun s => decide (s.id = storyId)) = none →
      (toggleFavorite env favorites storyId).1 = [] ∨
        (toggleFavorite env favorites storyId).1 =
          [.showError "IndexedDB service is unavailable"]) ∧
    (env.stories.find? (fun s => decide (s.id = storyId)) = none →
      (toggleFavorite env favorites storyId).2 = favorites) := by
  refine ⟨toggleAll_nodup calls favorites hunique, ?_, ?_, ?_, ?_⟩
  · intro id story hmem
    unfold toggleFavorite at hmem ⊢
    by_cases hs : env.serviceAvailable = false
    · simp [hs] at hmem
    · cases hfind : env.stories.find? (fun s => decide (s.id = storyId)) with
      | none => simp [hs, hfind] at hmem
      | some found =>
        by_cases hr : env.readRejects = true
        · simp [hs, hfind, hr] at hmem
        · by_cases hfav : isFavorite favorites storyId = true
          · by_cases hw : env.writeRejects = true <;> simp [hs, hfind, hr, hfav, hw] at hmem
          · by_cases hw : env.writeRejects = true
            · simp [hs, hfind, hr, hfav, hw] at hmem
              simp [hs, hr, hfav, hw, hmem.1, hmem.2]
            · simp [hs, hfind, hr, hfav, hw] at hmem
              simp [hs, hr, hfav, hw, hmem.1, hmem.2]
  · intro id hmem
    unfold toggleFavorite at hmem ⊢
    by_cases hs : env.serviceAvailable = false
    · simp [hs] at hmem
    · cases hfind : env.stories.find? (fun s => decide (s.id = storyId)) with
      | none => simp [hs, hfind] at hmem
      | some found =>
        by_cases hr : env.readRejects = true
        · simp [hs, hfind, hr] at hmem
        · by_cases hfav : isFavorite favorites storyId = true
          · by_cases hw : env.writeRejects = true
            · simp [hs, hfind, hr, hfav, hw] at hmem
              simp [hs, hr, hfav, hw, hmem]
            · simp [hs, hfind, hr, hfav, hw] at hmem
              simp [hs, hr, hfav, hw, hmem]
          · by_cases hw : env.writeRejects = true <;> simp [hs, hfind, hr, hfav, hw] at hmem
  · intro hfind
    unfold toggleFavorite
    by_cases hs : env.serviceAvailable = false
    · simp [hs]
    · simp [hs, hfind]
  · intro hfind
    unfold toggleFavorite
    by_cases hs : env.serviceAvailable = false
    · simp [hs]
    · simp [hs, hfind]

/-- Witness for C16: toggling "s1" twice and an unknown id once leaves the
favourites as they were, and the first toggle adds "s1" after `isFavorite` reported
false. -/
theorem toggleFavorite_keeps_set_witness :
    ((toggleAll [(sampleToggleEnv, "s1"), (sampleToggleEnv, "s3"), (sampleToggleEnv, "s1")]
        []).map (·.storyId)).Nodup ∧
    (toggleFavorite sampleToggleEnv [] "s1").1 =
      [.isFavorite "s1" (some false), .addToFavorites "s1" (sampleStory "s1"),
        .markButton true, .showSuccess "Saved to favorites"] :=
  ⟨(toggleFavorite_keeps_set
      [(sampleToggleEnv, "s1"), (sampleToggleEnv, "s3"), (sampleToggleEnv, "s1")] []
      sampleToggleEnv "s1" List.nodup_nil).1,
    by decide⟩

/-! ## Application start: push setup and the core services -/

/-- Once the wait for the service worker is over, the Local Store and the Sync
Engine are constructed and their `initialize` is called, whatever
`PushNotificationService.initialize` returned or threw. -/
theorem core_services_after_push_setup (env : StartEnv)
    (hsw : env.serviceWorker = .controlled ∨ env.serviceWorker = .becomesReady) :
    (initializeServicesLazily env).completed = true ∧
    (initializeServicesLazily env).indexedDBService = env.indexedDBServiceDefined ∧
    (initializeServicesLazily env).syncService = env.syncServiceDefined := by
  unfold initializeServicesLazily
  rcases hsw with h | h <;> cases hp : env.pushServiceDefined <;>
    simp [h, startCoreServices]

/-- C17 (the code at the failing input): in a browser without
`navigator.serviceWorker`, `initializeServicesLazily` constructs the push service,
fails in the wait for the worker, and ends in its outer `catch`: neither
`window.indexedDBService` nor `window.syncService` is constructed. When the worker
never becomes ready the function never gets past the wait. When the wait is over,
a push `initialize` that returns false or throws does not stop the core services. -/
theorem c17_push_wait_blocks_core_services :
    initializeServicesLazily (sampleStartEnv .missing (.returns false)) =
      { completed := true,
        effects := [.newPushNotificationService, .setupNotificationButton],
        pushNotificationService := true, indexedDBService := false, syncService := false } ∧
    (initializeServicesLazily (sampleStartEnv .neverReady (.returns false))).completed
      = false ∧
    (initializeServicesLazily (sampleStartEnv .neverReady (.returns false))).syncService
      = false ∧
    initializeServicesLazily (sampleStartEnv .controlled .throws) =
      { completed := true,
        effects := [.newPushNotificationService, .pushInitialize, .setupNotificationButton,
          .newIndexedDBService, .indexedDBInitialize, .newSyncService, .syncInitialize],
        pushNotificationService := true, indexedDBService := true, syncService := true } := by
  decide

/-! ## Push notification service: the subscription request -/

/-- C18: `sendSubscriptionToServer` makes one request, a POST to the
`/notifications/subscribe` endpoint whose body is the JSON text of the subscription
data's endpoint and keys and nothing else; the headers carry
`Authorization: Bearer <token>` exactly when `getAuthToken` returns a truthy token
(for a string: a non-empty one); and `getAuthToken` returns `null` when localStorage
has no `authData` entry or `JSON.parse` rejects the entry. -/
theorem subscription_request_shape (store : TokenStore)
    (network : HttpRequest → Except JsThrown ServerResponse)
    (subscription : PushSubscription) :
    (sendSubscriptionToServer store network subscription).1 =
      [subscribeRequest store subscription] ∧
    (subscribeRequest store subscription).method = "POST" ∧
    (subscribeRequest store subscription).url =
      "https://story-api.dicoding.dev/v1/notifications/subscribe" ∧
    (subscribeRequest store subscription).body =
      subscribeBody (subscriptionData subscription).endpoint
        (subscriptionData subscription).keys ∧
    ((∃ v, ("Authorization", v) ∈ (subscribeRequest store subscription).headers) ↔
      (getAuthToken store).truthy = true) ∧
    ((getAuthToken store).truthy = true →
      (subscribeRequest store subscription).headers =
        [("Content-Type", "application/json"),
          ("Authorization", "Bearer " ++ (getAuthToken store).toJsString)]) ∧
    ((getAuthToken store).truthy = false →
      (subscribeRequest store subscription).headers =
        [("Content-Type", "application/json")]) ∧
    (∀ token, getAuthToken store = .string token →
      ((getAuthToken store).truthy = true ↔ token ≠ "")) ∧
    (store.getItem = some none → getAuthToken store = .null) ∧
    (∀ authData, store.getItem = some (some authData) → store.jsonParse authData = none →
      getAuthToken store = .null) := by
  refine ⟨?_, rfl, rfl, rfl, ?_, ?_, ?_, ?_, ?_, ?_⟩
  · unfold sendSubscriptionToServer
    cases network (subscribeRequest store subscription) with
    | error reason => rfl
    | ok response => by_cases hok : response.ok = false <;> simp [hok]
  · cases ht : (getAuthToken store).truthy <;> simp [subscribeRequest, ht]
  · intro ht
    simp [subscribeRequest, ht]
  · intro ht
    simp [subscribeRequest, ht]
  · intro token ht
    rw [ht]
    simp [JsVal.truthy]
  · intro h
    simp [getAuthToken, h]
  · intro authData h hparse
    by_cases he : authData = "" <;> simp [getAuthToken, h, he, hparse]

/-- Witness for C18: with a stored login the request carries the bearer token and
the endpoint and keys of the subscription; with no entry it carries no
`Authorization` header. -/
theorem subscription_request_shape_witness :
    subscribeRequest (sampleTokenStore (some "\x7b\"token\":\"abc123\"\x7d")) sampleSubscription =
      { url := "https://story-api.dicoding.dev/v1/notifications/subscribe",
        method := "POST",
        headers := [("Content-Type", "application/json"), ("Authorization", "Bearer abc123")],
        body := "\x7b\"endpoint\":\"https://push.example/send/abc\",\"keys\":\x7b\"p256dh\":\"BPk\",\"auth\":\"c2Vj\"\x7d\x7d" } ∧
    (subscribeRequest (sampleTokenStore none) sampleSubscription).headers =
      [("Content-Type", "application/json")] ∧
    getAuthToken (sampleTokenStore (some "not json")) = .null :=
  have h := subscription_request_shape (sampleTokenStore none) (fun _ => .error .nullish)
    sampleSubscription
  ⟨by decide, h.2.2.2.2.2.2.1 (by decide), by decide⟩

/-! ## Push notification service: subscribing -/

/-- The method `subscribe` never changes the instance. -/
theorem subscribe_service (env : NotificationEnv) (s : PushService) :
    (subscribe env s).service = s := by
  unfold subscribe
  cases hr : requestPermission env with
  | mk result effects =>
    cases result with
    | error e => rfl
    | ok permission => by_cases hp : permission = "granted" <;> simp [hp]

/-- C19 (the code at the failing input): on a fresh service with the notification
permission granted, `toggleSubscription` runs `subscribe`, which returns after the
permission step: `isSubscribed` is still false and `subscription` still `null`, no
message is shown, and the next `toggleSubscription` takes the subscribe path
again. -/
theorem c19_subscribe_leaves_unsubscribed :
    (toggleSubscription
        { available := true, permission := .granted, prompt := .resolves .granted }
        (PushService.new true)).service = PushService.new true ∧
    (toggleSubscription
        { available := true, permission := .granted, prompt := .resolves .granted }
        (PushService.new true)).service.isSubscribed = false ∧
    (toggleSubscription
        { available := true, permission := .granted, prompt := .resolves .granted }
        (PushService.new true)).service.subscription = none ∧
    (toggleSubscription
        { available := true, permission := .granted, prompt := .resolves .granted }
        (PushService.new true)).effects = [] ∧
    (subscribe { available := true, permission := .granted, prompt := .resolves .granted }
        (PushService.new true)).returned = .undefined ∧
    (toggleSubscription
        { available := true, permission := .granted, prompt := .resolves .granted }
        (toggleSubscription
          { available := true, permission := .granted, prompt := .resolves .granted }
          (PushService.new true)).service).effects =
      (subscribe { available := true, permission := .granted, prompt := .resolves .granted }
        (PushService.new true)).effects := by
  decide

/-! ## Add-story page: geolocation timeout -/

/-- C20: `getCurrentLocation` requests the position with `timeout: 10000`, and the
message it shows for the error code `TIMEOUT`, "Location request timed out", differs
from the message it shows for every other code, `PERMISSION_DENIED` and
`POSITION_UNAVAILABLE` included. -/
theorem geolocation_timeout_distinct (outcome : PositionOutcome) (code : Nat)
    (hcode : code ≠ TIMEOUT) :
    positionRequests (getCurrentLocation true outcome) =
      [{ enableHighAccuracy := true, timeout := 10000, maximumAge := 60000 }] ∧
    locationErrors (getCurrentLocation true (.error TIMEOUT)) =
      ["Location request timed out"] ∧
    locationErrors (getCurrentLocation true (.error code)) = [locationErrorMessage code] ∧
    locationErrorMessage code ≠ "Location request timed out" := by
  refine ⟨?_, by decide, rfl, ?_⟩
  · cases outcome <;> rfl
  · unfold locationErrorMessage
    split_ifs <;> decide

/-- Witness for C20: a denied permission is reported with a message other than the
timeout message. -/
theorem geolocation_timeout_distinct_witness :
    locationErrors (getCurrentLocation true (.error PERMISSION_DENIED)) =
      [locationErrorMessage PERMISSION_DENIED] ∧
    locationErrorMessage PERMISSION_DENIED ≠ "Location request timed out" :=
  (geolocation_timeout_distinct (.error PERMISSION_DENIED) PERMISSION_DENIED
    (by decide)).2.2

/-! ## Push notification service: permission, validity, invariant -/

set_option maxRecDepth 8192 in
/-- C22 (the code at the failing input): when the permission is still undecided and
the user denies the prompt, the error `requestPermission` creates with
`permission = "denied"` is thrown inside its own `try` and replaced by its `catch`
with a plain `Error("Failed to request notification permission")`; `subscribe` then
shows "Failed to enable notifications: ..." and not the "How to fix" instructions it
shows when the permission was denied before the call. -/
theorem c22_denied_prompt_loses_permission_field :
    requestPermission { available := true, permission := .default, prompt := .resolves .denied } =
      (.error { message := "Failed to request notification permission", permission := none },
        [.promptPermission]) ∧
    (subscribe { available := true, permission := .default, prompt := .resolves .denied }
        (PushService.new true)).effects =
      [.promptPermission,
        .showMessage
          "Failed to enable notifications: Failed to request notification permission"
          "error"] ∧
    (subscribe { available := true, permission := .denied, prompt := .resolves .denied }
        (PushService.new true)).effects =
      [.showMessage permissionDeniedHelp "error"] ∧
    permissionDeniedHelp ≠
      "Failed to enable notifications: Failed to request notification permission" :=
  ⟨rfl, rfl, rfl, by decide⟩

/-- The check of `verifySubscription`, spelled out. -/
theorem verifySubscription_iff (subscription : PushSubscription) :
    verifySubscription subscription = true ↔
      ∃ endpoint, subscription.endpoint = some endpoint ∧ endpoint ≠ "" ∧
        startsWith endpoint "https://" = true := by
  unfold verifySubscription
  cases subscription.endpoint with
  | none => simp
  | some e => simp

/-- C23 (as stated, refuted): the platform reports a subscription whose endpoint is
an `http://` URL and refuses to unsubscribe it (`unsubscribe()` resolves to false);
`checkSubscription` returns true with `isSubscribed` true and that subscription
still in place. -/
theorem c23_invalid_subscription_kept :
    verifySubscription stuckSubscription = false ∧
    (checkSubscription
        { isSubscribed := false,
          registration := some { getSubscription := .resolves (some stuckSubscription) },
          subscription := none, isSupported := true }).returned = true ∧
    (checkSubscription
        { isSubscribed := false,
          registration := some { getSubscription := .resolves (some stuckSubscription) },
          subscription := none, isSupported := true }).service.isSubscribed = true ∧
    (checkSubscription
        { isSubscribed := false,
          registration := some { getSubscription := .resolves (some stuckSubscription) },
          subscription := none, isSupported := true }).service.subscription =
      some stuckSubscription := by
  decide

/-- C23 (amended): when `checkSubscription` returns true, `isSubscribed` is true and
the current subscription either passes the check (endpoint non-empty and starting
with "https://") or failed it while the platform `unsubscribe()` resolved to false,
which leaves it in place; a reported subscription that fails the check is
unsubscribed, with `isSubscribed` false and no subscription left, whenever the
platform `unsubscribe()` resolves to true or throws. -/
theorem checkSubscription_valid_or_stuck (s : PushService)
    (hret : (checkSubscription s).returned = true) :
    (checkSubscription s).service.isSubscribed = true ∧
    (∃ subscription, (checkSubscription s).service.subscription = some subscription ∧
      (verifySubscription subscription = true ∨
        (verifySubscription subscription = false ∧
          subscription.unsubscribe = .resolves false))) := by
  cases hreg : s.registration with
  | none => simp [checkSubscription, hreg] at hret
  | some registration =>
    cases hget : registration.getSubscription with
    | rejects => simp [checkSubscription, hreg, hget] at hret
    | resolves found =>
      cases found with
      | none => simp [checkSubscription, hreg, hget] at hret
      | some subscription =>
        by_cases hv : verifySubscription subscription = true
        · simp [checkSubscription, hreg, hget, hv]
        · have hv2 : verifySubscription subscription = false := by simpa using hv
          cases hu : subscription.unsubscribe with
          | rejects => simp [checkSubscription, hreg, hget, hv2, unsubscribe, hu] at hret
          | resolves successful =>
            cases successful with
            | true => simp [checkSubscription, hreg, hget, hv2, unsubscribe, hu] at hret
            | false => simp [checkSubscription, hreg, hget, hv2, unsubscribe, hu]

/-- An invalid subscription is removed when the platform lets it go. -/
theorem checkSubscription_unsubscribes_invalid (s : PushService)
    (registration : Registration) (subscription : PushSubscription)
    (hreg : s.registration = some registration)
    (hget : registration.getSubscription = .resolves (some subscription))
    (hv : verifySubscription subscription = false)
    (hu : subscription.unsubscribe ≠ .resolves false) :
    (checkSubscription s).service.subscription = none ∧
    (checkSubscription s).service.isSubscribed = false ∧
    (checkSubscription s).returned = false := by
  cases hu2 : subscription.unsubscribe with
  | rejects => simp [checkSubscription, hreg, hget, hv, unsubscribe, hu2]
  | resolves successful =>
    cases successful with
    | true => simp [checkSubscription, hreg, hget, hv, unsubscribe, hu2]
    | false => exact absurd hu2 hu

/-- Witness for C23: a valid subscription reported by the platform is kept and
`checkSubscription` returns true. -/
theorem checkSubscription_valid_or_stuck_witness :
    (checkSubscription
        { isSubscribed := false,
          registration := some { getSubscription := .resolves (some sampleSubscription) },
          subscription := none, isSupported := true }).service.isSubscribed = true ∧
    (∃ subscription,
      (checkSubscription
        { isSubscribed := false,
          registration := some { getSubscription := .resolves (some sampleSubscription) },
          subscription := none, isSupported := true }).service.subscription = some subscription ∧
      (verifySubscription subscription = true ∨
        (verifySubscription subscription = false ∧
          subscription.unsubscribe = .resolves false))) :=
  checkSubscription_valid_or_stuck
    { isSubscribed := false,
      registration := some { getSubscription := .resolves (some sampleSubscription) },
      subscription := none, isSupported := true } (by decide)

theorem onPlatform_consistent (p : PushPlatform) (s : PushService) (h : s.consistent) :
    (s.onPlatform p).consistent := by
  unfold PushService.consistent PushService.onPlatform at *
  simpa using h

theorem unsubscribe_consistent (s : PushService) (h : s.consistent) :
    (unsubscribe s).service.consistent := by
  unfold PushService.consistent at *
  cases hs : s.subscription with
  | none => simp [unsubscribe, hs]
  | some subscription =>
    cases hu : subscription.unsubscribe with
    | rejects => simp [unsubscribe, hs, hu]
    | resolves successful =>
      cases successful with
      | true => simp [unsubscribe, hs, hu]
      | false => simpa [unsubscribe, hs, hu] using h

theorem checkSubscription_consistent (s : PushService) (h : s.consistent) :
    (checkSubscription s).service.consistent := by
  cases hreg : s.registration with
  | none =>
    simp only [checkSubscription, hreg]
    exact h
  | some registration =>
    cases hget : registration.getSubscription with
    | rejects =>
      simp only [checkSubscription, hreg, hget]
      exact h
    | resolves found =>
      cases found with
      | none => simp [checkSubscription, hreg, hget, PushService.consistent]
      | some subscription =>
        by_cases hv : verifySubscription subscription = true
        · simp [checkSubscription, hreg, hget, hv, PushService.consistent]
        · simp only [checkSubscription, hreg, hget, hv]
          exact unsubscribe_consistent _ (by simp [PushService.consistent])

theorem initializeService_consistent (ready : ReadyOutcome) (s : PushService)
    (h : s.consistent) : (initializeService ready s).service.consistent := by
  unfold initializeService
  by_cases hs : s.isSupported = false
  · simpa [hs] using h
  · cases ready with
    | throws => simpa [hs] using h
    | resolves registration =>
      cases registration with
      | none =>
        simp only [hs]
        simpa [PushService.consistent] using h
      | some r =>
        simp only [hs]
        exact checkSubscription_consistent _ (by simpa [PushService.consistent] using h)

theorem callMethod_consistent (p : PushPlatform) (m : PushMethod) (s : PushService)
    (h : s.consistent) : (callMethod p m s).consistent := by
  have hp := onPlatform_consistent p s h
  cases m with
  | initializeService => exact initializeService_consistent _ _ hp
  | checkSubscription => exact checkSubscription_consistent _ hp
  | subscribe =>
    simp only [callMethod, subscribe_service]
    exact hp
  | unsubscribe => exact unsubscribe_consistent _ hp
  | toggleSubscription =>
    simp only [callMethod, toggleSubscription]
    by_cases hsub : (s.onPlatform p).isSubscribed = true
    · simp only [hsub, if_true]
      exact unsubscribe_consistent _ hp
    · simp only [hsub, subscribe_service]
      exact hp

theorem runCalls_consistent (calls : List (PushPlatform × PushMethod)) (s : PushService)
    (h : s.consistent) : (runCalls calls s).consistent := by
  induction calls generalizing s with
  | nil => exact h
  | cons c rest ih =>
    obtain ⟨p, m⟩ := c
    exact ih _ (callMethod_consistent p m s h)

/-- C29: in every state reached from a freshly constructed service by completed
calls of `initialize`, `checkSubscription`, `subscribe`, `unsubscribe` and
`toggleSubscription`, whatever the platform answers, `isSubscribed` is true exactly
when `subscription` is non-null; and an `unsubscribe` whose platform call resolves to
false leaves the instance as it was. -/
theorem isSubscribed_iff_subscription (calls : List (PushPlatform × PushMethod))
    (isSupported : Bool) (s : PushService) (subscription : PushSubscription)
    (hsub : s.subscription = some subscription)
    (hfail : subscription.unsubscribe = .resolves false) :
    ((runCalls calls (PushService.new isSupported)).isSubscribed = true ↔
      (runCalls calls (PushService.new isSupported)).subscription ≠ none) ∧
    (unsubscribe s).service = s ∧ (unsubscribe s).returned = false := by
  refine ⟨?_, ?_, ?_⟩
  · have h := runCalls_consistent calls (PushService.new isSupported)
      (by simp [PushService.consistent, PushService.new])
    unfold PushService.consistent at h
    rw [h]
    cases (runCalls calls (PushService.new isSupported)).subscription <;> simp
  · simp [unsubscribe, hsub, hfail]
  · simp [unsubscribe, hsub, hfail]

/-- Witness for C29: a service that found a subscription at start-up and failed to
unsubscribe it is still subscribed, with the subscription in place. -/
theorem isSubscribed_iff_subscription_witness :
    ((runCalls
        [({ ready := .resolves (some { getSubscription := .resolves (some sampleSubscription) }),
            getSubscription := .resolves (some sampleSubscription),
            unsubscribe := .resolves false,
            notification := { available := true, permission := .granted,
                              prompt := .resolves .granted } }, .initializeService)]
        (PushService.new true)).isSubscribed = true ↔
      (runCalls
        [({ ready := .resolves (some { getSubscription := .resolves (some sampleSubscription) }),
            getSubscription := .resolves (some sampleSubscription),
            unsubscribe := .resolves false,
            notification := { available := true, permission := .granted,
                              prompt := .resolves .granted } }, .initializeService)]
        (PushService.new true)).subscription ≠ none) ∧
    (unsubscribe
        { isSubscribed := true, registration := none,
          subscription := some stuckSubscription, isSupported := true }).service =
      { isSubscribed := true, registration := none,
        subscription := some stuckSubscription, isSupported := true } ∧
    (unsubscribe
        { isSubscribed := true, registration := none,
          subscription := some stuckSubscription, isSupported := true }).returned = false :=
  isSubscribed_iff_subscription
    [({ ready := .resolves (some { getSubscription := .resolves (some sampleSubscription) }),
        getSubscription := .resolves (some sampleSubscription),
        unsubscribe := .resolves false,
        notification := { available := true, permission := .granted,
                          prompt := .resolves .granted } }, .initializeService)]
    true
    { isSubscribed := true, registration := none,
      subscription := some stuckSubscription, isSupported := true }
    stuckSubscription rfl rfl

/-! ## `Array.prototype.sort`: permutation and order -/

theorem insertSorted_perm {α : Type} (cmp : α → α → Int) (a : α) (l : List α) :
    (insertSorted cmp a l).Perm (a :: l) := by
  induction l with
  | nil => exact List.Perm.refl _
  | cons b t ih =>
    unfold insertSorted
    split_ifs
    · exact List.Perm.refl _
    · exact (List.Perm.cons b ih).trans (List.Perm.swap a b t)

/-- The sort returns a permutation of its input. -/
theorem jsSort_perm {α : Type} (cmp : α → α → Int) (l : List α) :
    (jsSort cmp l).Perm l := by
  induction l with
  | nil => exact List.Perm.refl _
  | cons a t ih => exact (insertSorted_perm cmp a _).trans (List.Perm.cons a ih)

theorem insertSorted_pairwise {α : Type} (cmp : α → α → Int) (r : α → α → Prop)
    (htrans : ∀ a b c, r a b → r b c → r a c) (a : α) (l : List α)
    (hcmp : ∀ b ∈ l, (cmp a b ≤ 0 → r a b) ∧ (¬ cmp a b ≤ 0 → r b a))
    (hl : l.Pairwise r) : (insertSorted cmp a l).Pairwise r := by
  induction l with
  | nil => simp [insertSorted]
  | cons b t ih =>
    have hb := hcmp b (List.mem_cons_self _ _)
    have ht : ∀ x ∈ t, r b x := (List.pairwise_cons.mp hl).1
    have hpt : t.Pairwise r := (List.pairwise_cons.mp hl).2
    unfold insertSorted
    split_ifs with h
    · refine List.pairwise_cons.mpr ⟨?_, hl⟩
      intro x hx
      rcases List.mem_cons.mp hx with rfl | hx
      · exact hb.1 h
      · exact htrans _ _ _ (hb.1 h) (ht x hx)
    · refine List.pairwise_cons.mpr ⟨?_, ih (fun x hx => hcmp x (List.mem_cons_of_mem _ hx)) hpt⟩
      intro x hx
      rcases List.mem_cons.mp ((insertSorted_perm cmp a t).mem_iff.mp hx) with rfl | hx
      · exact hb.2 h
      · exact ht x hx

/-- The sort returns its input in the order `r`, when `r` is transitive and the
comparator decides it on the elements of the input. -/
theorem jsSort_pairwise {α : Type} (cmp : α → α → Int) (r : α → α → Prop)
    (htrans : ∀ a b c, r a b → r b c → r a c) (l : List α)
    (hcmp : ∀ a ∈ l, ∀ b ∈ l, (cmp a b ≤ 0 → r a b) ∧ (¬ cmp a b ≤ 0 → r b a)) :
    (jsSort cmp l).Pairwise r := by
  induction l with
  | nil => simp [jsSort]
  | cons a t ih =>
    unfold jsSort
    refine insertSorted_pairwise cmp r htrans a _ ?_ ?_
    · intro b hb
      exact hcmp a (List.mem_cons_self _ _) b
        (List.mem_cons_of_mem _ ((jsSort_perm cmp t).mem_iff.mp hb))
    · exact ih (fun x hx y hy =>
        hcmp x (List.mem_cons_of_mem _ hx) y (List.mem_cons_of_mem _ hy))

/-! ## Stories page: loading, filters, markers -/

/-- When the remote load throws and the Local Store answers, the stories shown
last are those of the Local Store. -/
theorem loadStories_recovers_after_throw (env : LoadEnv) (previous cached : List Story)
    (reason : JsThrown)
    (hfail : env.syncService = some (.rejects reason) ∨
      (env.syncService = none ∧ env.getStoriesWithLocation = .throws reason))
    (hdb : env.indexedDBService = some (.resolves cached)) :
    displayedLists (loadStories env previous).effects = [cached] ∧
    (loadStories env previous).stories = cached := by
  rcases hfail with h | ⟨h1, h2⟩
  · simp [loadStories, h, loadRecover, hdb, displayedLists]
  · simp [loadStories, h1, h2, loadRecover, hdb, displayedLists]

/-- C21 (the code at the failing input): without `window.syncService`, when the API
answers `error: true`, `loadStories` throws nothing: it displays the empty list and
never asks `indexedDBService.getAllStories()`, although the Local Store is available
and holds a story. When the API call throws instead, the Local Store is shown. -/
theorem c21_api_error_shows_empty_list :
    loadStories
        { syncService := none,
          getStoriesWithLocation :=
            .returns (some { error := .boolean true, listStory := none }),
          indexedDBService := some (.resolves [sampleStory "s1"]),
          typeErrorMessage := "response is undefined" } [] =
      { effects := [.showLoading, .getStoriesWithLocation, .displayStories [], .hideLoading],
        stories := [], rejected := false } ∧
    displayedLists
        (loadStories
          { syncService := none,
            getStoriesWithLocation := .throws (JsThrown.error "Failed to fetch"),
            indexedDBService := some (.resolves [sampleStory "s1"]),
            typeErrorMessage := "response is undefined" } []).effects =
      [[sampleStory "s1"]] := by
  decide

/-- C25 (as stated, refuted): with a story whose `createdAt` is not a valid date
between them, the "recent" filter leaves the January story before the February
story. -/
theorem c25_invalid_date_breaks_order :
    (applyFilter sampleParse true
        [storyAt "A" "2024-01-01T00:00:00.000Z" none none, storyAt "X" "" none none,
          storyAt "B" "2024-02-01T00:00:00.000Z" none none] "recent").displayed =
      [storyAt "A" "2024-01-01T00:00:00.000Z" none none, storyAt "X" "" none none,
        storyAt "B" "2024-02-01T00:00:00.000Z" none none] ∧
    sampleParse "2024-01-01T00:00:00.000Z" = some 1704067200000 ∧
    sampleParse "2024-02-01T00:00:00.000Z" = some 1706745600000 ∧
    sampleParse "" = none := by
  decide

/-- C25 (amended): for every story list whose `createdAt` values are all valid
dates, `applyFilter("recent")` displays `min(10, n)` stories in non-increasing
`createdAt` order, no story left out is more recent than a displayed one, and
`this.stories` keeps the same elements in the same order. -/
theorem recent_filter_newest_first (parse : DateParser) (mapService : Bool)
    (stories : List Story) (hvalid : ∀ s ∈ stories, (parse s.createdAt).isSome = true) :
    (applyFilter parse mapService stories "recent").displayed.length =
      min 10 stories.length ∧
    (applyFilter parse mapService stories "recent").displayed.Pairwise
      (fun a b => storyTime parse b ≤ storyTime parse a) ∧
    (∃ rest,
      ((applyFilter parse mapService stories "recent").displayed ++ rest).Perm stories ∧
      ∀ d ∈ (applyFilter parse mapService stories "recent").displayed, ∀ x ∈ rest,
        storyTime parse x ≤ storyTime parse d) ∧
    (applyFilter parse mapService stories "recent").stories = stories := by
  have hdisp : (applyFilter parse mapService stories "recent").displayed =
      (jsSort (recentComparator parse) stories).take 10 := by
    simp [applyFilter, filteredStories]
  have hcmp : ∀ a ∈ stories, ∀ b ∈ stories,
      (recentComparator parse a b ≤ 0 → storyTime parse b ≤ storyTime parse a) ∧
      (¬ recentComparator parse a b ≤ 0 → storyTime parse a ≤ storyTime parse b) := by
    intro a ha b hb
    have h1 := hvalid a ha
    have h2 := hvalid b hb
    unfold recentComparator storyTime
    cases hpa : parse a.createdAt with
    | none => rw [hpa] at h1; cases h1
    | some ta =>
      cases hpb : parse b.createdAt with
      | none => rw [hpb] at h2; cases h2
      | some tb =>
        simp only [Option.getD_some]
        constructor <;> intro h <;> omega
  have hsorted : (jsSort (recentComparator parse) stories).Pairwise
      (fun a b => storyTime parse b ≤ storyTime parse a) :=
    jsSort_pairwise (recentComparator parse)
      (fun a b => storyTime parse b ≤ storyTime parse a)
      (fun a b c hab hbc => le_trans hbc hab) stories hcmp
  have hperm := jsSort_perm (recentComparator parse) stories
  refine ⟨?_, ?_, ?_, rfl⟩
  · rw [hdisp, List.length_take, hperm.length_eq]
  · rw [hdisp]
    exact hsorted.sublist (List.take_sublist _ _)
  · refine ⟨(jsSort (recentComparator parse) stories).drop 10, ?_, ?_⟩
    · rw [hdisp, List.take_append_drop]
      exact hperm
    · rw [hdisp]
      have h := hsorted
      rw [← List.take_append_drop 10 (jsSort (recentComparator parse) stories)] at h
      exact fun d hd x hx => (List.pairwise_append.mp h).2.2 d hd x hx

/-- Witness for C25: three dated stories come out newest first. -/
theorem recent_filter_newest_first_witness :
    (applyFilter sampleParse false
        [storyAt "A" "2024-01-01T00:00:00.000Z" none none,
          storyAt "C" "2024-05-01T10:00:00.000Z" none none,
          storyAt "B" "2024-02-01T00:00:00.000Z" none none] "recent").displayed.length =
      min 10 3 ∧
    (applyFilter sampleParse false
        [storyAt "A" "2024-01-01T00:00:00.000Z" none none,
          storyAt "C" "2024-05-01T10:00:00.000Z" none none,
          storyAt "B" "2024-02-01T00:00:00.000Z" none none] "recent").displayed.map (·.id) =
      ["C", "B", "A"] :=
  ⟨(recent_filter_newest_first sampleParse false
      [storyAt "A" "2024-01-01T00:00:00.000Z" none none,
        storyAt "C" "2024-05-01T10:00:00.000Z" none none,
        storyAt "B" "2024-02-01T00:00:00.000Z" none none] (by decide)).1,
    by decide⟩

/-- A story both of whose coordinates are truthy numbers gets a marker from
`initMap` and stays in the "with-location" list and on the map. -/
theorem truthy_coordinates_kept (parse : DateParser) (stories : List Story) (story : Story)
    (hmem : story ∈ stories) (hc : hasTruthyCoordinates story = true) :
    story ∈ markersAdded (initMap true stories) ∧
    story ∈ (applyFilter parse true stories "with-location").displayed ∧
    story ∈ markersAdded (applyFilter parse true stories "with-location").mapEffects := by
  have hmark : ∀ l : List Story, markersAdded (l.map MapEffect.addStoryMarker) = l := by
    intro l
    induction l with
    | nil => rfl
    | cons a t ih => simp [markersAdded, ih]
  have happ : ∀ a b : List MapEffect, markersAdded (a ++ b) = markersAdded a ++ markersAdded b := by
    intro a b
    induction a with
    | nil => rfl
    | cons e t ih => cases e <;> simp [markersAdded, ih]
  have hpos : stories.length > 0 := List.length_pos_of_mem hmem
  refine ⟨?_, ?_, ?_⟩
  · simp only [initMap, hpos, Bool.true_and, decide_True, if_true, happ, hmark]
    simp [markersAdded, List.mem_filter, hmem, hc]
  · simp [applyFilter, filteredStories, List.mem_filter, hmem, hc]
  · simp only [applyFilter, filteredStories, if_true]
    simp [markersAdded, hmark, List.mem_filter, hmem, hc]

/-- C26 (the code at the failing input): a story on the equator, with `lat` the
number 0 and `lon` 106.8, gets no marker from `initMap`, is dropped from the
"with-location" list and gets no marker there either; so does a story on the prime
meridian, with `lon` the number 0. -/
theorem c26_zero_coordinate_dropped :
    initMap true [storyAt "equator" "2024-01-01T00:00:00.000Z" (some { bits := 0 })
        (some longitudeJakarta)] =
      [.newMapService, .initMap, .onMarkerClick] ∧
    (applyFilter sampleParse true
        [storyAt "equator" "2024-01-01T00:00:00.000Z" (some { bits := 0 })
          (some longitudeJakarta)] "with-location").displayed = [] ∧
    (applyFilter sampleParse true
        [storyAt "equator" "2024-01-01T00:00:00.000Z" (some { bits := 0 })
          (some longitudeJakarta)] "with-location").mapEffects = [.clearMarkers] ∧
    markersAdded
        (initMap true [storyAt "greenwich" "2024-01-01T00:00:00.000Z"
          (some latitudeGreenwich) (some { bits := 0 })]) = [] ∧
    markersAdded
        (initMap true [storyAt "jakarta" "2024-01-01T00:00:00.000Z"
          (some latitudeGreenwich) (some longitudeJakarta)]) =
      [storyAt "jakarta" "2024-01-01T00:00:00.000Z" (some latitudeGreenwich)
        (some longitudeJakarta)] := by
  decide

/-! ## Favourites page: search and sort -/

theorem lexLt_asymm (x y : List Nat) (h : lexLt x y = true) : lexLt y x = false := by
  induction x generalizing y with
  | nil => cases y <;> simp [lexLt] at h ⊢
  | cons a l ih =>
    cases y with
    | nil => simp [lexLt] at h
    | cons b m =>
      simp only [lexLt, Bool.or_eq_true, decide_eq_true_eq, Bool.and_eq_true, beq_iff_eq] at h
      simp only [lexLt, Bool.or_eq_false_iff, decide_eq_false_iff_not, Bool.and_eq_false_imp,
        beq_iff_eq]
      rcases h with h | ⟨h1, h2⟩
      · exact ⟨by omega, fun hb => by omega⟩
      · exact ⟨by omega, fun _ => ih m h2⟩

theorem lexLt_cotrans (x y z : List Nat) (h : lexLt x z = true) :
    lexLt x y = true ∨ lexLt y z = true := by
  induction x generalizing y z with
  | nil =>
    cases z with
    | nil => simp [lexLt] at h
    | cons c n =>
      cases y with
      | nil => right; simp [lexLt]
      | cons b m => left; simp [lexLt]
  | cons a l ih =>
    cases z with
    | nil => simp [lexLt] at h
    | cons c n =>
      cases y with
      | nil => right; simp [lexLt]
      | cons b m =>
        simp only [lexLt, Bool.or_eq_true, decide_eq_true_eq, Bool.and_eq_true, beq_iff_eq] at h ⊢
        rcases h with h | ⟨h1, h2⟩
        · by_cases hab : a < b
          · exact Or.inl (Or.inl hab)
          · by_cases hbc : b < c
            · exact Or.inr (Or.inl hbc)
            · omega
        · subst h1
          by_cases hab : a < b
          · exact Or.inl (Or.inl hab)
          · by_cases hba : b < a
            · exact Or.inr (Or.inl hba)
            · have heq : a = b := by omega
              subst heq
              rcases ih m n h2 with h3 | h3
              · exact Or.inl (Or.inr ⟨rfl, h3⟩)
              · exact Or.inr (Or.inr ⟨rfl, h3⟩)

/-- JavaScript `<` is asymmetric on the values the comparator reads. -/
theorem SortValue.lt_asymm (x y : SortValue) (h : x.lt y = true) : y.lt x = false := by
  cases x with
  | date a =>
    cases y with
    | date b =>
      cases a <;> cases b <;> simp [SortValue.lt] at h ⊢
      omega
    | text _ => simp [SortValue.lt] at h
    | undefined => simp [SortValue.lt] at h
  | text a =>
    cases y with
    | date b => cases b <;> simp [SortValue.lt] at h
    | text b => exact lexLt_asymm _ _ h
    | undefined => simp [SortValue.lt] at h
  | undefined => cases y <;> simp [SortValue.lt] at h

/-- Between the values of one sort key, a comparable value falls on one side
of any strictly ordered pair. -/
theorem sortValue_cotrans (toLowerCase : String → String) (parse : DateParser)
    (currentSort : String) (x y z : FavoriteEntry)
    (hy : (sortValue toLowerCase parse currentSort y).comparable = true)
    (h : (sortValue toLowerCase parse currentSort x).lt
      (sortValue toLowerCase parse currentSort z) = true) :
    (sortValue toLowerCase parse currentSort x).lt
        (sortValue toLowerCase parse currentSort y) = true ∨
      (sortValue toLowerCase parse currentSort y).lt
        (sortValue toLowerCase parse currentSort z) = true := by
  unfold sortValue at *
  by_cases h1 : currentSort = "addedAt"
  · simp only [h1, if_true] at *
    cases hx : dateOfNumber x.addedAt <;> cases hyv : dateOfNumber y.addedAt <;>
      cases hz : dateOfNumber z.addedAt <;>
      simp [hx, hyv, hz, SortValue.lt, SortValue.comparable] at h hy ⊢
    omega
  · by_cases h2 : currentSort = "createdAt"
    · simp only [h1, h2, if_true, if_false] at *
      cases hx : parse x.storyData.createdAt <;> cases hyv : parse y.storyData.createdAt <;>
        cases hz : parse z.storyData.createdAt <;>
        simp [hx, hyv, hz, SortValue.lt, SortValue.comparable] at h hy ⊢
      omega
    · by_cases h3 : currentSort = "name"
      · simp only [h1, h2, h3, if_true, if_false] at *
        exact lexLt_cotrans _ _ _ h
      · simp [h1, h2, h3, SortValue.lt] at h

/-- C24: for every favourites list whose sort keys are comparable, after
`filterAndDisplayFavorites` the list `filteredFavorites` is a permutation of the
favourites that match the search query (all of them when the query is empty, else
those whose lower-cased name or description contains it), in non-decreasing order of
the selected key for "asc" and in non-increasing order otherwise ("desc"). -/
theorem filterAndDisplayFavorites_sorted (toLowerCase : String → String)
    (parse : DateParser) (page : FavoritesPage)
    (hcomparable : ∀ f ∈ page.favorites,
      (sortValue toLowerCase parse page.currentSort f).comparable = true) :
    (filterAndDisplayFavorites toLowerCase parse page).filteredFavorites.Perm
      (page.favorites.filter (fun f =>
        decide (page.searchQuery = "") ||
          jsIncludes (toLowerCase f.storyData.name) page.searchQuery ||
          jsIncludes (toLowerCase f.storyData.description) page.searchQuery)) ∧
    (page.searchQuery = "" →
      (filterAndDisplayFavorites toLowerCase parse page).filteredFavorites.Perm
        page.favorites) ∧
    (page.sortOrder = "asc" →
      (filterAndDisplayFavorites toLowerCase parse page).filteredFavorites.Pairwise
        (fun a b => (sortValue toLowerCase parse page.currentSort b).lt
          (sortValue toLowerCase parse page.currentSort a) = false)) ∧
    (page.sortOrder ≠ "asc" →
      (filterAndDisplayFavorites toLowerCase parse page).filteredFavorites.Pairwise
        (fun a b => (sortValue toLowerCase parse page.currentSort a).lt
          (sortValue toLowerCase parse page.currentSort b) = false)) := by
  have hres : (filterAndDisplayFavorites toLowerCase parse page).filteredFavorites =
      jsSort (favoritesComparator toLowerCase parse page.currentSort page.sortOrder)
        (page.favorites.filter (matchesSearch toLowerCase page.searchQuery)) := rfl
  have hperm := jsSort_perm
    (favoritesComparator toLowerCase parse page.currentSort page.sortOrder)
    (page.favorites.filter (matchesSearch toLowerCase page.searchQuery))
  have hfilter : page.favorites.filter (matchesSearch toLowerCase page.searchQuery) =
      page.favorites.filter (fun f =>
        decide (page.searchQuery = "") ||
          jsIncludes (toLowerCase f.storyData.name) page.searchQuery ||
          jsIncludes (toLowerCase f.storyData.description) page.searchQuery) := by
    congr 1
    funext f
    by_cases hq : page.searchQuery = "" <;> simp [matchesSearch, hq]
  have hc : ∀ f ∈ page.favorites.filter (matchesSearch toLowerCase page.searchQuery),
      (sortValue toLowerCase parse page.currentSort f).comparable = true :=
    fun f hf => hcomparable f (List.mem_filter.mp hf).1
  refine ⟨?_, ?_, ?_, ?_⟩
  · rw [hres, ← hfilter]
    exact hperm
  · intro hq
    rw [hres]
    refine hperm.trans ?_
    have : page.favorites.filter (matchesSearch toLowerCase page.searchQuery) =
        page.favorites := by
      rw [List.filter_eq_self]
      intro f _
      simp [matchesSearch, hq]
    rw [this]
  · intro hasc
    rw [hres]
    have h := jsSort_pairwise
      (favoritesComparator toLowerCase parse page.currentSort page.sortOrder)
      (fun a b =>
        ((sortValue toLowerCase parse page.currentSort a).comparable = true ∧
          (sortValue toLowerCase parse page.currentSort b).comparable = true) ∧
        (sortValue toLowerCase parse page.currentSort b).lt
          (sortValue toLowerCase parse page.currentSort a) = false)
      (fun a b c hab hbc => by
        refine ⟨⟨hab.1.1, hbc.1.2⟩, ?_⟩
        cases hca : (sortValue toLowerCase parse page.currentSort c).lt
          (sortValue toLowerCase parse page.currentSort a) with
        | false => rfl
        | true =>
          rcases sortValue_cotrans toLowerCase parse page.currentSort c b a hab.1.2 hca
            with h1 | h1
          · rw [hbc.2] at h1; cases h1
          · rw [hab.2] at h1; cases h1)
      (page.favorites.filter (matchesSearch toLowerCase page.searchQuery))
      (fun a ha b hb => by
        refine ⟨fun hle => ⟨⟨hc a ha, hc b hb⟩, ?_⟩, fun hgt => ⟨⟨hc b hb, hc a ha⟩, ?_⟩⟩
        · cases hba : (sortValue toLowerCase parse page.currentSort b).lt
            (sortValue toLowerCase parse page.currentSort a) with
          | false => rfl
          | true => simp [favoritesComparator, hasc, hba] at hle
        · cases hba : (sortValue toLowerCase parse page.currentSort b).lt
            (sortValue toLowerCase parse page.currentSort a) with
          | false => simp [favoritesComparator, hasc, hba] at hgt
          | true => exact SortValue.lt_asymm _ _ hba)
    exact h.imp (fun hab => hab.2)
  · intro hdesc
    rw [hres]
    have h := jsSort_pairwise
      (favoritesComparator toLowerCase parse page.currentSort page.sortOrder)
      (fun a b =>
        ((sortValue toLowerCase parse page.currentSort a).comparable = true ∧
          (sortValue toLowerCase parse page.currentSort b).comparable = true) ∧
        (sortValue toLowerCase parse page.currentSort a).lt
          (sortValue toLowerCase parse page.currentSort b) = false)
      (fun a b c hab hbc => by
        refine ⟨⟨hab.1.1, hbc.1.2⟩, ?_⟩
        cases hac : (sortValue toLowerCase parse page.currentSort a).lt
          (sortValue toLowerCase parse page.currentSort c) with
        | false => rfl
        | true =>
          rcases sortValue_cotrans toLowerCase parse page.currentSort a b c hab.1.2 hac
            with h1 | h1
          · rw [hab.2] at h1; cases h1
          · rw [hbc.2] at h1; cases h1)
      (page.favorites.filter (matchesSearch toLowerCase page.searchQuery))
      (fun a ha b hb => by
        refine ⟨fun hle => ⟨⟨hc a ha, hc b hb⟩, ?_⟩, fun hgt => ⟨⟨hc b hb, hc a ha⟩, ?_⟩⟩
        · cases hab : (sortValue toLowerCase parse page.currentSort a).lt
            (sortValue toLowerCase parse page.currentSort b) with
          | false => rfl
          | true => simp [favoritesComparator, hdesc, hab] at hle
        · cases hab : (sortValue toLowerCase parse page.currentSort a).lt
            (sortValue toLowerCase parse page.currentSort b) with
          | false => simp [favoritesComparator, hdesc, hab] at hgt
          | true => exact SortValue.lt_asymm _ _ hab)
    exact h.imp (fun hab => hab.2)

/-- Witness for C24: three favourites under "Newest added" come out with the
latest `addedAt` first, and under "Name A-Z" with a search for "ar" the two matching
names come out in alphabetical order. -/
theorem filterAndDisplayFavorites_sorted_witness :
    (filterAndDisplayFavorites asciiLowerCase sampleParse
        { FavoritesPage.new with favorites := sampleFavorites }).filteredFavorites.Perm
      sampleFavorites ∧
    (filterAndDisplayFavorites asciiLowerCase sampleParse
        { FavoritesPage.new with favorites := sampleFavorites }).filteredFavorites.map
        (fun f => f.addedAt) = [1700000300000, 1700000100000, 1700000000000] ∧
    (filterAndDisplayFavorites asciiLowerCase sampleParse
        { FavoritesPage.new with
          favorites := sampleFavorites, currentSort := "name", sortOrder := "asc",
          searchQuery := "ar" }).filteredFavorites.map (fun f => f.storyData.name) =
      ["Harbour", "Market"] :=
  ⟨(filterAndDisplayFavorites_sorted asciiLowerCase sampleParse
      { FavoritesPage.new with favorites := sampleFavorites } (by decide)).2.1 rfl,
    by decide, by decide⟩

/-! ## Add-story page: the description bounds -/

/-- The 1001 letters of `longDescription` survive `trim()`. -/
theorem jsLength_longDescription : jsLength (jsTrim longDescription) = 1001 := by
  have h1 : ∀ n, (List.replicate n 'a').dropWhile isJsWhiteSpace = List.replicate n 'a' := by
    intro n
    cases n with
    | zero => rfl
    | succ k => rw [List.replicate_succ, List.dropWhile_cons_of_neg (by decide)]
  have h2 : ∀ n, ((List.replicate n 'a').map
      (fun c => if c.toNat < 0x10000 then 1 else 2)).sum = n := by
    intro n
    induction n with
    | zero => rfl
    | succ k ih =>
      rw [List.replicate_succ, List.map_cons, List.sum_cons, ih]
      have : ('a'.toNat < 0x10000) := by decide
      simp only [this, if_true]
      omega
  simp only [jsLength, jsTrim, trimChars, longDescription, h1, List.reverse_replicate, h2]

/-- C27 (the code at the failing input): a description of 1001 characters, above
the maximum of 1000 that the help text and the `maxlength` attribute of the field
document, is not rejected: online, `handleSubmit` sends it to the API and shows no
error. -/
theorem c27_long_description_submitted :
    descriptionMaxLength < jsLength (jsTrim longDescription) ∧
    apiCalls
        (handleSubmit
          (sampleEnv true
            (fun _ => .returns (some { error := .boolean false, message := .string "ok" }))
            .absent)
          (some longDescription)) =
      [apiFormOf (storyDataOf samplePhoto sampleLocation longDescription)] ∧
    errorsShown
        (handleSubmit
          (sampleEnv true
            (fun _ => .returns (some { error := .boolean false, message := .string "ok" }))
            .absent)
          (some longDescription)) = [] := by
  have hlen := jsLength_longDescription
  have h := handleSubmit_accepted
    (sampleEnv true
      (fun _ => .returns (some { error := .boolean false, message := .string "ok" })) .absent)
    samplePhoto sampleLocation longDescription rfl rfl (by omega) rfl rfl
  refine ⟨by rw [hlen]; decide, ?_, ?_⟩
  · rw [h]; rfl
  · rw [h]; rfl

/-- The length check of `handleSubmit` as the code has it: with photo and location
picked, a description whose trimmed length is below 10 is rejected with the one
error "Description must be at least 10 characters"; one of 10 or more characters,
however long, is sent to the API when online and handed to `addStoryOffline` when
offline with a callable sync service. -/
theorem description_lower_bound_only (env : SubmitEnv) (image : File) (location : Location)
    (d : String) (hi : env.selectedImage = some image)
    (hl : env.selectedLocation = some location) :
    (jsLength (jsTrim d) < descriptionMinLength →
      handleSubmit env (some d) = [.showError "Description must be at least 10 characters"]) ∧
    (descriptionMinLength ≤ jsLength (jsTrim d) → env.onLine = true →
      apiCalls (handleSubmit env (some d)) = [apiFormOf (storyDataOf image location d)]) ∧
    (descriptionMinLength ≤ jsLength (jsTrim d) → env.onLine = false →
      env.syncService.callable = true →
      offlineCalls (handleSubmit env (some d)) = [storyDataOf image location d]) := by
  unfold descriptionMinLength
  refine ⟨?_, ?_, ?_⟩
  · intro hlt
    unfold handleSubmit
    simp [hi, hl, hlt]
  · intro hge hon
    cases hacc : apiAccepted env (storyDataOf image location d) with
    | true =>
      rw [handleSubmit_accepted env image location d hi hl hge hon hacc]
      rfl
    | false =>
      rw [handleSubmit_rejected env image location d hi hl hge hon hacc]
      simp [apiCalls, apiCalls_afterOffline]
  · intro hge hoff hcall
    rw [handleSubmit_offline env image location d hi hl hge hoff]
    simp [offlineCalls, offlineCalls_afterOffline, hcall]

/-- Offline with a sync service, the 1001-character description is saved offline. -/
theorem description_lower_bound_only_witness :
    offlineCalls
        (handleSubmit (sampleEnv false (fun _ => .returns none) (.available fun _ => .resolves))
          (some longDescription)) =
      [storyDataOf samplePhoto sampleLocation longDescription] :=
  (description_lower_bound_only
    (sampleEnv false (fun _ => .returns none) (.available fun _ => .resolves))
    samplePhoto sampleLocation longDescription rfl rfl).2.2
    (by rw [jsLength_longDescription]; decide) rfl rfl

/-! ## Home page: `animateCounter` -/

theorem thirty_increments (targetValue : Nat) : targetValue ≤ 30 * counterIncrement targetValue := by
  unfold counterIncrement
  omega

/-- While the interval runs, fewer than 30 callbacks have run. -/
theorem counter_running_bound (targetValue done : Nat) (s : CounterState)
    (hrun : s.cleared = false →
      s.currentValue = done * counterIncrement targetValue ∧
        (done = 0 ∨ s.currentValue < targetValue)) :
    s.cleared = false → done < 30 ∧ (1 ≤ done → 0 < targetValue) := by
  intro hc
  obtain ⟨h1, h2⟩ := hrun hc
  have h30 := thirty_increments targetValue
  rcases h2 with h2 | h2
  · omega
  · constructor
    · by_contra hge
      have : 30 * counterIncrement targetValue ≤ done * counterIncrement targetValue :=
        Nat.mul_le_mul_right _ (by omega)
      omega
    · intro _; omega

/-- What holds of the counter after any number of periods. -/
theorem runInterval_invariant (targetValue periods done : Nat) (s : CounterState)
    (hlen : s.displayed.length = done)
    (hsorted : s.displayed.Pairwise (· ≤ ·))
    (hbound : ∀ v ∈ s.displayed, v ≤ s.currentValue)
    (hle : s.currentValue ≤ targetValue)
    (hrun : s.cleared = false →
      s.currentValue = done * counterIncrement targetValue ∧
        (done = 0 ∨ s.currentValue < targetValue))
    (hstop : s.cleared = true → done ≤ 30 ∧ s.displayed.getLast? = some targetValue) :
    (runInterval targetValue periods s).displayed.length ≤ min (done + periods) 30 ∧
    (runInterval targetValue periods s).displayed.Pairwise (· ≤ ·) ∧
    (∀ v ∈ (runInterval targetValue periods s).displayed, v ≤ targetValue) ∧
    ((runInterval targetValue periods s).cleared = true →
      (runInterval targetValue periods s).displayed.getLast? = some targetValue) ∧
    (30 ≤ done + periods → (runInterval targetValue periods s).cleared = true) ∧
    (targetValue = 0 → 1 ≤ done + periods →
      (runInterval targetValue periods s).cleared = true) := by
  induction periods generalizing done s with
  | zero =>
    have hdone := counter_running_bound targetValue done s hrun
    simp only [runInterval, Nat.add_zero]
    refine ⟨?_, hsorted, fun v hv => le_trans (hbound v hv) hle, fun hc => (hstop hc).2, ?_, ?_⟩
    · cases hc : s.cleared with
      | false => have := (hdone hc).1; omega
      | true => have := (hstop hc).1; omega
    · intro h30
      cases hc : s.cleared with
      | false => have := (hdone hc).1; omega
      | true => rfl
    · intro h0 h1
      cases hc : s.cleared with
      | false => have := (hdone hc).2 h1; omega
      | true => rfl
  | succ n ih =>
    have hdone := counter_running_bound targetValue done s hrun
    cases hc : s.cleared with
    | true =>
      have hstep : runInterval targetValue (n + 1) s = s := by
        simp [runInterval, hc]
      rw [hstep]
      refine ⟨?_, hsorted, fun v hv => le_trans (hbound v hv) hle, fun _ => (hstop hc).2,
        fun _ => hc, fun _ _ => hc⟩
      have := (hstop hc).1
      omega
    | false =>
      have hd := hdone hc
      obtain ⟨hcur, _⟩ := hrun hc
      have hstep : runInterval targetValue (n + 1) s =
          runInterval targetValue n (counterTick targetValue s) := by
        simp [runInterval, hc]
      rw [hstep]
      have key := ih (done + 1) (counterTick targetValue s)
      have hadd : done + 1 + n = done + (n + 1) := by omega
      rw [hadd] at key
      by_cases hge : s.currentValue + counterIncrement targetValue ≥ targetValue
      · have ht : counterTick targetValue s =
            { currentValue := targetValue, cleared := true,
              displayed := s.displayed ++ [targetValue] } := by
          simp [counterTick, hge]
        rw [ht] at key ⊢
        refine key (by simp [hlen]) ?_ ?_ (le_refl _) (by simp) ?_
        · refine List.pairwise_append.mpr ⟨hsorted, List.pairwise_singleton _ _, ?_⟩
          intro a ha b hb
          rw [List.mem_singleton.mp hb]
          exact le_trans (hbound a ha) hle
        · intro v hv
          rcases List.mem_append.mp hv with hv | hv
          · exact le_trans (hbound v hv) hle
          · rw [List.mem_singleton.mp hv]
        · intro _
          exact ⟨by omega, by simp⟩
      · have ht : counterTick targetValue s =
            { currentValue := s.currentValue + counterIncrement targetValue, cleared := false,
              displayed := s.displayed ++ [s.currentValue + counterIncrement targetValue] } := by
          simp [counterTick, hge, hc]
        rw [ht] at key ⊢
        refine key (by simp [hlen]) ?_ ?_ (by simp only; omega) ?_ (by simp)
        · refine List.pairwise_append.mpr ⟨hsorted, List.pairwise_singleton _ _, ?_⟩
          intro a ha b hb
          rw [List.mem_singleton.mp hb]
          exact le_trans (hbound a ha) (Nat.le_add_right _ _)
        · intro v hv
          rcases List.mem_append.mp hv with hv | hv
          · exact le_trans (hbound v hv) (Nat.le_add_right _ _)
          · rw [List.mem_singleton.mp hv]
        · intro _
          refine ⟨?_, Or.inr (by simp only; omega)⟩
          simp only [hcur, Nat.add_mul, Nat.one_mul]

/-- C28: for every non-negative integer `targetValue`, with the element present,
the interval of `animateCounter` is cleared once 30 periods have passed (once one has
passed when `targetValue` is 0), the callback runs at most 30 times, the values it
displays never decrease and never exceed `targetValue`, and once the interval is
cleared the last value displayed is `targetValue`. -/
theorem animateCounter_finishes (targetValue periods : Nat) :
    ∃ s, animateCounter true targetValue periods = some s ∧
      s.displayed.length ≤ min periods 30 ∧
      s.displayed.Pairwise (· ≤ ·) ∧
      (∀ v ∈ s.displayed, v ≤ targetValue) ∧
      (s.cleared = true → s.displayed.getLast? = some targetValue) ∧
      (30 ≤ periods → s.cleared = true) ∧
      (targetValue = 0 → 1 ≤ periods → s.cleared = true) := by
  refine ⟨_, rfl, ?_⟩
  have h := runInterval_invariant targetValue periods 0
    { currentValue := 0, cleared := false, displayed := [] } rfl List.Pairwise.nil
    (by simp) (Nat.zero_le _) (by simp) (by simp)
  simpa using h

/-- Witness for C28: a counter to 100 is cleared within 30 periods, having last
displayed 100. -/
theorem animateCounter_finishes_witness :
    ∃ s, animateCounter true 100 30 = some s ∧ s.cleared = true ∧
      s.displayed.getLast? = some 100 := by
  obtain ⟨s, h1, _, _, _, h5, h6, _⟩ := animateCounter_finishes 100 30
  exact ⟨s, h1, h6 (by decide), h5 (h6 (by decide))⟩

/-! ## Push service: `urlB64ToUint8Array` -/

/-- A byte survives `String.fromCharCode` followed by `charCodeAt`. -/
theorem toNat_ofNat_byte (x : Nat) (h : x < 256) : (Char.ofNat x).toNat = x := by
  have hv : x.isValidChar := Or.inl (by omega)
  unfold Char.ofNat
  rw [dif_pos hv]
  simp only [Char.ofNatAux, Char.toNat]
  show (UInt32.ofNat' x _).toNat = x
  rfl

set_option maxRecDepth 100000 in
/-- Each character of the base64url alphabet, after the two replacements, is the
character of the same value in the standard alphabet. -/
theorem base64urlChar_facts : ∀ v : Fin 64,
    base64Value (standardChar (base64urlChar v.val)) = some v.val ∧
    isAsciiWhitespace (standardChar (base64urlChar v.val)) = false ∧
    standardChar (base64urlChar v.val) ≠ '=' ∧
    (base64urlChar v.val).toNat < 0x10000 := by
  decide

theorem sextetsOfBytes_lt : ∀ bytes : List Nat, (∀ x ∈ bytes, x < 256) →
    ∀ v ∈ sextetsOfBytes bytes, v < 64
  | [], _ => by simp [sextetsOfBytes]
  | [a], h => by
    have ha := h a (by simp)
    intro v hv
    simp only [sextetsOfBytes, List.mem_cons, List.mem_singleton, List.not_mem_nil,
      or_false] at hv
    rcases hv with rfl | rfl <;> omega
  | [a, b], h => by
    have ha := h a (by simp)
    have hb := h b (by simp)
    intro v hv
    simp only [sextetsOfBytes, List.mem_cons, List.mem_singleton, List.not_mem_nil,
      or_false] at hv
    rcases hv with rfl | rfl | rfl <;> omega
  | a :: b :: c :: rest, h => by
    have ha := h a (by simp)
    have hb := h b (by simp)
    have hc := h c (by simp)
    have ih := sextetsOfBytes_lt rest (fun x hx => h x (by simp [hx]))
    intro v hv
    simp only [sextetsOfBytes, List.mem_cons] at hv
    rcases hv with rfl | rfl | rfl | rfl | hv
    · omega
    · omega
    · omega
    · omega
    · exact ih v hv

/-- Decoding the sextets of a byte sequence gives the bytes back. -/
theorem bytesOfSextets_sextetsOfBytes : ∀ bytes : List Nat, (∀ x ∈ bytes, x < 256) →
    bytesOfSextets (sextetsOfBytes bytes) = bytes
  | [], _ => rfl
  | [a], h => by
    have ha := h a (by simp)
    simp only [sextetsOfBytes, bytesOfSextets, List.cons.injEq, and_true]
    omega
  | [a, b], h => by
    have ha := h a (by simp)
    have hb := h b (by simp)
    simp only [sextetsOfBytes, bytesOfSextets, List.cons.injEq, and_true]
    omega
  | a :: b :: c :: rest, h => by
    have ha := h a (by simp)
    have hb := h b (by simp)
    have hc := h c (by simp)
    have ih := bytesOfSextets_sextetsOfBytes rest (fun x hx => h x (by simp [hx]))
    simp only [sextetsOfBytes, bytesOfSextets, ih, List.cons.injEq, and_true]
    omega

/-- The number of sextets: never one more than a multiple of four. -/
theorem sextetsOfBytes_length : ∀ bytes : List Nat,
    (sextetsOfBytes bytes).length % 4 = 0 ∨ (sextetsOfBytes bytes).length % 4 = 2 ∨
      (sextetsOfBytes bytes).length % 4 = 3
  | [] => Or.inl rfl
  | [_] => Or.inr (Or.inl rfl)
  | [_, _] => Or.inr (Or.inr rfl)
  | _ :: _ :: _ :: rest => by
    have ih := sextetsOfBytes_length rest
    simp only [sextetsOfBytes, List.length_cons]
    omega

theorem base64Values_standard (sextets : List Nat) (h : ∀ v ∈ sextets, v < 64) :
    base64Values (sextets.map (fun v => standardChar (base64urlChar v))) = some sextets := by
  induction sextets with
  | nil => rfl
  | cons v t ih =>
    have hv := (base64urlChar_facts ⟨v, h v (by simp)⟩).1
    have ht := ih (fun x hx => h x (by simp [hx]))
    simp only [List.map_cons, base64Values]
    simp only at hv
    rw [hv, ht]

theorem jsLength_base64url (sextets : List Nat) (h : ∀ v ∈ sextets, v < 64) :
    jsLength ⟨sextets.map base64urlChar⟩ = sextets.length := by
  induction sextets with
  | nil => rfl
  | cons v t ih =>
    have hv := (base64urlChar_facts ⟨v, h v (by simp)⟩).2.2.2
    have ht := ih (fun x hx => h x (by simp [hx]))
    simp only [jsLength, List.map_cons, List.sum_cons, List.length_cons] at ht ⊢
    simp only at hv
    rw [ht, if_pos hv]
    omega

theorem utf16Units_bytes (bytes : List Nat) (h : ∀ x ∈ bytes, x < 256) :
    (utf16Units ⟨bytes.map Char.ofNat⟩).map (fun unit => unit % 256) = bytes := by
  induction bytes with
  | nil => rfl
  | cons x t ih =>
    have hx := h x (by simp)
    have ht := ih (fun y hy => h y (by simp [hy]))
    simp only [utf16Units, List.map_cons, List.flatMap_cons, toNat_ofNat_byte x hx] at ht ⊢
    have hlt : x < 0x10000 := by omega
    rw [if_pos hlt]
    simp only [List.singleton_append, List.map_cons, ht, List.cons.injEq, and_true]
    omega

/-- The padding removed by `atob` is the padding `urlB64ToUint8Array` appended. -/
theorem stripPadding_padded (cs : List Char) (k : Nat) (hk : k ≤ 2)
    (hlen : (cs.length + k) % 4 = 0) (hne : ∀ c ∈ cs, c ≠ '=') :
    stripPadding (cs ++ List.replicate k '=') = cs := by
  have hlast : cs.getLast? ≠ some '=' := by
    intro hl
    exact hne '=' (List.mem_of_getLast?_eq_some hl) rfl
  unfold stripPadding
  rcases (by omega : k = 0 ∨ k = 1 ∨ k = 2) with rfl | rfl | rfl
  · simp only [List.replicate_zero, List.append_nil]
    simp at hlen
    rw [if_pos hlen, if_neg hlast]
  · have h1 : List.replicate 1 '=' = ['='] := rfl
    rw [h1, if_pos (by simpa using hlen), List.getLast?_concat, if_pos rfl,
      List.dropLast_concat, if_neg hlast]
  · have h2 : cs ++ List.replicate 2 '=' = (cs ++ ['=']) ++ ['='] := by simp [List.replicate]
    rw [h2, if_pos (by simpa using hlen), List.getLast?_concat, if_pos rfl,
      List.dropLast_concat, List.getLast?_concat, if_pos rfl, List.dropLast_concat]

/-- C30: for every byte sequence, `urlB64ToUint8Array` applied to its unpadded
URL-safe base64 encoding returns exactly the bytes; the padding it appends brings the
length to a multiple of 4. -/
theorem urlB64ToUint8Array_base64urlEncode (bytes : List Nat)
    (hbytes : ∀ x ∈ bytes, x < 256) :
    urlB64ToUint8Array (base64urlEncode bytes) = some bytes ∧
    (jsLength (base64urlEncode bytes) +
      (4 - jsLength (base64urlEncode bytes) % 4) % 4) % 4 = 0 := by
  have hs := sextetsOfBytes_lt bytes hbytes
  have hlen := jsLength_base64url (sextetsOfBytes bytes) hs
  have hmod := sextetsOfBytes_length bytes
  have hround := bytesOfSextets_sextetsOfBytes bytes hbytes
  have hvals := base64Values_standard (sextetsOfBytes bytes) hs
  refine ⟨?_, by omega⟩
  have hdata : (replaceAll (replaceAll
      (base64urlEncode bytes ++
        ⟨List.replicate ((4 - jsLength (base64urlEncode bytes) % 4) % 4) '='⟩) '-' '+')
      '_' '/').data =
      (sextetsOfBytes bytes).map (fun v => standardChar (base64urlChar v)) ++
        List.replicate ((4 - (sextetsOfBytes bytes).length % 4) % 4) '=' := by
    simp only [replaceAll, base64urlEncode, String.data_append, List.map_append, List.map_map,
      List.map_replicate] at hlen ⊢
    rw [hlen]
    congr 1
  have hfilter : ((sextetsOfBytes bytes).map (fun v => standardChar (base64urlChar v)) ++
        List.replicate ((4 - (sextetsOfBytes bytes).length % 4) % 4) '=').filter
        (fun c => !isAsciiWhitespace c) =
      (sextetsOfBytes bytes).map (fun v => standardChar (base64urlChar v)) ++
        List.replicate ((4 - (sextetsOfBytes bytes).length % 4) % 4) '=' := by
    rw [List.filter_eq_self]
    intro c hc
    rcases List.mem_append.mp hc with hc | hc
    · obtain ⟨v, hv, rfl⟩ := List.mem_map.mp hc
      have := (base64urlChar_facts ⟨v, hs v hv⟩).2.1
      simp only at this
      simp [this]
    · rw [(List.mem_replicate.mp hc).2]
      decide
  have hstrip := stripPadding_padded
    ((sextetsOfBytes bytes).map (fun v => standardChar (base64urlChar v)))
    ((4 - (sextetsOfBytes bytes).length % 4) % 4) (by omega)
    (by rw [List.length_map]; omega)
    (by
      intro c hc
      obtain ⟨v, hv, rfl⟩ := List.mem_map.mp hc
      exact (base64urlChar_facts ⟨v, hs v hv⟩).2.2.1)
  have hne1 : ¬ ((sextetsOfBytes bytes).map
      (fun v => standardChar (base64urlChar v))).length % 4 = 1 := by
    rw [List.length_map]; omega
  unfold urlB64ToUint8Array atob
  simp only [hdata, hfilter, hstrip, if_neg hne1, hvals, hround]
  rw [utf16Units_bytes bytes hbytes]

/-- Witness for C30: four bytes whose encoding uses "-" and "_" and needs two
padding characters. -/
theorem urlB64ToUint8Array_base64urlEncode_witness :
    base64urlEncode [251, 255, 62, 1] = "-_8-AQ" ∧
    urlB64ToUint8Array "-_8-AQ" = some [251, 255, 62, 1] :=
  ⟨by decide, (urlB64ToUint8Array_base64urlEncode [251, 255, 62, 1] (by decide)).1⟩

end StoryCatalog
